import Mathlib

/-! sun_moon: rise, set and transit of the Sun and the Moon

A shallow embedding of `src/calc.cpp` and `src/time.cpp`.

Modelling conventions.

* A C++ `double` or `float` is an element of an ordered field `α` with a floor
  function (`ℚ` when a value is computed, `ℝ` when the statement is about real
  numbers); arithmetic is exact, rounding is not modelled.
* The C++ conversion `int(x)` of a double is `cast_int`: truncation toward zero
  within the range of the 32-bit `int`.  Outside that range the conversion is
  undefined in C++; the model takes the value that x86-64 gives, `INT_MIN`.  The
  conversion to the 64-bit `long` of `tv_nsec` is `cast_long`, likewise.
* The functions of `<cmath>` are not part of the repository; they are the fields
  of a `Libm α` that every function using them receives.  An undefined (NaN)
  result is `none`.  Statements about the values of sine, cosine and arctangent
  are proved for `real_libm`, the functions on the real numbers, whose power is `0`
  where that of doubles underflows.
* The `while` loop of the two solvers is run for a bounded number of iterations
  and yields an `Outcome`: its value, NaN, or still running.
* `localtime_r`, `stoi` and `stod` are not part of the repository either and are
  taken as function arguments; a thrown exception is `none`.
* An `unsigned int` is a natural number reduced modulo `2 ^ 32`.
* A member function of `Calc` or `Time` takes the instance as an argument and,
  when it assigns a member, returns the new instance with its result.
-/

namespace sun_moon

/-! ## Data -/

/-- The `struct timespec` of `<ctime>`. -/
structure Timespec where
  tv_sec : Int
  tv_nsec : Int
deriving DecidableEq, Repr

/-- The fields of `struct tm` that the sources read. -/
structure Tm where
  tm_year : Int
  tm_mon : Int
  tm_mday : Int
deriving DecidableEq, Repr

/-- `struct Coord` of `calc.hpp`. -/
structure Coord (α : Type) where
  lat : α
  lng : α

/-- The data members of `class Calc` (`calc.hpp`). -/
structure Calc (α : Type) where
  jst : Timespec
  lat_o : α
  lng_o : α
  ht_o : α
  dlt_t_d : α
  dip : α
  day_p : α

/-- The data members of `class Time` (`time.hpp`). -/
structure Time (α : Type) where
  l_ls : List (List String)
  l_dut : List (List String)
  dut1 : α
  utc_tai : Int
  dlt_t : α

/-- The `<cmath>` functions called by `calc.cpp`. -/
structure Libm (α : Type) where
  sin : α → α
  cos : α → α
  tan : α → α
  asin : α → α
  acos : α → α
  atan : α → α
  sqrt : α → α
  pow : α → α → α

/-- The fifteen functions declared in `delta_t.hpp`; their bodies are not in `src/`. -/
structure DeltaT (α : Type) where
  calc_dlt_t_bf_m500 : α → α
  calc_dlt_t_bf_0500 : α → α
  calc_dlt_t_bf_1600 : α → α
  calc_dlt_t_bf_1700 : α → α
  calc_dlt_t_bf_1800 : α → α
  calc_dlt_t_bf_1860 : α → α
  calc_dlt_t_bf_1900 : α → α
  calc_dlt_t_bf_1920 : α → α
  calc_dlt_t_bf_1941 : α → α
  calc_dlt_t_bf_1961 : α → α
  calc_dlt_t_bf_1986 : α → α
  calc_dlt_t_bf_2005 : α → α
  calc_dlt_t_bf_2050 : α → α
  calc_dlt_t_to_2150 : α → α
  calc_dlt_t_af_2150 : α → α

/-- `struct TmAh` of `calc.hpp`. -/
structure TmAh (α : Type) where
  time : Timespec
  ah : α

/-- What a function with a `while` loop yields when the loop is run for a bounded
number of iterations: the value it returns, `nan` when a NaN reached the loop
condition (the loop then exits and the function returns no number), or `running`
when the loop has not exited within the bound. -/
inductive Outcome (β : Type) where
  | value (v : β)
  | nan
  | running

/-- A call of one of the two public member functions of `Calc`, with its argument. -/
inductive Call where
  | sun (kbn : Nat)
  | moon (kbn : Nat)
deriving DecidableEq, Repr

section model

variable {α : Type} [LinearOrderedField α] [FloorRing α]

/-! ## `calc.cpp` -/

/-- The integer part of a double: the fraction is discarded (truncation toward zero). -/
def truncate (x : α) : Int :=
  if 0 ≤ x then Int.floor x else Int.ceil x

/-- The conversion `int(x)` of a double to the 32-bit `int`: the integer part of `x`
when that is an `int`.  Otherwise the conversion is undefined in C++; on x86-64 the
instruction that performs it (`cvttsd2si`) gives `INT_MIN`, which is the value here. -/
def cast_int (x : α) : Int :=
  if -2147483648 ≤ truncate x ∧ truncate x ≤ 2147483647 then truncate x else -2147483648

/-- The conversion of a double to the 64-bit `long` (the type of `tv_nsec`), as
`cast_int` with the range of `long`. -/
def cast_long (x : α) : Int :=
  if -9223372036854775808 ≤ truncate x ∧ truncate x ≤ 9223372036854775807 then truncate x
  else -9223372036854775808

/-- Constant `kPi = atan(1.0) * 4.0` of `calc.cpp`. -/
def kPi (M : Libm α) : α := M.atan 1.0 * 4.0

/-- Constant `kPi180 = kPi / 180.0` of `calc.cpp`. -/
def kPi180 (M : Libm α) : α := kPi M / 180.0

/-- `Calc::norm_ang`: `ang_src - 360.0 * int(ang_src / 360.0)`. -/
def norm_ang (ang_src : α) : α :=
  ang_src - 360.0 * (cast_int (ang_src / 360.0) : α)

/-- The loop `while (dt > 180.0) { dt -= 360.0; }`, run for at most `n` iterations. -/
def while_gt_180 : Nat → α → α
  | 0, dt => dt
  | n + 1, dt => if dt > 180.0 then while_gt_180 n (dt - 360.0) else dt

/-- The loop `while (dt < -180.0) { dt += 360.0; }`, run for at most `n` iterations. -/
def while_lt_m180 : Nat → α → α
  | 0, dt => dt
  | n + 1, dt => if dt < -180.0 then while_lt_m180 n (dt + 360.0) else dt

/-- A number of iterations after which either loop of `hour_ang_diff` has left `dt`
within 180 of zero (`while_gt_180_spec` and `while_lt_m180_spec` below). -/
def loop_bound (dt : α) : Nat := Nat.ceil (|dt| / 360)

/-- The hour angle `tk` of the rise/set point computed in the first half of
`Calc::hour_ang_diff`.  It is `none` when a divisor is zero or the quotient handed to
`acos` is outside `[-1, 1]`, where the C++ value is infinite or NaN. -/
def hour_ang_tk (M : Libm α) (c : Calc α) (cd_s : Coord α) (ht : α) (kbn : Nat) : Option α :=
  if kbn = 2 then
    some 0.0
  else
    let tk := M.sin (kPi180 M * ht) - M.sin (kPi180 M * cd_s.lat) * M.sin (kPi180 M * c.lat_o)
    let den := M.cos (kPi180 M * cd_s.lat) * M.cos (kPi180 M * c.lat_o)
    if den = 0 ∨ kPi180 M = 0 then none
    else
      let tk := tk / den
      if tk < -1 ∨ 1 < tk then none
      else
        let tk := M.acos tk / kPi180 M
        let tk := if kbn = 0 ∧ tk > 0.0 then |tk| * -1.0 else tk
        let tk := if kbn = 1 ∧ tk < 0.0 then |tk| else tk
        some tk

/-- The second half of `Calc::hour_ang_diff`: `dt = tk - tm_sd + cd_s.lng`, brought
back by steps of 360. -/
def hour_ang_adjust (tk : α) (cd_s : Coord α) (tm_sd : α) : α :=
  let dt := tk - tm_sd + cd_s.lng
  let dt := if dt > 180.0 then while_gt_180 (loop_bound dt) dt else dt
  let dt := if dt < -180.0 then while_lt_m180 (loop_bound dt) dt else dt
  dt

/-- `Calc::hour_ang_diff`. -/
def hour_ang_diff (M : Libm α) (c : Calc α) (cd_s : Coord α) (tm_sd ht : α) (kbn : Nat) :
    Option α :=
  (hour_ang_tk M c cd_s ht kbn).map fun tk => hour_ang_adjust tk cd_s tm_sd

/-! ## `calc.cpp`: the series -/

/-- `Calc::calc_lmd_sun`: ecliptic longitude of the Sun. -/
def calc_lmd_sun (M : Libm α) (jy : α) : α :=
  0.0003 * M.sin (kPi180 M * norm_ang (329.7 + 44.43 * jy))
  + 0.0003 * M.sin (kPi180 M * norm_ang (352.5 + 1079.97 * jy))
  + 0.0004 * M.sin (kPi180 M * norm_ang (21.1 + 720.02 * jy))
  + 0.0004 * M.sin (kPi180 M * norm_ang (157.3 + 299.30 * jy))
  + 0.0004 * M.sin (kPi180 M * norm_ang (234.9 + 315.56 * jy))
  + 0.0005 * M.sin (kPi180 M * norm_ang (291.2 + 22.81 * jy))
  + 0.0005 * M.sin (kPi180 M * norm_ang (207.4 + 1.50 * jy))
  + 0.0006 * M.sin (kPi180 M * norm_ang (29.8 + 337.18 * jy))
  + 0.0007 * M.sin (kPi180 M * norm_ang (206.8 + 30.35 * jy))
  + 0.0007 * M.sin (kPi180 M * norm_ang (153.3 + 90.38 * jy))
  + 0.0008 * M.sin (kPi180 M * norm_ang (132.5 + 659.29 * jy))
  + 0.0013 * M.sin (kPi180 M * norm_ang (81.4 + 225.18 * jy))
  + 0.0015 * M.sin (kPi180 M * norm_ang (343.2 + 450.37 * jy))
  + 0.0018 * M.sin (kPi180 M * norm_ang (251.3 + 0.20 * jy))
  + 0.0018 * M.sin (kPi180 M * norm_ang (297.8 + 4452.67 * jy))
  + 0.0020 * M.sin (kPi180 M * norm_ang (247.1 + 329.64 * jy))
  + 0.0048 * M.sin (kPi180 M * norm_ang (234.95 + 19.341 * jy))
  + 0.0200 * M.sin (kPi180 M * norm_ang (355.05 + 719.981 * jy))
  + (1.9146 - 0.00005 * jy)
  * M.sin (kPi180 M * norm_ang (357.538 + 359.991 * jy))
  + norm_ang (280.4603 + 360.00769 * jy)

/-- `Calc::calc_dist_sun`: distance of the Sun. -/
def calc_dist_sun (M : Libm α) (jy : α) : α :=
  let dist : α :=
    0.000007 * M.sin (kPi180 M * norm_ang (156.0 + 329.6 * jy))
    + 0.000007 * M.sin (kPi180 M * norm_ang (254.0 + 450.4 * jy))
    + 0.000013 * M.sin (kPi180 M * norm_ang (27.8 + 4452.67 * jy))
    + 0.000030 * M.sin (kPi180 M * norm_ang (90.0))
    + 0.000091 * M.sin (kPi180 M * norm_ang (265.1 + 719.98 * jy))
    + (0.007256 - 0.0000002 * jy)
    * M.sin (kPi180 M * norm_ang (267.54 + 359.991 * jy))
  M.pow 10.0 dist

/-- `Calc::calc_bet_moon`: ecliptic latitude of the Moon. -/
def calc_bet_moon (M : Libm α) (jy : α) : α :=
  let bm : α :=
    0.0005 * M.sin (kPi180 M * norm_ang (307.0 + 19.4 * jy))
    + 0.0026 * M.sin (kPi180 M * norm_ang (55.0 + 19.34 * jy))
    + 0.0040 * M.sin (kPi180 M * norm_ang (119.5 + 1.33 * jy))
    + 0.0043 * M.sin (kPi180 M * norm_ang (322.1 + 19.36 * jy))
    + 0.0267 * M.sin (kPi180 M * norm_ang (234.95 + 19.341 * jy))
  0.0003 * M.sin (kPi180 M * norm_ang (234.0 + 19268.0 * jy))
  + 0.0003 * M.sin (kPi180 M * norm_ang (146.0 + 3353.3 * jy))
  + 0.0003 * M.sin (kPi180 M * norm_ang (107.0 + 18149.4 * jy))
  + 0.0003 * M.sin (kPi180 M * norm_ang (205.0 + 22642.7 * jy))
  + 0.0004 * M.sin (kPi180 M * norm_ang (147.0 + 14097.4 * jy))
  + 0.0004 * M.sin (kPi180 M * norm_ang (13.0 + 9325.4 * jy))
  + 0.0004 * M.sin (kPi180 M * norm_ang (81.0 + 10242.6 * jy))
  + 0.0004 * M.sin (kPi180 M * norm_ang (238.0 + 23281.3 * jy))
  + 0.0004 * M.sin (kPi180 M * norm_ang (311.0 + 9483.9 * jy))
  + 0.0005 * M.sin (kPi180 M * norm_ang (239.0 + 4193.4 * jy))
  + 0.0005 * M.sin (kPi180 M * norm_ang (280.0 + 8485.3 * jy))
  + 0.0006 * M.sin (kPi180 M * norm_ang (52.0 + 13617.3 * jy))
  + 0.0006 * M.sin (kPi180 M * norm_ang (224.0 + 5590.7 * jy))
  + 0.0007 * M.sin (kPi180 M * norm_ang (294.0 + 13098.7 * jy))
  + 0.0008 * M.sin (kPi180 M * norm_ang (326.0 + 9724.1 * jy))
  + 0.0008 * M.sin (kPi180 M * norm_ang (70.0 + 17870.7 * jy))
  + 0.0010 * M.sin (kPi180 M * norm_ang (18.0 + 12978.66 * jy))
  + 0.0011 * M.sin (kPi180 M * norm_ang (138.3 + 19147.99 * jy))
  + 0.0012 * M.sin (kPi180 M * norm_ang (148.2 + 4851.36 * jy))
  + 0.0012 * M.sin (kPi180 M * norm_ang (38.4 + 4812.68 * jy))
  + 0.0013 * M.sin (kPi180 M * norm_ang (155.4 + 379.35 * jy))
  + 0.0013 * M.sin (kPi180 M * norm_ang (95.8 + 4472.03 * jy))
  + 0.0014 * M.sin (kPi180 M * norm_ang (219.2 + 299.96 * jy))
  + 0.0015 * M.sin (kPi180 M * norm_ang (45.8 + 9964.00 * jy))
  + 0.0015 * M.sin (kPi180 M * norm_ang (211.1 + 9284.69 * jy))
  + 0.0016 * M.sin (kPi180 M * norm_ang (135.7 + 420.02 * jy))
  + 0.0017 * M.sin (kPi180 M * norm_ang (99.8 + 14496.06 * jy))
  + 0.0018 * M.sin (kPi180 M * norm_ang (270.8 + 5192.01 * jy))
  + 0.0018 * M.sin (kPi180 M * norm_ang (243.3 + 8206.68 * jy))
  + 0.0019 * M.sin (kPi180 M * norm_ang (230.7 + 9244.02 * jy))
  + 0.0021 * M.sin (kPi180 M * norm_ang (170.1 + 1058.66 * jy))
  + 0.0022 * M.sin (kPi180 M * norm_ang (331.4 + 13377.37 * jy))
  + 0.0025 * M.sin (kPi180 M * norm_ang (196.5 + 8605.38 * jy))
  + 0.0034 * M.sin (kPi180 M * norm_ang (319.9 + 4433.31 * jy))
  + 0.0042 * M.sin (kPi180 M * norm_ang (103.9 + 18509.35 * jy))
  + 0.0043 * M.sin (kPi180 M * norm_ang (307.6 + 5470.66 * jy))
  + 0.0082 * M.sin (kPi180 M * norm_ang (144.9 + 3713.33 * jy))
  + 0.0088 * M.sin (kPi180 M * norm_ang (176.7 + 4711.96 * jy))
  + 0.0093 * M.sin (kPi180 M * norm_ang (277.4 + 8845.31 * jy))
  + 0.0172 * M.sin (kPi180 M * norm_ang (3.18 + 14375.997 * jy))
  + 0.0326 * M.sin (kPi180 M * norm_ang (328.96 + 13737.362 * jy))
  + 0.0463 * M.sin (kPi180 M * norm_ang (172.55 + 698.667 * jy))
  + 0.0554 * M.sin (kPi180 M * norm_ang (194.01 + 8965.374 * jy))
  + 0.1732 * M.sin (kPi180 M * norm_ang (142.427 + 4073.3220 * jy))
  + 0.2777 * M.sin (kPi180 M * norm_ang (138.311 + 60.0316 * jy))
  + 0.2806 * M.sin (kPi180 M * norm_ang (228.235 + 9604.0088 * jy))
  + 5.1282 * M.sin (kPi180 M * norm_ang (93.273 + 4832.0202 * jy + bm))

/-- `Calc::calc_lmd_moon`: ecliptic longitude of the Moon. -/
def calc_lmd_moon (M : Libm α) (jy : α) : α :=
  let am : α :=
    0.0006 * M.sin (kPi180 M * norm_ang (54.0 + 19.3 * jy))
    + 0.0006 * M.sin (kPi180 M * norm_ang (71.0 + 0.2 * jy))
    + 0.0020 * M.sin (kPi180 M * norm_ang (55.0 + 19.34 * jy))
    + 0.0040 * M.sin (kPi180 M * norm_ang (119.5 + 1.33 * jy))
  0.0003 * M.sin (kPi180 M * norm_ang (280.0 + 23221.3 * jy))
  + 0.0003 * M.sin (kPi180 M * norm_ang (161.0 + 40.7 * jy))
  + 0.0003 * M.sin (kPi180 M * norm_ang (311.0 + 5492.0 * jy))
  + 0.0003 * M.sin (kPi180 M * norm_ang (147.0 + 18089.3 * jy))
  + 0.0003 * M.sin (kPi180 M * norm_ang (66.0 + 3494.7 * jy))
  + 0.0003 * M.sin (kPi180 M * norm_ang (83.0 + 3814.0 * jy))
  + 0.0004 * M.sin (kPi180 M * norm_ang (20.0 + 720.0 * jy))
  + 0.0004 * M.sin (kPi180 M * norm_ang (71.0 + 9584.7 * jy))
  + 0.0004 * M.sin (kPi180 M * norm_ang (278.0 + 120.1 * jy))
  + 0.0004 * M.sin (kPi180 M * norm_ang (313.0 + 398.7 * jy))
  + 0.0005 * M.sin (kPi180 M * norm_ang (332.0 + 5091.3 * jy))
  + 0.0005 * M.sin (kPi180 M * norm_ang (114.0 + 17450.7 * jy))
  + 0.0005 * M.sin (kPi180 M * norm_ang (181.0 + 19088.0 * jy))
  + 0.0005 * M.sin (kPi180 M * norm_ang (247.0 + 22582.7 * jy))
  + 0.0006 * M.sin (kPi180 M * norm_ang (128.0 + 1118.7 * jy))
  + 0.0007 * M.sin (kPi180 M * norm_ang (216.0 + 278.6 * jy))
  + 0.0007 * M.sin (kPi180 M * norm_ang (275.0 + 4853.3 * jy))
  + 0.0007 * M.sin (kPi180 M * norm_ang (140.0 + 4052.0 * jy))
  + 0.0008 * M.sin (kPi180 M * norm_ang (204.0 + 7906.7 * jy))
  + 0.0008 * M.sin (kPi180 M * norm_ang (188.0 + 14037.3 * jy))
  + 0.0009 * M.sin (kPi180 M * norm_ang (218.0 + 8586.0 * jy))
  + 0.0011 * M.sin (kPi180 M * norm_ang (276.5 + 19208.02 * jy))
  + 0.0012 * M.sin (kPi180 M * norm_ang (339.0 + 12678.71 * jy))
  + 0.0016 * M.sin (kPi180 M * norm_ang (242.2 + 18569.38 * jy))
  + 0.0018 * M.sin (kPi180 M * norm_ang (4.1 + 4013.29 * jy))
  + 0.0020 * M.sin (kPi180 M * norm_ang (55.0 + 19.34 * jy))
  + 0.0021 * M.sin (kPi180 M * norm_ang (105.6 + 3413.37 * jy))
  + 0.0021 * M.sin (kPi180 M * norm_ang (175.1 + 719.98 * jy))
  + 0.0021 * M.sin (kPi180 M * norm_ang (87.5 + 9903.97 * jy))
  + 0.0022 * M.sin (kPi180 M * norm_ang (240.6 + 8185.36 * jy))
  + 0.0024 * M.sin (kPi180 M * norm_ang (252.8 + 9224.66 * jy))
  + 0.0024 * M.sin (kPi180 M * norm_ang (211.9 + 988.63 * jy))
  + 0.0026 * M.sin (kPi180 M * norm_ang (107.2 + 13797.39 * jy))
  + 0.0027 * M.sin (kPi180 M * norm_ang (272.5 + 9183.99 * jy))
  + 0.0037 * M.sin (kPi180 M * norm_ang (349.1 + 5410.62 * jy))
  + 0.0039 * M.sin (kPi180 M * norm_ang (111.3 + 17810.68 * jy))
  + 0.0040 * M.sin (kPi180 M * norm_ang (119.5 + 1.33 * jy))
  + 0.0040 * M.sin (kPi180 M * norm_ang (145.6 + 18449.32 * jy))
  + 0.0040 * M.sin (kPi180 M * norm_ang (13.2 + 13317.34 * jy))
  + 0.0048 * M.sin (kPi180 M * norm_ang (235.0 + 19.34 * jy))
  + 0.0050 * M.sin (kPi180 M * norm_ang (295.4 + 4812.66 * jy))
  + 0.0052 * M.sin (kPi180 M * norm_ang (197.2 + 319.32 * jy))
  + 0.0068 * M.sin (kPi180 M * norm_ang (53.2 + 9265.33 * jy))
  + 0.0079 * M.sin (kPi180 M * norm_ang (278.2 + 4493.34 * jy))
  + 0.0085 * M.sin (kPi180 M * norm_ang (201.5 + 8266.71 * jy))
  + 0.0100 * M.sin (kPi180 M * norm_ang (44.89 + 14315.966 * jy))
  + 0.0107 * M.sin (kPi180 M * norm_ang (336.44 + 13038.696 * jy))
  + 0.0110 * M.sin (kPi180 M * norm_ang (231.59 + 4892.052 * jy))
  + 0.0125 * M.sin (kPi180 M * norm_ang (141.51 + 14436.029 * jy))
  + 0.0153 * M.sin (kPi180 M * norm_ang (130.84 + 758.698 * jy))
  + 0.0305 * M.sin (kPi180 M * norm_ang (312.49 + 5131.979 * jy))
  + 0.0348 * M.sin (kPi180 M * norm_ang (117.84 + 4452.671 * jy))
  + 0.0410 * M.sin (kPi180 M * norm_ang (137.43 + 4411.998 * jy))
  + 0.0459 * M.sin (kPi180 M * norm_ang (238.18 + 8545.352 * jy))
  + 0.0533 * M.sin (kPi180 M * norm_ang (10.66 + 13677.331 * jy))
  + 0.0572 * M.sin (kPi180 M * norm_ang (103.21 + 3773.363 * jy))
  + 0.0588 * M.sin (kPi180 M * norm_ang (214.22 + 638.635 * jy))
  + 0.1143 * M.sin (kPi180 M * norm_ang (6.546 + 9664.0404 * jy))
  + 0.1856 * M.sin (kPi180 M * norm_ang (177.525 + 359.9905 * jy))
  + 0.2136 * M.sin (kPi180 M * norm_ang (269.926 + 9543.9773 * jy))
  + 0.6583 * M.sin (kPi180 M * norm_ang (235.700 + 8905.3422 * jy))
  + 1.2740 * M.sin (kPi180 M * norm_ang (100.738 + 4133.3536 * jy))
  + 6.2887 * M.sin (kPi180 M * norm_ang (134.961 + 4771.9886 * jy + am))
  + norm_ang (218.3161 + 4812.67881 * jy)

/-- `Calc::calc_diff_moon`: parallax of the Moon. -/
def calc_diff_moon (M : Libm α) (jy : α) : α :=
  0.0003 * M.sin (kPi180 M * norm_ang (227.0 + 4412.0 * jy))
  + 0.0004 * M.sin (kPi180 M * norm_ang (194.0 + 3773.4 * jy))
  + 0.0005 * M.sin (kPi180 M * norm_ang (329.0 + 8545.4 * jy))
  + 0.0009 * M.sin (kPi180 M * norm_ang (100.0 + 13677.3 * jy))
  + 0.0028 * M.sin (kPi180 M * norm_ang (0.0 + 9543.98 * jy))
  + 0.0078 * M.sin (kPi180 M * norm_ang (325.7 + 8905.34 * jy))
  + 0.0095 * M.sin (kPi180 M * norm_ang (190.7 + 4133.35 * jy))
  + 0.0518 * M.sin (kPi180 M * norm_ang (224.98 + 4771.989 * jy))
  + 0.9507 * M.sin (kPi180 M * norm_ang (90.0))

/-! ## `calc.cpp`: coordinates, sidereal time, angles -/

/-- Constant `kJstOffset` of `calc.cpp` (seconds). -/
def kJstOffset : Nat := 32400

/-- Constant `kSecDay` of `calc.cpp`. -/
def kSecDay : Nat := 86400

/-- Constant `kDipCoef` of `calc.cpp`. -/
def kDipCoef : α := 0.0353333

/-- Constant `kEps` of `calc.cpp`. -/
def kEps : α := 0.5e-4

/-- Constant `kAstrRef` of `calc.cpp`. -/
def kAstrRef : α := 0.585556

/-- The direction vector `(a, b, c)` computed in `Calc::ko2se`. -/
def ko2se_abc (M : Libm α) (jy : α) (cd_k : Coord α) : α × α × α :=
  let ang_k := (23.439291 - 0.000130042 * jy) * kPi180 M
  let lmd := cd_k.lng * kPi180 M
  let bet := cd_k.lat * kPi180 M
  let a := M.cos bet * M.cos lmd
  let b := -M.sin bet * M.sin ang_k + M.cos bet * M.sin lmd * M.cos ang_k
  let c := M.sin bet * M.cos ang_k + M.cos bet * M.sin lmd * M.sin ang_k
  (a, b, c)

/-- `Calc::ko2se`.  It is `none` when a divisor (`a` or `kPi180`) is zero or `c` is
outside `[-1, 1]`, the domain of `asin`, where the C++ value is infinite or NaN. -/
def ko2se (M : Libm α) (jy : α) (cd_k : Coord α) : Option (Coord α) :=
  let abc := ko2se_abc M jy cd_k
  let a := abc.1
  let b := abc.2.1
  let c := abc.2.2
  if a = 0 ∨ kPi180 M = 0 then none
  else if c < -1 ∨ 1 < c then none
  else
    let lng := M.atan (b / a) / kPi180 M
    let lng := if a < 0.0 then lng + 180.0 else lng
    let lat := M.asin c / kPi180 M
    some ⟨lat, lng⟩

/-- `Calc::tm_sidereal`. -/
def tm_sidereal (c : Calc α) (jy tm : α) : α :=
  norm_ang (325.4606 + 360.007700536 * jy + 0.00000003879 * jy * jy + 360.0 * tm + c.lng_o)

/-- The numerator `a_0` of `Calc::calc_angle`. -/
def angle_a_0 (M : Libm α) (cd_s : Coord α) (hang : α) : α :=
  -M.cos (kPi180 M * cd_s.lat) * M.sin (kPi180 M * hang)

/-- The denominator `a_1` of `Calc::calc_angle`. -/
def angle_a_1 (M : Libm α) (c : Calc α) (cd_s : Coord α) (hang : α) : α :=
  M.sin (kPi180 M * cd_s.lat) * M.cos (kPi180 M * c.lat_o)
    - M.cos (kPi180 M * cd_s.lat) * M.sin (kPi180 M * c.lat_o) * M.cos (kPi180 M * hang)

/-- `Calc::calc_angle`.  It is `none` when `ko2se` is undefined or `a_1` is zero. -/
def calc_angle (M : Libm α) (c : Calc α) (cd_k : Coord α) (dd jy : α) : Option α :=
  match ko2se M jy cd_k with
  | none => none
  | some cd_s =>
    let tm_sd := tm_sidereal c jy dd
    let hang := tm_sd - cd_s.lng
    let a_0 := angle_a_0 M cd_s hang
    let a_1 := angle_a_1 M c cd_s hang
    if a_1 = 0 then none
    else
      let ang := M.atan (a_0 / a_1) / kPi180 M
      let ang := if a_1 > 0.0 ∧ ang < 0.0 then ang + 360.0 else ang
      let ang := if a_1 < 0.0 then ang + 180.0 else ang
      some ang

/-- `Calc::calc_height`.  It is `none` when `ko2se` is undefined, when the argument
of `asin` is outside `[-1, 1]`, or when the cosine of the angle handed to `tan`
vanishes (the tangent is infinite). -/
def calc_height (M : Libm α) (c : Calc α) (cd_k : Coord α) (dd jy : α) : Option α :=
  match ko2se M jy cd_k with
  | none => none
  | some cd_s =>
    let tm_sd := tm_sidereal c jy dd
    let hang := tm_sd - cd_s.lng
    let ht := M.sin (kPi180 M * cd_s.lat) * M.sin (kPi180 M * c.lat_o)
      + M.cos (kPi180 M * cd_s.lat) * M.cos (kPi180 M * c.lat_o) * M.cos (kPi180 M * hang)
    if ht < -1 ∨ 1 < ht then none
    else
      let ht := M.asin ht / kPi180 M
      if M.cos (kPi180 M * (90.0 - ht)) = 0 then none
      else
        let tan_ht := M.tan (kPi180 M * (90.0 - ht))
        let h := (58.76 - (0.406 - 0.0192 * tan_ht) * tan_ht) * tan_ht / 3600.0
        some (ht + h)

/-! ## `calc.cpp`: the solvers -/

/-- One pass through the loop body of `Calc::calc_time_sun` at the time `tm`: the new
value of `rev`.  It is `none` when a value on the way is undefined. -/
def sun_rev (M : Libm α) (c : Calc α) (kbn : Nat) (tm : α) : Option α :=
  let jy := (c.day_p + tm + c.dlt_t_d) / 365.25
  let cd_k : Coord α := ⟨0.0, calc_lmd_sun M jy⟩
  let dist := calc_dist_sun M jy
  match ko2se M jy cd_k with
  | none => none
  | some cd_s =>
    if dist = 0 then none
    else
      let r := 0.266994 / dist
      let diff := 0.0024428 / dist
      let ht := -r - kAstrRef - c.dip + diff
      let tm_sd := tm_sidereal c jy tm
      match hour_ang_diff M c cd_s tm_sd ht kbn with
      | none => none
      | some hang_diff => some (hang_diff / 360.0)

/-- One pass through the loop body of `Calc::calc_time_moon` at the time `tm`: the new
value of `rev`.  It is `none` when a value on the way is undefined. -/
def moon_rev (M : Libm α) (c : Calc α) (kbn : Nat) (tm : α) : Option α :=
  let jy := (c.day_p + tm + c.dlt_t_d) / 365.25
  let cd_k : Coord α := ⟨calc_bet_moon M jy, calc_lmd_moon M jy⟩
  match ko2se M jy cd_k with
  | none => none
  | some cd_s =>
    let ht := if kbn ≠ 2 then calc_diff_moon M jy - c.dip - kAstrRef else 0.0
    let tm_sd := tm_sidereal c jy tm
    match hour_ang_diff M c cd_s tm_sd ht kbn with
    | none => none
    | some hang_diff => some (hang_diff / 347.8)

/-- The loop `while (std::abs(rev) > kEps) { rev = ...; tm += rev; }` of the two
solvers, with at most `n` passes through the body; `rev_at tm` is the value that the
body assigns to `rev`. -/
def solver_loop (rev_at : α → Option α) : Nat → α → α → Outcome α
  | 0, rev, tm => if |rev| > kEps then .running else .value tm
  | n + 1, rev, tm =>
    if |rev| > kEps then
      match rev_at tm with
      | none => .nan
      | some rev2 => solver_loop rev_at n rev2 (tm + rev2)
    else .value tm

/-- `Calc::calc_time_sun`, the loop run for at most `n` iterations. -/
def calc_time_sun (M : Libm α) (c : Calc α) (kbn : Nat) (n : Nat) : Outcome α :=
  solver_loop (sun_rev M c kbn) n 1.0 0.5

/-- The loop of `Calc::calc_time_moon`, run for at most `n` iterations: the value of
`tm` at its exit. -/
def calc_time_moon_loop (M : Libm α) (c : Calc α) (kbn : Nat) (n : Nat) : Outcome α :=
  solver_loop (moon_rev M c kbn) n 1.0 0.5

/-- `Calc::calc_time_moon`, the loop run for at most `n` iterations. -/
def calc_time_moon (M : Libm α) (c : Calc α) (kbn : Nat) (n : Nat) : Outcome α :=
  match calc_time_moon_loop M c kbn n with
  | .value tm => .value (if tm < 0.0 ∨ tm ≥ 1.0 then -1.0 else tm)
  | .nan => .nan
  | .running => .running

/-- The `timespec` that `calc_sun` and `calc_moon` compute from `jst` and the time
`dd` in days: seconds and nanoseconds are converted by truncation, then one second
is carried when `tv_nsec >= 1.0e9`. -/
def event_time (jst : Timespec) (dd : α) : Timespec :=
  let dd_s := dd * (kSecDay : α)
  let tv_sec := jst.tv_sec + cast_int dd_s
  let tv_nsec := cast_long ((jst.tv_nsec : α) + (dd_s - (cast_int dd_s : α)) * 1.0e9)
  if (tv_nsec : α) ≥ 1.0e9 then ⟨tv_sec + 1, cast_long ((tv_nsec : α) - 1.0e9)⟩
  else ⟨tv_sec, tv_nsec⟩

/-- `Calc::calc_sun`, the solver loop run for at most `n` iterations. -/
def calc_sun (M : Libm α) (c : Calc α) (kbn : Nat) (n : Nat) : Outcome (TmAh α) :=
  match calc_time_sun M c kbn n with
  | .running => .running
  | .nan => .nan
  | .value dd =>
    let time := event_time c.jst dd
    let jy := (c.day_p + dd + c.dlt_t_d) / 365.25
    let cd_k : Coord α := ⟨0.0, calc_lmd_sun M jy⟩
    match (if kbn = 2 then calc_height M c cd_k dd jy else calc_angle M c cd_k dd jy) with
    | none => .nan
    | some ah => .value ⟨time, ah⟩

/-- `Calc::calc_moon`, the solver loop run for at most `n` iterations. -/
def calc_moon (M : Libm α) (c : Calc α) (kbn : Nat) (n : Nat) : Outcome (TmAh α) :=
  match calc_time_moon M c kbn n with
  | .running => .running
  | .nan => .nan
  | .value dd =>
    if dd < 0.0 then .value ⟨⟨0, 0⟩, -1.0⟩
    else
      let time := event_time c.jst dd
      let jy := (c.day_p + dd + c.dlt_t_d) / 365.25
      let cd_k : Coord α := ⟨calc_bet_moon M jy, calc_lmd_moon M jy⟩
      match (if kbn = 2 then calc_height M c cd_k dd jy else calc_angle M c cd_k dd jy) with
      | none => .nan
      | some ah => .value ⟨time, ah⟩

/-- A call of `calc_sun` or `calc_moon` on the instance `c`: the result and the state
of the instance after the call.  Neither function, nor any function they call,
assigns a member. -/
def Calc.call (M : Libm α) (n : Nat) (c : Calc α) : Call → Outcome (TmAh α) × Calc α
  | .sun kbn => (calc_sun M c kbn n, c)
  | .moon kbn => (calc_moon M c kbn n, c)

/-- A sequence of calls on one instance: the results in order and the instance after
the last call. -/
def Calc.calls (M : Libm α) (n : Nat) : Calc α → List Call → List (Outcome (TmAh α)) × Calc α
  | c, [] => ([], c)
  | c, k :: ks =>
    let r := Calc.call M n c k
    let rs := Calc.calls M n r.2 ks
    (r.1 :: rs.1, rs.2)

/-! ## `time.cpp` -/

/-- Constant `kTtTai` of `time.cpp`. -/
def kTtTai : α := 32.184

/-- The table loop of `Time::get_utc_tai` and of `Time::get_dut1`,
`for (i = l.size() - 1; i >= 0; --i) { if (l[i][0] <= dt_t) { v = parse(l[i][1]); break; } }`,
as a function of `i + 1`; `v` is the value assigned before the loop.  Reading a
field that a row does not have is `none`, as is a `parse` that throws. -/
def table_loop {β : Type} (parse : String → Option β) (l : List (List String))
    (dt_t : String) (v : β) : Nat → Option β
  | 0 => some v
  | i + 1 =>
    match l[i]? with
    | none => none
    | some row =>
      match row[0]? with
      | none => none
      | some d =>
        if d ≤ dt_t then
          match row[1]? with
          | none => none
          | some f => parse f
        else table_loop parse l dt_t v i

/-- `Time::get_utc_tai`.  The argument `dt_t` is the target date string that the
source formats from `localtime_r(ts)`; the result is the returned value with the new
state of the instance, whose member `utc_tai` holds that value. -/
def get_utc_tai (stoi : String → Option Int) (o : Time α) (dt_t : String) :
    Option (Int × Time α) :=
  (table_loop stoi o.l_ls dt_t 0 o.l_ls.length).map fun v => (v, { o with utc_tai := v })

/-- `Time::get_dut1`.  The argument `dt_t` is the target date string that the source
formats from `localtime_r(ts)`; `stod` stands for `std::stod` followed by the
narrowing to `float`; the result is the returned value with the instance, whose
member `dut1` holds that value. -/
def get_dut1 (stod : String → Option α) (o : Time α) (dt_t : String) :
    Option (α × Time α) :=
  (table_loop stod o.l_dut dt_t 0.0 o.l_dut.length).map fun v => (v, { o with dut1 := v })

/-- `Time::calc_dlt_t`: the returned value with the instance after the call. -/
def calc_dlt_t (P : DeltaT α) (localtime_r : Int → Tm) (o : Time α) (ts : Timespec)
    (utc_tai : Int) (dut1 : α) : α × Time α :=
  if o.dlt_t ≠ 0.0 then (o.dlt_t, o)
  else if utc_tai ≠ 0 then (kTtTai - (utc_tai : α) - dut1, o)
  else
    let t := localtime_r ts.tv_sec
    let year : Int := t.tm_year + 1900
    let y : α := (year : α) + ((t.tm_mon : α) + 1 - 0.5) / 12
    let o :=
      if year < -500 then { o with dlt_t := P.calc_dlt_t_bf_m500 y }
      else if -500 ≤ year ∧ year < 500 then { o with dlt_t := P.calc_dlt_t_bf_0500 y }
      else if 500 ≤ year ∧ year < 1600 then { o with dlt_t := P.calc_dlt_t_bf_1600 y }
      else if 1600 ≤ year ∧ year < 1700 then { o with dlt_t := P.calc_dlt_t_bf_1700 y }
      else if 1700 ≤ year ∧ year < 1800 then { o with dlt_t := P.calc_dlt_t_bf_1800 y }
      else if 1800 ≤ year ∧ year < 1860 then { o with dlt_t := P.calc_dlt_t_bf_1860 y }
      else if 1860 ≤ year ∧ year < 1900 then { o with dlt_t := P.calc_dlt_t_bf_1900 y }
      else if 1900 ≤ year ∧ year < 1920 then { o with dlt_t := P.calc_dlt_t_bf_1920 y }
      else if 1920 ≤ year ∧ year < 1941 then { o with dlt_t := P.calc_dlt_t_bf_1941 y }
      else if 1941 ≤ year ∧ year < 1961 then { o with dlt_t := P.calc_dlt_t_bf_1961 y }
      else if 1961 ≤ year ∧ year < 1986 then { o with dlt_t := P.calc_dlt_t_bf_1986 y }
      else if 1986 ≤ year ∧ year < 2005 then { o with dlt_t := P.calc_dlt_t_bf_2005 y }
      else if 2005 ≤ year ∧ year < 2050 then { o with dlt_t := P.calc_dlt_t_bf_2050 y }
      else if 2050 ≤ year ∧ year ≤ 2150 then { o with dlt_t := P.calc_dlt_t_to_2150 y }
      else if 2150 < year then { o with dlt_t := P.calc_dlt_t_af_2150 y }
      else o
    (o.dlt_t, o)

/-! ## `calc.cpp`: the day count -/

/-- Constant `kJstUtc` of `calc.cpp`. -/
def kJstUtc : Nat := 9

/-- The conversion of an `int` to `unsigned int`. -/
def to_unsigned (i : Int) : Nat := (i % 2 ^ 32).toNat

/-- `Calc::calc_day_progress`; `y`, `m` and `d` are `unsigned int`. -/
def calc_day_progress (localtime_r : Int → Tm) (c : Calc α) : α :=
  let t := localtime_r c.jst.tv_sec
  let y : Nat := to_unsigned (t.tm_year + 1900 - 2000)
  let m : Nat := to_unsigned (t.tm_mon + 1)
  let d : Nat := to_unsigned t.tm_mday
  let ym : Nat × Nat := if m < 3 then ((y + (2 ^ 32 - 1)) % 2 ^ 32, (m + 12) % 2 ^ 32) else (y, m)
  let y := ym.1
  let m := ym.2
  365.0 * (y : α) + 30.0 * (m : α) + (d : α) - 33.5 - (kJstUtc : α) / 24.0
    + (cast_int (((3 * (m + 1) % 2 ^ 32 : Nat) : α) / 5.0) : α)
    + (cast_int ((y : α) / 4.0) : α)

/-! ## `file.cpp` and the constructors -/

/-- The characters that `operator>>` skips: `isspace` in the C locale. -/
def isspace (ch : Char) : Bool :=
  ch = ' ' || ch = '\t' || ch = '\n' || ch = '\r' || ch.toNat = 11 || ch.toNat = 12

/-- The lines that successive calls of `getline(ifs, buf)` read from the characters
left in a file; `cur` holds the characters of the current line, last first. -/
def getlines : List Char → List Char → List String
  | [], cur => if cur = [] then [] else [String.mk cur.reverse]
  | ch :: rest, cur =>
    if ch = '\n' then String.mk cur.reverse :: getlines rest []
    else getlines rest (ch :: cur)

/-- The strings that `while (iss >> s) rec.push_back(s);` appends to an empty `rec`
from the characters left in a line; `cur` holds the characters of the current
string, last first. -/
def read_rec : List Char → List Char → List String
  | [], cur => if cur = [] then [] else [String.mk cur.reverse]
  | ch :: rest, cur =>
    if isspace ch then
      (if cur = [] then read_rec rest [] else String.mk cur.reverse :: read_rec rest [])
    else read_rec rest (ch :: cur)

/-- The loop `while (getline(ifs, buf)) { ...; if (rec.size() != 0) data.push_back(rec); }`
of `File::get_leap_sec_list` and `File::get_dut1_list` over the lines left to read. -/
def read_loop : List String → List (List String) → List (List String)
  | [], data => data
  | buf :: rest, data =>
    let rec_1 := read_rec buf.toList []
    read_loop rest (if rec_1.length ≠ 0 then data ++ [rec_1] else data)

/-- `File::get_leap_sec_list`: the returned flag and `data` after the call.  The
argument `file` is the text of `LEAP_SEC.txt`, `none` when the file cannot be opened. -/
def get_leap_sec_list (file : Option String) (data : List (List String)) :
    Bool × List (List String) :=
  match file with
  | none => (false, data)
  | some text => (true, read_loop (getlines text.toList []) data)

/-- `File::get_dut1_list`: the returned flag and `data` after the call.  The argument
`file` is the text of `DUT1.txt`, `none` when the file cannot be opened. -/
def get_dut1_list (file : Option String) (data : List (List String)) :
    Bool × List (List String) :=
  match file with
  | none => (false, data)
  | some text => (true, read_loop (getlines text.toList []) data)

/-- `Time::Time`.  It is `none` when the constructor executes `throw;`, which ends the
program.  The members `dut1` and `utc_tai` are not initialised by the constructor;
`dut1_0` and `utc_tai_0` are the values they happen to hold. -/
def Time.construct (leap_sec dut1_file : Option String) (dut1_0 : α) (utc_tai_0 : Int) :
    Option (Time α) :=
  match get_leap_sec_list leap_sec [] with
  | (false, _) => none
  | (true, l_ls) =>
    match get_dut1_list dut1_file [] with
    | (false, _) => none
    | (true, l_dut) => some ⟨l_ls, l_dut, dut1_0, utc_tai_0, 0.0⟩

/-- The text of `ss << std::setw(w) << std::setfill('0') << std::right << i`. -/
def put_int (w : Nat) (i : Int) : String :=
  String.mk (List.replicate (w - (toString i).length) '0') ++ toString i

/-- The target date string `dt_t` built in `get_utc_tai` and `get_dut1`. -/
def date_string (t : Tm) : String :=
  put_int 4 (t.tm_year + 1900) ++ put_int 2 (t.tm_mon + 1) ++ put_int 2 t.tm_mday

/-- `Calc::Calc`.  It is `none` when the construction of `Time` fails or a table
look-up throws.  For a negative `ht` the source does construct an instance, whose
`dip` is NaN (`sqrt` of a negative number); an instance with an undefined member has
no value here, so the result is `none` then as well, although the source goes on to
compute with that instance.  The header of `sun_moon.cpp` excludes a negative height. -/
def Calc.construct (M : Libm α) (P : DeltaT α) (localtime_r : Int → Tm)
    (stoi : String → Option Int) (stod : String → Option α)
    (leap_sec dut1_file : Option String) (dut1_0 : α) (utc_tai_0 : Int)
    (jst : Timespec) (lat lng ht : α) : Option (Calc α) :=
  let utc : Timespec := ⟨jst.tv_sec - (kJstOffset : Int), 0⟩
  match Time.construct leap_sec dut1_file dut1_0 utc_tai_0 with
  | none => none
  | some o_tm =>
    match get_utc_tai stoi o_tm (date_string (localtime_r utc.tv_sec)) with
    | none => none
    | some (utc_tai, o_tm) =>
      match get_dut1 stod o_tm (date_string (localtime_r utc.tv_sec)) with
      | none => none
      | some (dut1, o_tm) =>
        let dlt_t := (calc_dlt_t P localtime_r o_tm utc utc_tai dut1).1
        if ht < 0 then none
        else
          let c : Calc α :=
            { jst := jst, lat_o := lat, lng_o := lng, ht_o := ht,
              dlt_t_d := dlt_t / (kSecDay : α), dip := kDipCoef * M.sqrt ht, day_p := 0 }
          some { c with day_p := calc_day_progress localtime_r c }

/-! ## `sun_moon.cpp` -/

/-- The part of `main` before `ns::Calc o_c(jst, lat, lng, ht);`: the four arguments
handed to the constructor.  It is `none` when `main` returns `EXIT_FAILURE` before
or `std::stod` throws.  `argv` holds the program name and the arguments, and
`mktime_of` stands for `std::get_time` followed by `mktime`. -/
def main_calc_args (stod : String → Option α) (mktime_of : String → Int)
    (argv : List String) : Option (Timespec × α × α × α) :=
  if argv.length < 5 then none
  else
    match argv[1]?, argv[2]?, argv[3]?, argv[4]? with
    | some tm_str, some arg_2, some arg_3, some arg_4 =>
      if tm_str.length > 8 then none
      else
        let jst : Timespec := ⟨mktime_of tm_str, 0⟩
        match stod arg_2, stod arg_3, stod arg_4 with
        | some lat, some lng, some ht =>
          let lat := if lat < 0.0 then |lat| else lat
          let lng := if lng < 0.0 then |lng| else lng
          some (jst, lat, lng, ht)
        | _, _, _ => none
    | _, _, _, _ => none

/-! ## Parts of the functions above, named for the statements -/

/-- The exponent of 10 in `calc_dist_sun`: the sum that `dist` holds before
`dist = std::pow(10.0, dist)`. -/
def dist_sun_exp (M : Libm α) (jy : α) : α :=
  0.000007 * M.sin (kPi180 M * norm_ang (156.0 + 329.6 * jy))
  + 0.000007 * M.sin (kPi180 M * norm_ang (254.0 + 450.4 * jy))
  + 0.000013 * M.sin (kPi180 M * norm_ang (27.8 + 4452.67 * jy))
  + 0.000030 * M.sin (kPi180 M * norm_ang (90.0))
  + 0.000091 * M.sin (kPi180 M * norm_ang (265.1 + 719.98 * jy))
  + (0.007256 - 0.0000002 * jy)
  * M.sin (kPi180 M * norm_ang (267.54 + 359.991 * jy))

/-- The argument of `asin` in `Calc::calc_height` (`calc_height_eq` below). -/
def height_sin (M : Libm α) (c : Calc α) (cd_s : Coord α) (hang : α) : α :=
  M.sin (kPi180 M * cd_s.lat) * M.sin (kPi180 M * c.lat_o)
    + M.cos (kPi180 M * cd_s.lat) * M.cos (kPi180 M * c.lat_o) * M.cos (kPi180 M * hang)

/-- The correction `h` that `Calc::calc_height` adds to the altitude `ht`
(`calc_height_eq` below). -/
def refraction (M : Libm α) (ht : α) : α :=
  let tan_ht := M.tan (kPi180 M * (90.0 - ht))
  (58.76 - (0.406 - 0.0192 * tan_ht) * tan_ht) * tan_ht / 3600.0

/-- The altitude `ht` of the rising or setting Sun computed in the loop body of
`Calc::calc_time_sun` (`sun_rev_eq` below). -/
def sun_ht (M : Libm α) (c : Calc α) (jy : α) : α :=
  let dist := calc_dist_sun M jy
  let r := 0.266994 / dist
  let diff := 0.0024428 / dist
  let ht := -r - kAstrRef - c.dip + diff
  ht

/-- The quotient handed to `acos` in `Calc::hour_ang_diff`. -/
def acos_arg (M : Libm α) (c : Calc α) (cd_s : Coord α) (ht : α) : α :=
  (M.sin (kPi180 M * ht) - M.sin (kPi180 M * cd_s.lat) * M.sin (kPi180 M * c.lat_o))
    / (M.cos (kPi180 M * cd_s.lat) * M.cos (kPi180 M * c.lat_o))

end model

/-! ## Reference definitions for the statements -/

/-- The eras of the ΔT model, one for each function of `delta_t.hpp`. -/
inductive Era where
  | bf_m500 | bf_0500 | bf_1600 | bf_1700 | bf_1800 | bf_1860 | bf_1900 | bf_1920
  | bf_1941 | bf_1961 | bf_1986 | bf_2005 | bf_2050 | to_2150 | af_2150
deriving DecidableEq, Repr

/-- The range of years of an era, as listed in the specification and in the
comments of `delta_t.hpp`. -/
def Era.range : Era → Int → Prop
  | .bf_m500, year => year < -500
  | .bf_0500, year => -500 ≤ year ∧ year < 500
  | .bf_1600, year => 500 ≤ year ∧ year < 1600
  | .bf_1700, year => 1600 ≤ year ∧ year < 1700
  | .bf_1800, year => 1700 ≤ year ∧ year < 1800
  | .bf_1860, year => 1800 ≤ year ∧ year < 1860
  | .bf_1900, year => 1860 ≤ year ∧ year < 1900
  | .bf_1920, year => 1900 ≤ year ∧ year < 1920
  | .bf_1941, year => 1920 ≤ year ∧ year < 1941
  | .bf_1961, year => 1941 ≤ year ∧ year < 1961
  | .bf_1986, year => 1961 ≤ year ∧ year < 1986
  | .bf_2005, year => 1986 ≤ year ∧ year < 2005
  | .bf_2050, year => 2005 ≤ year ∧ year < 2050
  | .to_2150, year => 2050 ≤ year ∧ year ≤ 2150
  | .af_2150, year => 2150 < year

/-- The formula of an era. -/
def DeltaT.formula {α : Type} (P : DeltaT α) : Era → α → α
  | .bf_m500 => P.calc_dlt_t_bf_m500
  | .bf_0500 => P.calc_dlt_t_bf_0500
  | .bf_1600 => P.calc_dlt_t_bf_1600
  | .bf_1700 => P.calc_dlt_t_bf_1700
  | .bf_1800 => P.calc_dlt_t_bf_1800
  | .bf_1860 => P.calc_dlt_t_bf_1860
  | .bf_1900 => P.calc_dlt_t_bf_1900
  | .bf_1920 => P.calc_dlt_t_bf_1920
  | .bf_1941 => P.calc_dlt_t_bf_1941
  | .bf_1961 => P.calc_dlt_t_bf_1961
  | .bf_1986 => P.calc_dlt_t_bf_1986
  | .bf_2005 => P.calc_dlt_t_bf_2005
  | .bf_2050 => P.calc_dlt_t_bf_2050
  | .to_2150 => P.calc_dlt_t_to_2150
  | .af_2150 => P.calc_dlt_t_af_2150

/-- Leap years of the Gregorian calendar. -/
def is_leap_year (Y : Nat) : Bool :=
  Y % 4 = 0 ∧ (Y % 100 ≠ 0 ∨ Y % 400 = 0)

/-- Length of year `Y` in days. -/
def days_in_year (Y : Nat) : Nat :=
  if is_leap_year Y then 366 else 365

/-- Length of month `M` (1 to 12) of year `Y` in days. -/
def days_in_month (Y M : Nat) : Nat :=
  if M = 2 then (if is_leap_year Y then 29 else 28)
  else if M = 4 ∨ M = 6 ∨ M = 9 ∨ M = 11 then 30
  else 31

/-- Days in the years `2000, ..., 2000 + n - 1`. -/
def days_of_years : Nat → Nat
  | 0 => 0
  | n + 1 => days_of_years n + days_in_year (2000 + n)

/-- Days in the months `1, ..., k` of year `Y`. -/
def days_of_months (Y : Nat) : Nat → Nat
  | 0 => 0
  | k + 1 => days_of_months Y k + days_in_month Y (k + 1)

/-- Days from 2000-01-01 to the date `Y-M-D` of the Gregorian calendar, `2000 ≤ Y`. -/
def days_from_2000_01_01 (Y M D : Nat) : Nat :=
  days_of_years (Y - 2000) + days_of_months Y (M - 1) + (D - 1)

/-- The triple `Y-M-D` is a date of the Gregorian calendar. -/
def is_date (Y M D : Nat) : Prop :=
  1 ≤ M ∧ M ≤ 12 ∧ 1 ≤ D ∧ D ≤ days_in_month Y M

/-- The date `Y-M-D` is not before 2000-03-01 and not after 2100-02-28. -/
def in_century (Y M D : Nat) : Prop :=
  (Y = 2000 ∧ 3 ≤ M) ∨ (2001 ≤ Y ∧ Y ≤ 2099) ∨ (Y = 2100 ∧ (M = 1 ∨ (M = 2 ∧ D ≤ 28)))

/-- The functions of `<cmath>` on the real numbers.  The power is the exact power
as far as the range of a double reaches downward: a power below `2 ^ (-1075)`, half
the least positive double, is `0`, as `std::pow` returns it (underflow).  A power
above the largest double, which `std::pow` returns as `+inf`, has no counterpart
here; the statements about `pow` keep the exponent away from it. -/
noncomputable def real_libm : Libm ℝ :=
  { sin := Real.sin, cos := Real.cos, tan := Real.tan, asin := Real.arcsin,
    acos := Real.arccos, atan := Real.arctan, sqrt := Real.sqrt,
    pow := fun x y => if x ^ y < 1 / 2 ^ 1075 then 0 else x ^ y }

/-- The two-argument arctangent `atan2(y, x)` in degrees: the argument of `x + y i`,
in `(-180, 180]`. -/
noncomputable def atan2_deg (y x : ℝ) : ℝ :=
  Complex.arg ⟨x, y⟩ * 180 / Real.pi

/-- The records of a table file as the specification describes them: every line
that is not blank, split at white space, in the order of the file. -/
def records (text : String) : List (List String) :=
  ((getlines text.toList []).map fun buf => read_rec buf.toList []).filter fun r => r ≠ []

/-- The number written by a list of decimal digits. -/
def digits_value : List Char → Nat
  | [] => 0
  | ch :: cs => (ch.toNat - 48) * 10 ^ cs.length + digits_value cs

/-- The number `YYYYMMDD` that a date string writes. -/
def date_number (s : String) : Nat := digits_value s.toList

/-- The string is exactly eight decimal digits. -/
def is_date_string (s : String) : Prop :=
  s.toList.length = 8 ∧ s.toList.all Char.isDigit = true

instance (s : String) : Decidable (is_date_string s) := by
  unfold is_date_string; infer_instance

instance (e : Era) (year : Int) : Decidable (e.range year) := by
  cases e <;> unfold Era.range <;> infer_instance

instance (Y M D : Nat) : Decidable (is_date Y M D) := by
  unfold is_date; infer_instance

instance (Y M D : Nat) : Decidable (in_century Y M D) := by
  unfold in_century; infer_instance

/-! ## Sample arguments -/

/-- A `Libm ℚ` for evaluating the model at inputs where no `<cmath>` function is called. -/
def libm_unused : Libm ℚ :=
  ⟨fun _ => 0, fun _ => 0, fun _ => 0, fun _ => 0, fun _ => 0, fun _ => 0, fun _ => 0,
    fun _ _ => 0⟩

/-- An observer at latitude 35, longitude 135, height 0, at `tv_sec = 0`. -/
def calc_sample : Calc ℚ :=
  ⟨⟨0, 0⟩, 35, 135, 0, 0, 0, 0⟩

/-- A stand-in for `std::stoi` on the fields of the sample tables: an optional `-`
followed by decimal digits. -/
def stoi_sample (s : String) : Option Int :=
  let value (ds : List Char) : Nat := ds.foldl (fun n ch => 10 * n + (ch.toNat - 48)) 0
  match s.toList with
  | [] => none
  | '-' :: ds => if ds ≠ [] ∧ ds.all Char.isDigit then some (-(value ds : Int)) else none
  | ds => if ds.all Char.isDigit then some (value ds : Int) else none

/-- A stand-in for `std::stod` on the fields of the sample tables: tenths of a second
written as `0.d` or `-0.d`. -/
def stod_sample (s : String) : Option ℚ :=
  match s.toList with
  | ['0', '.', ch] => if ch.isDigit then some (((ch.toNat - 48 : Nat) : ℚ) / 10) else none
  | ['-', '0', '.', ch] => if ch.isDigit then some (-(((ch.toNat - 48 : Nat) : ℚ) / 10)) else none
  | _ => none

/-- A `Time` as the constructor leaves it (`dlt_t = 0`), with three rows in each table. -/
def time_sample : Time ℚ :=
  { l_ls := [["20150701", "-36"], ["20170101", "-37"], ["20250101", "-38"]]
    l_dut := [["20170101", "0.4"], ["20170330", "0.3"], ["20250101", "-0.1"]]
    dut1 := 0
    utc_tai := 0
    dlt_t := 0 }

/-- A `DeltaT ℚ` whose fifteen functions are the constants 1 to 15, in the order of
`delta_t.hpp`. -/
def delta_t_sample : DeltaT ℚ :=
  ⟨fun _ => 1, fun _ => 2, fun _ => 3, fun _ => 4, fun _ => 5, fun _ => 6, fun _ => 7,
    fun _ => 8, fun _ => 9, fun _ => 10, fun _ => 11, fun _ => 12, fun _ => 13,
    fun _ => 14, fun _ => 15⟩

/-- A `Libm ℚ` with constant functions: `sin = 0`, `cos = 1`, `atan = 45` (so that
`kPi = 180` and `kPi180 = 1`), `pow = 1`, the others `0`.  With it the model can be
run to the end on rational numbers. -/
def libm_flat : Libm ℚ :=
  { sin := fun _ => 0, cos := fun _ => 1, tan := fun _ => 0, asin := fun _ => 0,
    acos := fun _ => 0, atan := fun _ => 45, sqrt := fun _ => 0, pow := fun _ _ => 1 }

/-- An instance with `day_p = -0.5`, `dlt_t_d = 0` and longitude `-100.4606`, for
which the sidereal time at `tm = 0.5` is `45`. -/
def calc_flat : Calc ℚ :=
  { jst := ⟨946652400, 0⟩, lat_o := 35, lng_o := -100.4606, ht_o := 0, dlt_t_d := 0,
    dip := 0, day_p := -0.5 }

/-- An observer at the north pole (latitude 90). -/
noncomputable def calc_pole : Calc ℝ :=
  { jst := ⟨946652400, 0⟩, lat_o := 90, lng_o := 0, ht_o := 0, dlt_t_d := 0, dip := 0,
    day_p := -0.5 }

/-- An observer at latitude 90 and longitude `-325.4606`, for which the sidereal time
at `jy = 0`, `tm = 0` is `0`. -/
noncomputable def calc_north : Calc ℝ :=
  { jst := ⟨946652400, 0⟩, lat_o := 90, lng_o := -325.4606, ht_o := 0, dlt_t_d := 0,
    dip := 0, day_p := 0 }

/-- An observer on the equator at longitude 0, height 0. -/
noncomputable def calc_equator : Calc ℝ :=
  { jst := ⟨946652400, 0⟩, lat_o := 0, lng_o := 0, ht_o := 0, dlt_t_d := 0, dip := 0,
    day_p := 0 }

section lemmas

variable {α : Type} [LinearOrderedField α]

/-! ## `int(x)` and `norm_ang` -/

theorem truncate_eq_zero [FloorRing α] {x : α} (h1 : -1 < x) (h2 : x < 1) : truncate x = 0 := by
  unfold truncate
  split_ifs with h
  · exact Int.floor_eq_zero_iff.mpr ⟨h, h2⟩
  · exact Int.ceil_eq_zero_iff.mpr ⟨h1, le_of_lt (not_le.mp h)⟩

theorem truncate_bounds [FloorRing α] (x : α) :
    (0 ≤ x → (truncate x : α) ≤ x ∧ x < truncate x + 1) ∧
    (x < 0 → x ≤ (truncate x : α) ∧ (truncate x : α) < x + 1) := by
  unfold truncate
  constructor
  · intro h
    rw [if_pos h]
    exact ⟨Int.floor_le x, Int.lt_floor_add_one x⟩
  · intro h
    rw [if_neg (not_le.mpr h)]
    exact ⟨Int.le_ceil x, Int.ceil_lt_add_one x⟩

theorem truncate_intCast [FloorRing α] (z : Int) : truncate (z : α) = z := by
  unfold truncate
  split_ifs <;> simp

theorem truncate_abs_sub_lt [FloorRing α] (x : α) : |(truncate x : α) - x| < 1 := by
  rcases le_or_lt 0 x with h | h
  · obtain ⟨a, b⟩ := (truncate_bounds x).1 h
    rw [abs_lt]; constructor <;> linarith
  · obtain ⟨a, b⟩ := (truncate_bounds x).2 h
    rw [abs_lt]; constructor <;> linarith

/-- The integer part of a number strictly between `-n - 1` and `n` is in `[-n, n - 1]`. -/
theorem truncate_range [FloorRing α] {x : α} (n : Int) (hn : 0 < n) (h1 : -(n : α) - 1 < x)
    (h2 : x < (n : α)) : -n ≤ truncate x ∧ truncate x ≤ n - 1 := by
  have hb := truncate_bounds x
  rcases le_or_lt 0 x with h | h
  · obtain ⟨a, b⟩ := hb.1 h
    have c1 : ((-1 : Int) : α) < (truncate x : α) := by push_cast; linarith
    have c2 : (truncate x : α) < (n : α) := by linarith
    have d1 : (-1 : Int) < truncate x := by exact_mod_cast c1
    have d2 : truncate x < n := by exact_mod_cast c2
    constructor <;> omega
  · obtain ⟨a, b⟩ := hb.2 h
    have c1 : ((-n - 1 : Int) : α) < (truncate x : α) := by push_cast; linarith
    have c2 : (truncate x : α) < ((1 : Int) : α) := by push_cast; linarith
    have d1 : -n - 1 < truncate x := by exact_mod_cast c1
    have d2 : truncate x < 1 := by exact_mod_cast c2
    constructor <;> omega

/-- Within the range of `int` the conversion `int(x)` is the integer part. -/
theorem cast_int_of_lt [FloorRing α] {x : α} (h1 : -2147483649 < x) (h2 : x < 2147483648) :
    cast_int x = truncate x := by
  have h := truncate_range (2147483648 : Int) (by norm_num) (by push_cast; linarith)
    (by push_cast; linarith : x < ((2147483648 : Int) : α))
  unfold cast_int
  rw [if_pos ⟨by omega, by omega⟩]

/-- Within the range of `long` the conversion is the integer part. -/
theorem cast_long_of_lt [FloorRing α] {x : α} (h1 : -9223372036854775809 < x)
    (h2 : x < 9223372036854775808) : cast_long x = truncate x := by
  have h := truncate_range (9223372036854775808 : Int) (by norm_num)
    (by push_cast; linarith) (by push_cast; linarith : x < ((9223372036854775808 : Int) : α))
  unfold cast_long
  rw [if_pos ⟨by omega, by omega⟩]

/-- Above the range of `int` the conversion gives `INT_MIN`. -/
theorem cast_int_of_ge [FloorRing α] {x : α} (h : 2147483648 ≤ x) :
    cast_int x = -2147483648 := by
  have h0 : (0 : α) ≤ x := by linarith
  have hb := (truncate_bounds x).1 h0
  have c : ((2147483647 : Int) : α) < (truncate x : α) := by push_cast; linarith [hb.2]
  have d : (2147483647 : Int) < truncate x := by exact_mod_cast c
  unfold cast_int
  rw [if_neg (by omega)]

theorem cast_int_eq_zero [FloorRing α] {x : α} (h1 : -1 < x) (h2 : x < 1) : cast_int x = 0 := by
  rw [cast_int_of_lt (by linarith) (by linarith), truncate_eq_zero h1 h2]

theorem cast_int_bounds [FloorRing α] (x : α) (h1 : -2147483649 < x) (h2 : x < 2147483648) :
    (0 ≤ x → (cast_int x : α) ≤ x ∧ x < cast_int x + 1) ∧
    (x < 0 → x ≤ (cast_int x : α) ∧ (cast_int x : α) < x + 1) := by
  rw [cast_int_of_lt h1 h2]
  exact truncate_bounds x

theorem cast_int_intCast [FloorRing α] (z : Int) (h1 : -2147483648 ≤ z) (h2 : z ≤ 2147483647) :
    cast_int (z : α) = z := by
  unfold cast_int
  rw [truncate_intCast, if_pos ⟨h1, h2⟩]

theorem cast_long_intCast [FloorRing α] (z : Int) (h1 : -9223372036854775808 ≤ z)
    (h2 : z ≤ 9223372036854775807) : cast_long (z : α) = z := by
  unfold cast_long
  rw [truncate_intCast, if_pos ⟨h1, h2⟩]

/-- The result of the conversion to `long` is a `long`. -/
theorem cast_long_range [FloorRing α] (x : α) :
    -9223372036854775808 ≤ cast_long x ∧ cast_long x ≤ 9223372036854775807 := by
  unfold cast_long
  split_ifs with h
  · exact h
  · constructor <;> norm_num

theorem norm_ang_eq [FloorRing α] (x : α) : norm_ang x = x - 360 * (cast_int (x / 360) : α) := by
  unfold norm_ang
  norm_num

/-- On non-negative angles whose quotient by 360 is an `int`, `norm_ang` does land in
`[0, 360)`. -/
theorem norm_ang_of_nonneg [FloorRing α] {x : α} (h : 0 ≤ x) (hr : x < 773094113280) :
    0 ≤ norm_ang x ∧ norm_ang x < 360 := by
  rw [norm_ang_eq]
  have hq : (0 : α) ≤ x / 360 := div_nonneg h (by norm_num)
  have hq2 : x / 360 < 2147483648 := by rw [div_lt_iff₀ (by norm_num)]; linarith
  obtain ⟨h1, h2⟩ := (cast_int_bounds (x / 360) (by linarith) hq2).1 hq
  have hx : x = 360 * (x / 360) := by field_simp
  constructor <;> nlinarith

/-- On negative angles whose quotient by 360 is an `int`, `norm_ang` lands in
`(-360, 0]`. -/
theorem norm_ang_of_neg [FloorRing α] {x : α} (h : x < 0) (hr : -773094113640 < x) :
    -360 < norm_ang x ∧ norm_ang x ≤ 0 := by
  rw [norm_ang_eq]
  have hq : x / 360 < 0 := div_neg_of_neg_of_pos h (by norm_num)
  have hq2 : -2147483649 < x / 360 := by rw [lt_div_iff₀ (by norm_num)]; linarith
  obtain ⟨h1, h2⟩ := (cast_int_bounds (x / 360) hq2 (by linarith)).2 hq
  have hx : x = 360 * (x / 360) := by field_simp
  constructor <;> nlinarith

theorem norm_ang_abs_lt [FloorRing α] (x : α) (h1 : -773094113640 < x)
    (h2 : x < 773094113280) : -360 < norm_ang x ∧ norm_ang x < 360 := by
  rcases le_or_lt 0 x with h | h
  · have := norm_ang_of_nonneg h h2
    exact ⟨by linarith, this.2⟩
  · have := norm_ang_of_neg h h1
    exact ⟨this.1, by linarith⟩

/-- An angle already inside `(-360, 360)` is returned unchanged. -/
theorem norm_ang_of_abs_lt [FloorRing α] {x : α} (h1 : -360 < x) (h2 : x < 360) : norm_ang x = x := by
  rw [norm_ang_eq, cast_int_eq_zero]
  · simp
  · rw [lt_div_iff₀ (by norm_num)]; linarith
  · rw [div_lt_iff₀ (by norm_num)]; linarith

/-- An angle whose quotient by 360 is above the range of `int` is increased by
`360 * 2147483648`. -/
theorem norm_ang_of_ge [FloorRing α] {x : α} (h : 773094113280 ≤ x) :
    norm_ang x = x + 773094113280 := by
  have hq : (2147483648 : α) ≤ x / 360 := by rw [le_div_iff₀ (by norm_num)]; linarith
  rw [norm_ang_eq, cast_int_of_ge hq]
  push_cast
  ring

/-- On the angles whose quotient by 360 is an `int`, `norm_ang` is idempotent. -/
theorem norm_ang_norm_ang [FloorRing α] (x : α) (h1 : -773094113640 < x)
    (h2 : x < 773094113280) : norm_ang (norm_ang x) = norm_ang x :=
  norm_ang_of_abs_lt (norm_ang_abs_lt x h1 h2).1 (norm_ang_abs_lt x h1 h2).2

/-! ## `hour_ang_diff` -/

theorem while_gt_180_of_le {β : Type} [LinearOrderedField β] (n : Nat) {dt : β}
    (h : dt ≤ 180) : while_gt_180 n dt = dt := by
  cases n with
  | zero => rfl
  | succ n =>
    have h2 : ¬ dt > (180.0 : β) := by norm_num; exact h
    simp only [while_gt_180, if_neg h2]

theorem while_lt_m180_of_ge {β : Type} [LinearOrderedField β] (n : Nat) {dt : β}
    (h : -180 ≤ dt) : while_lt_m180 n dt = dt := by
  cases n with
  | zero => rfl
  | succ n =>
    have h2 : ¬ dt < (-180.0 : β) := by norm_num; exact h
    simp only [while_lt_m180, if_neg h2]

/-- With enough iterations the first loop of `hour_ang_diff` stops in `(-180, 180]`,
having subtracted a multiple of 360. -/
theorem while_gt_180_spec (n : Nat) : ∀ dt : α, 180 < dt → dt ≤ 180 + 360 * (n : α) →
    -180 < while_gt_180 n dt ∧ while_gt_180 n dt ≤ 180 ∧
      ∃ k : Int, while_gt_180 n dt = dt + 360 * (k : α) := by
  induction n with
  | zero =>
    intro dt h1 h2
    simp at h2
    exact absurd h1 (not_lt.mpr h2)
  | succ n ih =>
    intro dt h1 h2
    have hc : dt > (180.0 : α) := by norm_num; exact h1
    simp only [while_gt_180, if_pos hc]
    have e : dt - (360.0 : α) = dt - 360 := by norm_num
    rw [e]
    push_cast at h2
    rcases lt_or_le (180 : α) (dt - 360) with h | h
    · obtain ⟨a, b, k, hk⟩ := ih (dt - 360) h (by linarith)
      refine ⟨a, b, k - 1, ?_⟩
      rw [hk]; push_cast; ring
    · rw [while_gt_180_of_le n h]
      refine ⟨by linarith, h, -1, ?_⟩
      push_cast; ring

/-- With enough iterations the second loop of `hour_ang_diff` stops in `[-180, 180)`,
having added a multiple of 360. -/
theorem while_lt_m180_spec (n : Nat) : ∀ dt : α, dt < -180 → -180 - 360 * (n : α) ≤ dt →
    -180 ≤ while_lt_m180 n dt ∧ while_lt_m180 n dt < 180 ∧
      ∃ k : Int, while_lt_m180 n dt = dt + 360 * (k : α) := by
  induction n with
  | zero =>
    intro dt h1 h2
    simp at h2
    exact absurd h1 (not_lt.mpr h2)
  | succ n ih =>
    intro dt h1 h2
    have hc : dt < (-180.0 : α) := by norm_num; exact h1
    simp only [while_lt_m180, if_pos hc]
    have e : dt + (360.0 : α) = dt + 360 := by norm_num
    rw [e]
    push_cast at h2
    rcases lt_or_le (dt + 360) (-180 : α) with h | h
    · obtain ⟨a, b, k, hk⟩ := ih (dt + 360) h (by linarith)
      refine ⟨a, b, k + 1, ?_⟩
      rw [hk]; push_cast; ring
    · rw [while_lt_m180_of_ge n h]
      refine ⟨h, by linarith, 1, ?_⟩
      push_cast; ring

theorem abs_le_loop_bound [FloorRing α] (dt : α) : |dt| ≤ 360 * (loop_bound dt : α) := by
  have h := Nat.le_ceil (|dt| / 360)
  rw [div_le_iff₀ (by norm_num)] at h
  unfold loop_bound
  linarith

/-- The value left by the two loops of `hour_ang_diff`. -/
theorem hour_ang_adjust_spec [FloorRing α] (tk : α) (cd_s : Coord α) (tm_sd : α) :
    -180 ≤ hour_ang_adjust tk cd_s tm_sd ∧ hour_ang_adjust tk cd_s tm_sd ≤ 180 ∧
      (-180 < tk - tm_sd + cd_s.lng → -180 < hour_ang_adjust tk cd_s tm_sd) ∧
      ∃ k : Int, hour_ang_adjust tk cd_s tm_sd = tk - tm_sd + cd_s.lng + 360 * (k : α) := by
  unfold hour_ang_adjust
  have hb := abs_le_loop_bound (tk - tm_sd + cd_s.lng)
  have hb1 := le_abs_self (tk - tm_sd + cd_s.lng)
  have hb2 := neg_abs_le (tk - tm_sd + cd_s.lng)
  simp only []
  rcases lt_or_le (180 : α) (tk - tm_sd + cd_s.lng) with h | h
  · have hc : tk - tm_sd + cd_s.lng > (180.0 : α) := by norm_num; exact h
    obtain ⟨a, b, k, hk⟩ := while_gt_180_spec (loop_bound (tk - tm_sd + cd_s.lng))
      (tk - tm_sd + cd_s.lng) h (by linarith)
    have hn : ¬ while_gt_180 (loop_bound (tk - tm_sd + cd_s.lng)) (tk - tm_sd + cd_s.lng)
        < (-180.0 : α) := by norm_num; exact le_of_lt a
    rw [if_pos hc, if_neg hn]
    exact ⟨le_of_lt a, b, fun _ => a, k, hk⟩
  · have hc : ¬ tk - tm_sd + cd_s.lng > (180.0 : α) := by norm_num; exact h
    rw [if_neg hc]
    rcases lt_or_le (tk - tm_sd + cd_s.lng) (-180 : α) with g | g
    · have gc : tk - tm_sd + cd_s.lng < (-180.0 : α) := by norm_num; exact g
      obtain ⟨a, b, k, hk⟩ := while_lt_m180_spec (loop_bound (tk - tm_sd + cd_s.lng))
        (tk - tm_sd + cd_s.lng) g (by linarith)
      rw [if_pos gc]
      exact ⟨a, le_of_lt b, fun g2 => absurd g (not_lt.mpr (le_of_lt g2)), k, hk⟩
    · have gc : ¬ tk - tm_sd + cd_s.lng < (-180.0 : α) := by norm_num; exact g
      rw [if_neg gc]
      exact ⟨g, h, fun g2 => g2, 0, by simp⟩

/-! ## The table loop -/

theorem getElem?_middle {γ : Type} (pre post : List γ) (r : γ) :
    (pre ++ r :: post)[pre.length]? = some r := by
  rw [List.getElem?_append_right (le_refl _)]
  simp

/-- Rows above index `pre.length` whose date is after the target are passed over. -/
theorem table_loop_skip {β : Type} (parse : String → Option β) (dt_t : String) (v : β)
    (post : List (List String)) : ∀ pre : List (List String),
    (∀ r ∈ post, ∃ d rest, r = d :: rest ∧ ¬ d ≤ dt_t) →
    table_loop parse (pre ++ post) dt_t v (pre ++ post).length =
      table_loop parse (pre ++ post) dt_t v pre.length := by
  induction post with
  | nil => intro pre _; simp
  | cons r post ih =>
    intro pre h
    have e : pre ++ r :: post = (pre ++ [r]) ++ post := by simp
    obtain ⟨d, rest, hr, hd⟩ := h r (List.mem_cons_self _ _)
    have h2 := ih (pre ++ [r]) (fun r2 hr2 => h r2 (List.mem_cons_of_mem _ hr2))
    rw [← e] at h2
    rw [h2, List.length_append, List.length_singleton, table_loop, getElem?_middle, hr]
    simp [hd]

/-- The loop stops at the last row whose date is not after the target. -/
theorem table_loop_hit {β : Type} (parse : String → Option β) (dt_t : String) (v : β)
    (pre post : List (List String)) (d f : String) (rest : List String) (hd : d ≤ dt_t)
    (h : ∀ r ∈ post, ∃ d2 rest2, r = d2 :: rest2 ∧ ¬ d2 ≤ dt_t) :
    table_loop parse (pre ++ (d :: f :: rest) :: post) dt_t v
      (pre ++ (d :: f :: rest) :: post).length = parse f := by
  have e : pre ++ (d :: f :: rest) :: post = (pre ++ [d :: f :: rest]) ++ post := by simp
  have h2 := table_loop_skip parse dt_t v post (pre ++ [d :: f :: rest]) h
  rw [← e] at h2
  rw [h2, List.length_append, List.length_singleton, table_loop, getElem?_middle]
  simp [hd]

/-- The loop runs to the end when every row is dated after the target. -/
theorem table_loop_miss {β : Type} (parse : String → Option β) (dt_t : String) (v : β)
    (l : List (List String)) (h : ∀ r ∈ l, ∃ d rest, r = d :: rest ∧ ¬ d ≤ dt_t) :
    table_loop parse l dt_t v l.length = some v := by
  have h2 := table_loop_skip parse dt_t v l [] h
  simpa [table_loop] using h2

/-! ## `calc_dlt_t` -/

/-- A non-zero member `dlt_t` is returned as it is. -/
theorem calc_dlt_t_cached (P : DeltaT α) (localtime_r : Int → Tm) (o : Time α)
    (ts : Timespec) (utc_tai : Int) (dut1 : α) (h : o.dlt_t ≠ 0) :
    calc_dlt_t P localtime_r o ts utc_tai dut1 = (o.dlt_t, o) := by
  have h2 : o.dlt_t ≠ (0.0 : α) := by norm_num; exact h
  simp only [calc_dlt_t, if_pos h2]

/-- With `dlt_t = 0` and a non-zero leap second count the early return is taken and
no member is assigned. -/
theorem calc_dlt_t_early (P : DeltaT α) (localtime_r : Int → Tm) (o : Time α)
    (ts : Timespec) (utc_tai : Int) (dut1 : α) (h : o.dlt_t = 0) (hc : utc_tai ≠ 0) :
    calc_dlt_t P localtime_r o ts utc_tai dut1 = (32.184 - (utc_tai : α) - dut1, o) := by
  have h2 : ¬ o.dlt_t ≠ (0.0 : α) := by norm_num; exact h
  simp only [calc_dlt_t, if_neg h2, if_pos hc, kTtTai]

/-- Two era ranges that contain the same year are the same era. -/
theorem Era.range_unique (e1 e2 : Era) (year : Int) (h1 : e1.range year)
    (h2 : e2.range year) : e1 = e2 := by
  cases e1 <;> cases e2 <;> simp only [Era.range] at h1 h2 <;> first | rfl | omega

/-- With `dlt_t = 0` and leap second count 0, `calc_dlt_t` evaluates the formula of an
era whose range contains the year. -/
theorem calc_dlt_t_select (P : DeltaT α) (localtime_r : Int → Tm) (o : Time α)
    (ts : Timespec) (dut1 : α) (year month mday : Int) (hfresh : o.dlt_t = 0)
    (ht : localtime_r ts.tv_sec = ⟨year - 1900, month - 1, mday⟩) :
    ∃ e : Era, e.range year ∧
      calc_dlt_t P localtime_r o ts 0 dut1 =
        (P.formula e ((year : α) + ((month : α) - 0.5) / 12),
          { o with dlt_t := P.formula e ((year : α) + ((month : α) - 0.5) / 12) }) := by
  have h0 : ¬ o.dlt_t ≠ (0.0 : α) := by norm_num; exact hfresh
  have hy : year - 1900 + 1900 = year := by ring
  have hm : (((month - 1 : Int) : α) + 1 - 0.5) = (month : α) - 0.5 := by push_cast; ring
  simp only [calc_dlt_t, if_neg h0, ne_eq, not_true_eq_false, if_false, ht, hy, hm]
  by_cases h1 : year < -500
  · refine ⟨.bf_m500, by simp only [Era.range]; omega, ?_⟩
    rw [if_pos (show year < -500 by omega)]
    rfl
  by_cases h2 : year < 500
  · refine ⟨.bf_0500, by simp only [Era.range]; omega, ?_⟩
    rw [if_neg (show ¬ (year < -500) by omega), if_pos (show -500 ≤ year ∧ year < 500 by omega)]
    rfl
  by_cases h3 : year < 1600
  · refine ⟨.bf_1600, by simp only [Era.range]; omega, ?_⟩
    rw [if_neg (show ¬ (year < -500) by omega),
      if_neg (show ¬ (-500 ≤ year ∧ year < 500) by omega),
      if_pos (show 500 ≤ year ∧ year < 1600 by omega)]
    rfl
  by_cases h4 : year < 1700
  · refine ⟨.bf_1700, by simp only [Era.range]; omega, ?_⟩
    rw [if_neg (show ¬ (year < -500) by omega),
      if_neg (show ¬ (-500 ≤ year ∧ year < 500) by omega),
      if_neg (show ¬ (500 ≤ year ∧ year < 1600) by omega),
      if_pos (show 1600 ≤ year ∧ year < 1700 by omega)]
    rfl
  by_cases h5 : year < 1800
  · refine ⟨.bf_1800, by simp only [Era.range]; omega, ?_⟩
    rw [if_neg (show ¬ (year < -500) by omega),
      if_neg (show ¬ (-500 ≤ year ∧ year < 500) by omega),
      if_neg (show ¬ (500 ≤ year ∧ year < 1600) by omega),
      if_neg (show ¬ (1600 ≤ year ∧ year < 1700) by omega),
      if_pos (show 1700 ≤ year ∧ year < 1800 by omega)]
    rfl
  by_cases h6 : year < 1860
  · refine ⟨.bf_1860, by simp only [Era.range]; omega, ?_⟩
    rw [if_neg (show ¬ (year < -500) by omega),
      if_neg (show ¬ (-500 ≤ year ∧ year < 500) by omega),
      if_neg (show ¬ (500 ≤ year ∧ year < 1600) by omega),
      if_neg (show ¬ (1600 ≤ year ∧ year < 1700) by omega),
      if_neg (show ¬ (1700 ≤ year ∧ year < 1800) by omega),
      if_pos (show 1800 ≤ year ∧ year < 1860 by omega)]
    rfl
  by_cases h7 : year < 1900
  · refine ⟨.bf_1900, by simp only [Era.range]; omega, ?_⟩
    rw [if_neg (show ¬ (year < -500) by omega),
      if_neg (show ¬ (-500 ≤ year ∧ year < 500) by omega),
      if_neg (show ¬ (500 ≤ year ∧ year < 1600) by omega),
      if_neg (show ¬ (1600 ≤ year ∧ year < 1700) by omega),
      if_neg (show ¬ (1700 ≤ year ∧ year < 1800) by omega),
      if_neg (show ¬ (1800 ≤ year ∧ year < 1860) by omega),
      if_pos (show 1860 ≤ year ∧ year < 1900 by omega)]
    rfl
  by_cases h8 : year < 1920
  · refine ⟨.bf_1920, by simp only [Era.range]; omega, ?_⟩
    rw [if_neg (show ¬ (year < -500) by omega),
      if_neg (show ¬ (-500 ≤ year ∧ year < 500) by omega),
      if_neg (show ¬ (500 ≤ year ∧ year < 1600) by omega),
      if_neg (show ¬ (1600 ≤ year ∧ year < 1700) by omega),
      if_neg (show ¬ (1700 ≤ year ∧ year < 1800) by omega),
      if_neg (show ¬ (1800 ≤ year ∧ year < 1860) by omega),
      if_neg (show ¬ (1860 ≤ year ∧ year < 1900) by omega),
      if_pos (show 1900 ≤ year ∧ year < 1920 by omega)]
    rfl
  by_cases h9 : year < 1941
  · refine ⟨.bf_1941, by simp only [Era.range]; omega, ?_⟩
    rw [if_neg (show ¬ (year < -500) by omega),
      if_neg (show ¬ (-500 ≤ year ∧ year < 500) by omega),
      if_neg (show ¬ (500 ≤ year ∧ year < 1600) by omega),
      if_neg (show ¬ (1600 ≤ year ∧ year < 1700) by omega),
      if_neg (show ¬ (1700 ≤ year ∧ year < 1800) by omega),
      if_neg (show ¬ (1800 ≤ year ∧ year < 1860) by omega),
      if_neg (show ¬ (1860 ≤ year ∧ year < 1900) by omega),
      if_neg (show ¬ (1900 ≤ year ∧ year < 1920) by omega),
      if_pos (show 1920 ≤ year ∧ year < 1941 by omega)]
    rfl
  by_cases h10 : year < 1961
  · refine ⟨.bf_1961, by simp only [Era.range]; omega, ?_⟩
    rw [if_neg (show ¬ (year < -500) by omega),
      if_neg (show ¬ (-500 ≤ year ∧ year < 500) by omega),
      if_neg (show ¬ (500 ≤ year ∧ year < 1600) by omega),
      if_neg (show ¬ (1600 ≤ year ∧ year < 1700) by omega),
      if_neg (show ¬ (1700 ≤ year ∧ year < 1800) by omega),
      if_neg (show ¬ (1800 ≤ year ∧ year < 1860) by omega),
      if_neg (show ¬ (1860 ≤ year ∧ year < 1900) by omega),
      if_neg (show ¬ (1900 ≤ year ∧ year < 1920) by omega),
      if_neg (show ¬ (1920 ≤ year ∧ year < 1941) by omega),
      if_pos (show 1941 ≤ year ∧ year < 1961 by omega)]
    rfl
  by_cases h11 : year < 1986
  · refine ⟨.bf_1986, by simp only [Era.range]; omega, ?_⟩
    rw [if_neg (show ¬ (year < -500) by omega),
      if_neg (show ¬ (-500 ≤ year ∧ year < 500) by omega),
      if_neg (show ¬ (500 ≤ year ∧ year < 1600) by omega),
      if_neg (show ¬ (1600 ≤ year ∧ year < 1700) by omega),
      if_neg (show ¬ (1700 ≤ year ∧ year < 1800) by omega),
      if_neg (show ¬ (1800 ≤ year ∧ year < 1860) by omega),
      if_neg (show ¬ (1860 ≤ year ∧ year < 1900) by omega),
      if_neg (show ¬ (1900 ≤ year ∧ year < 1920) by omega),
      if_neg (show ¬ (1920 ≤ year ∧ year < 1941) by omega),
      if_neg (show ¬ (1941 ≤ year ∧ year < 1961) by omega),
      if_pos (show 1961 ≤ year ∧ year < 1986 by omega)]
    rfl
  by_cases h12 : year < 2005
  · refine ⟨.bf_2005, by simp only [Era.range]; omega, ?_⟩
    rw [if_neg (show ¬ (year < -500) by omega),
      if_neg (show ¬ (-500 ≤ year ∧ year < 500) by omega),
      if_neg (show ¬ (500 ≤ year ∧ year < 1600) by omega),
      if_neg (show ¬ (1600 ≤ year ∧ year < 1700) by omega),
      if_neg (show ¬ (1700 ≤ year ∧ year < 1800) by omega),
      if_neg (show ¬ (1800 ≤ year ∧ year < 1860) by omega),
      if_neg (show ¬ (1860 ≤ year ∧ year < 1900) by omega),
      if_neg (show ¬ (1900 ≤ year ∧ year < 1920) by omega),
      if_neg (show ¬ (1920 ≤ year ∧ year < 1941) by omega),
      if_neg (show ¬ (1941 ≤ year ∧ year < 1961) by omega),
      if_neg (show ¬ (1961 ≤ year ∧ year < 1986) by omega),
      if_pos (show 1986 ≤ year ∧ year < 2005 by omega)]
    rfl
  by_cases h13 : year < 2050
  · refine ⟨.bf_2050, by simp only [Era.range]; omega, ?_⟩
    rw [if_neg (show ¬ (year < -500) by omega),
      if_neg (show ¬ (-500 ≤ year ∧ year < 500) by omega),
      if_neg (show ¬ (500 ≤ year ∧ year < 1600) by omega),
      if_neg (show ¬ (1600 ≤ year ∧ year < 1700) by omega),
      if_neg (show ¬ (1700 ≤ year ∧ year < 1800) by omega),
      if_neg (show ¬ (1800 ≤ year ∧ year < 1860) by omega),
      if_neg (show ¬ (1860 ≤ year ∧ year < 1900) by omega),
      if_neg (show ¬ (1900 ≤ year ∧ year < 1920) by omega),
      if_neg (show ¬ (1920 ≤ year ∧ year < 1941) by omega),
      if_neg (show ¬ (1941 ≤ year ∧ year < 1961) by omega),
      if_neg (show ¬ (1961 ≤ year ∧ year < 1986) by omega),
      if_neg (show ¬ (1986 ≤ year ∧ year < 2005) by omega),
      if_pos (show 2005 ≤ year ∧ year < 2050 by omega)]
    rfl
  by_cases h14 : year ≤ 2150
  · refine ⟨.to_2150, by simp only [Era.range]; omega, ?_⟩
    rw [if_neg (show ¬ (year < -500) by omega),
      if_neg (show ¬ (-500 ≤ year ∧ year < 500) by omega),
      if_neg (show ¬ (500 ≤ year ∧ year < 1600) by omega),
      if_neg (show ¬ (1600 ≤ year ∧ year < 1700) by omega),
      if_neg (show ¬ (1700 ≤ year ∧ year < 1800) by omega),
      if_neg (show ¬ (1800 ≤ year ∧ year < 1860) by omega),
      if_neg (show ¬ (1860 ≤ year ∧ year < 1900) by omega),
      if_neg (show ¬ (1900 ≤ year ∧ year < 1920) by omega),
      if_neg (show ¬ (1920 ≤ year ∧ year < 1941) by omega),
      if_neg (show ¬ (1941 ≤ year ∧ year < 1961) by omega),
      if_neg (show ¬ (1961 ≤ year ∧ year < 1986) by omega),
      if_neg (show ¬ (1986 ≤ year ∧ year < 2005) by omega),
      if_neg (show ¬ (2005 ≤ year ∧ year < 2050) by omega),
      if_pos (show 2050 ≤ year ∧ year ≤ 2150 by omega)]
    rfl
  · refine ⟨.af_2150, by simp only [Era.range]; omega, ?_⟩
    rw [if_neg (show ¬ (year < -500) by omega),
      if_neg (show ¬ (-500 ≤ year ∧ year < 500) by omega),
      if_neg (show ¬ (500 ≤ year ∧ year < 1600) by omega),
      if_neg (show ¬ (1600 ≤ year ∧ year < 1700) by omega),
      if_neg (show ¬ (1700 ≤ year ∧ year < 1800) by omega),
      if_neg (show ¬ (1800 ≤ year ∧ year < 1860) by omega),
      if_neg (show ¬ (1860 ≤ year ∧ year < 1900) by omega),
      if_neg (show ¬ (1900 ≤ year ∧ year < 1920) by omega),
      if_neg (show ¬ (1920 ≤ year ∧ year < 1941) by omega),
      if_neg (show ¬ (1941 ≤ year ∧ year < 1961) by omega),
      if_neg (show ¬ (1961 ≤ year ∧ year < 1986) by omega),
      if_neg (show ¬ (1986 ≤ year ∧ year < 2005) by omega),
      if_neg (show ¬ (2005 ≤ year ∧ year < 2050) by omega),
      if_neg (show ¬ (2050 ≤ year ∧ year ≤ 2150) by omega), if_pos (show 2150 < year by omega)]
    rfl

/-! ## `calc_day_progress` -/

theorem truncate_natCast_div [FloorRing α] (a b : Nat) :
    truncate ((a : α) / (b : α)) = ((a / b : Nat) : Int) := by
  have h : (0 : α) ≤ (a : α) / (b : α) := div_nonneg (Nat.cast_nonneg a) (Nat.cast_nonneg b)
  unfold truncate
  rw [if_pos h, ← Int.natCast_floor_eq_floor h, Nat.floor_div_eq_div]

theorem cast_int_natCast_div [FloorRing α] (a b : Nat) (h : a / b < 2147483648) :
    cast_int ((a : α) / (b : α)) = ((a / b : Nat) : Int) := by
  unfold cast_int
  rw [truncate_natCast_div]
  generalize a / b = q at h ⊢
  rw [if_pos ⟨by omega, by omega⟩]

theorem to_unsigned_natCast (n : Nat) (h : n < 2 ^ 32) : to_unsigned (n : Int) = n := by
  unfold to_unsigned
  omega

/-- Through the year 2100 the Gregorian leap years after 2000 are the multiples of 4. -/
theorem days_of_years_eq (n : Nat) (h : n ≤ 100) : days_of_years n = 365 * n + (n + 3) / 4 := by
  induction n with
  | zero => rfl
  | succ n ih =>
    have ih2 := ih (by omega)
    simp only [days_of_years, days_in_year, is_leap_year, ih2]
    split_ifs with hl
    · simp only [decide_eq_true_eq] at hl
      omega
    · simp only [decide_eq_true_eq] at hl
      omega

/-- The integer part of the day count: `365 y + 30 m + d + int(3 (m + 1) / 5) + int(y / 4)`
with the shifted year and month is 33 more than the days elapsed since 2000-01-01. -/
theorem day_count_eq (Y M D : Nat) (hd : is_date Y M D) (hc : in_century Y M D) :
    (if M < 3 then
        365 * (Y - 2001) + 30 * (M + 12) + D + 3 * (M + 12 + 1) / 5 + (Y - 2001) / 4
      else 365 * (Y - 2000) + 30 * M + D + 3 * (M + 1) / 5 + (Y - 2000) / 4) =
      days_from_2000_01_01 Y M D + 33 := by
  obtain ⟨hM1, hM2, hD1, hD2⟩ := hd
  have hY : Y - 2000 ≤ 100 := by unfold in_century at hc; omega
  unfold days_from_2000_01_01
  rw [days_of_years_eq _ hY]
  unfold in_century at hc
  interval_cases M <;>
    simp only [days_of_months, days_in_month, is_leap_year, decide_eq_true_eq] at hD2 ⊢ <;>
    norm_num at hD2 ⊢ <;> (try split_ifs at hD2 ⊢) <;> omega

/-! ## The real functions -/

theorem kPi180_real : kPi180 real_libm = Real.pi / 180 := by
  simp only [kPi180, kPi, real_libm, Real.arctan_one]
  norm_num

theorem kPi180_real_pos : 0 < kPi180 real_libm := by
  rw [kPi180_real]
  exact div_pos Real.pi_pos (by norm_num)

theorem arctan_eq_arg_of_pos (a b : ℝ) (ha : 0 < a) :
    Real.arctan (b / a) = Complex.arg ⟨a, b⟩ := by
  have h1 : |Complex.arg ⟨a, b⟩| < Real.pi / 2 :=
    Complex.abs_arg_lt_pi_div_two_iff.mpr (Or.inl ha)
  rw [abs_lt] at h1
  have h2 := Complex.tan_arg ⟨a, b⟩
  simp only at h2
  rw [← h2, Real.arctan_tan h1.1 h1.2]

theorem arctan_add_pi_eq_arg_of_neg (a b : ℝ) (ha : a < 0) :
    ∃ k : Int, Real.arctan (b / a) + Real.pi = Complex.arg ⟨a, b⟩ + 2 * Real.pi * (k : ℝ) := by
  have h1 := arctan_eq_arg_of_pos (-a) (-b) (by linarith)
  rw [neg_div_neg_eq] at h1
  have hz : (⟨-a, -b⟩ : ℂ) = -⟨a, b⟩ := by
    apply Complex.ext <;> simp
  rw [hz] at h1
  rcases lt_trichotomy b 0 with hb | hb | hb
  · have h2 := Complex.arg_neg_eq_arg_add_pi_of_im_neg (x := ⟨a, b⟩) hb
    refine ⟨1, ?_⟩
    rw [h1, h2]; push_cast; ring
  · have h2 : Complex.arg ⟨a, b⟩ = Real.pi := Complex.arg_eq_pi_iff.mpr ⟨ha, hb⟩
    refine ⟨0, ?_⟩
    rw [h2, hb]; simp
  · have h2 := Complex.arg_neg_eq_arg_sub_pi_of_im_pos (x := ⟨a, b⟩) hb
    refine ⟨0, ?_⟩
    rw [h1, h2]; push_cast; ring

theorem real_libm_sin (x : ℝ) : real_libm.sin x = Real.sin x := rfl
theorem real_libm_cos (x : ℝ) : real_libm.cos x = Real.cos x := rfl
theorem real_libm_atan (x : ℝ) : real_libm.atan x = Real.arctan x := rfl
theorem real_libm_asin (x : ℝ) : real_libm.asin x = Real.arcsin x := rfl

/-- The vector `(a, b, c)` of `ko2se` has length 1 for the real functions. -/
theorem ko2se_abc_unit (jy : ℝ) (cd_k : Coord ℝ) :
    (ko2se_abc real_libm jy cd_k).1 ^ 2 + (ko2se_abc real_libm jy cd_k).2.1 ^ 2
      + (ko2se_abc real_libm jy cd_k).2.2 ^ 2 = 1 := by
  simp only [ko2se_abc, real_libm_sin, real_libm_cos]
  have h1 := Real.sin_sq_add_cos_sq ((23.439291 - 0.000130042 * jy) * kPi180 real_libm)
  have h2 := Real.sin_sq_add_cos_sq (cd_k.lng * kPi180 real_libm)
  have h3 := Real.sin_sq_add_cos_sq (cd_k.lat * kPi180 real_libm)
  linear_combination
    (Real.sin (cd_k.lat * kPi180 real_libm) ^ 2
      + Real.cos (cd_k.lat * kPi180 real_libm) ^ 2 * Real.sin (cd_k.lng * kPi180 real_libm) ^ 2) * h1
    + Real.cos (cd_k.lat * kPi180 real_libm) ^ 2 * h2 + h3

theorem ko2se_abc_c_range (jy : ℝ) (cd_k : Coord ℝ) :
    -1 ≤ (ko2se_abc real_libm jy cd_k).2.2 ∧ (ko2se_abc real_libm jy cd_k).2.2 ≤ 1 := by
  have h := ko2se_abc_unit jy cd_k
  have h1 := sq_nonneg (ko2se_abc real_libm jy cd_k).1
  have h2 := sq_nonneg (ko2se_abc real_libm jy cd_k).2.1
  have h3 : (ko2se_abc real_libm jy cd_k).2.2 ^ 2 ≤ 1 := by linarith
  exact abs_le.mp (abs_le_one_iff_mul_self_le_one.mpr (by nlinarith))

theorem ko2se_abc_origin : ko2se_abc real_libm 0 ⟨0, 0⟩ = (1, 0, 0) := by
  simp [ko2se_abc, real_libm_sin, real_libm_cos]

theorem ko2se_origin : ko2se real_libm 0 ⟨0, 0⟩ = some ⟨0, 0⟩ := by
  have hk0 : kPi180 real_libm ≠ 0 := by
    rw [kPi180_real]; exact ne_of_gt (div_pos Real.pi_pos (by norm_num))
  simp [ko2se, ko2se_abc_origin, hk0, real_libm_atan, real_libm_asin]
  intro h
  norm_num at h

theorem tm_sidereal_north : tm_sidereal calc_north 0 0 = 0 := by
  have e : (325.4606 + 360.007700536 * 0 + 0.00000003879 * 0 * 0 + 360.0 * 0
      + calc_north.lng_o : ℝ) = 0 := by
    simp only [calc_north]; norm_num
  rw [tm_sidereal, e]
  exact norm_ang_of_abs_lt (by norm_num) (by norm_num)

/-- An undefined correction at the first pass of the loop reaches the result of
`calc_moon`: the loop exits with NaN and no sentinel is produced. -/
theorem calc_moon_nan_of_first [FloorRing α] (M : Libm α) (c : Calc α) (kbn n : Nat)
    (h : moon_rev M c kbn 0.5 = none) :
    calc_time_moon M c kbn (n + 1) = Outcome.nan ∧ calc_moon M c kbn (n + 1) = Outcome.nan := by
  have h1 : |(1.0 : α)| > kEps := by norm_num [kEps]
  have e : calc_time_moon M c kbn (n + 1) = Outcome.nan := by
    simp only [calc_time_moon, calc_time_moon_loop, solver_loop, if_pos h1, h]
  exact ⟨e, by simp only [calc_moon, e]⟩

/-- At latitude 90 the divisor `cos(dec) * cos(lat)` of `hour_ang_diff` is zero. -/
theorem hour_ang_diff_pole (cd_s : Coord ℝ) (tm_sd ht : ℝ) (kbn : Nat) (hk : kbn ≠ 2) :
    hour_ang_diff real_libm calc_pole cd_s tm_sd ht kbn = none := by
  have e : kPi180 real_libm * calc_pole.lat_o = Real.pi / 2 := by
    rw [kPi180_real]; simp only [calc_pole]; ring
  have hden : real_libm.cos (kPi180 real_libm * cd_s.lat)
      * real_libm.cos (kPi180 real_libm * calc_pole.lat_o) = 0 := by
    rw [e, real_libm_cos, real_libm_cos, Real.cos_pi_div_two, mul_zero]
  simp only [hour_ang_diff, hour_ang_tk, if_neg hk, hden, true_or, if_true, Option.map_none']

theorem moon_rev_pole (kbn : Nat) (hk : kbn ≠ 2) (tm : ℝ) :
    moon_rev real_libm calc_pole kbn tm = none := by
  unfold moon_rev
  simp only []
  cases ko2se real_libm ((calc_pole.day_p + tm + calc_pole.dlt_t_d) / 365.25)
    ⟨calc_bet_moon real_libm ((calc_pole.day_p + tm + calc_pole.dlt_t_d) / 365.25),
      calc_lmd_moon real_libm ((calc_pole.day_p + tm + calc_pole.dlt_t_d) / 365.25)⟩ with
  | none => rfl
  | some cd_s => simp only [hour_ang_diff_pole _ _ _ kbn hk]

/-! ## The flat sample -/

theorem kPi180_flat : kPi180 libm_flat = 1 := by
  norm_num [kPi180, kPi, libm_flat]

theorem ko2se_flat (jy : ℚ) (cd_k : Coord ℚ) : ko2se libm_flat jy cd_k = some ⟨0, 45⟩ := by
  have h : ko2se_abc libm_flat jy cd_k = (1, 0, 0) := by
    simp [ko2se_abc, libm_flat]
  simp only [ko2se, h, kPi180_flat]
  norm_num [libm_flat]

theorem tm_sidereal_flat : tm_sidereal calc_flat 0 0.5 = 45 := by
  have e : (325.4606 + 360.007700536 * 0 + 0.00000003879 * 0 * 0 + 360.0 * 0.5
      + calc_flat.lng_o : ℚ) = 405 := by
    simp only [calc_flat]; norm_num
  rw [tm_sidereal, e]
  norm_num [norm_ang, cast_int, truncate]

theorem moon_rev_flat : moon_rev libm_flat calc_flat 2 0.5 = some 0 := by
  have ejy : (calc_flat.day_p + 0.5 + calc_flat.dlt_t_d) / 365.25 = (0 : ℚ) := by
    simp only [calc_flat]; norm_num
  simp only [moon_rev, ejy, ko2se_flat, tm_sidereal_flat]
  norm_num [hour_ang_diff, hour_ang_tk, hour_ang_adjust]

theorem calc_time_moon_loop_flat : calc_time_moon_loop libm_flat calc_flat 2 1 = .value 0.5 := by
  have h1 : |(1.0 : ℚ)| > kEps := by norm_num [kEps]
  have h2 : ¬ |(0 : ℚ)| > kEps := by norm_num [kEps]
  simp only [calc_time_moon_loop, solver_loop, if_pos h1, moon_rev_flat, add_zero, if_neg h2]

theorem calc_height_flat (cd_k : Coord ℚ) : calc_height libm_flat calc_flat cd_k 0.5 0 = some 0 := by
  simp only [calc_height, ko2se_flat, tm_sidereal_flat, kPi180_flat]
  norm_num [libm_flat]

theorem event_time_flat : event_time calc_flat.jst (0.5 : ℚ) = ⟨946695600, 0⟩ := by
  have e : (0.5 : ℚ) * (kSecDay : ℚ) = ((43200 : Int) : ℚ) := by norm_num [kSecDay]
  have f : cast_int (((43200 : Int) : ℚ)) = 43200 := cast_int_intCast _ (by norm_num) (by norm_num)
  simp only [event_time, e, f, calc_flat]
  norm_num [cast_long, truncate]

/-! ## Files and constructors -/

theorem read_loop_eq (ls : List String) : ∀ data : List (List String),
    read_loop ls data
      = data ++ (ls.map fun buf => read_rec buf.toList []).filter fun r => r ≠ [] := by
  induction ls with
  | nil => intro data; simp [read_loop]
  | cons buf rest ih =>
    intro data
    simp only [read_loop, ih, List.map_cons]
    generalize read_rec buf.toList [] = r
    by_cases h : r = []
    · simp [h]
    · have h2 : r.length ≠ 0 := by
        intro h3; exact h (List.length_eq_zero.mp h3)
      simp [h, h2]

theorem get_leap_sec_list_nil (file : Option String) :
    get_leap_sec_list file [] = match file with
      | none => (false, [])
      | some text => (true, records text) := by
  cases file with
  | none => rfl
  | some text => simp [get_leap_sec_list, read_loop_eq, records]

theorem get_dut1_list_nil (file : Option String) :
    get_dut1_list file [] = match file with
      | none => (false, [])
      | some text => (true, records text) := by
  cases file with
  | none => rfl
  | some text => simp [get_dut1_list, read_loop_eq, records]

theorem calc_construct_fields [FloorRing α] (M : Libm α) (P : DeltaT α) (localtime_r : Int → Tm)
    (stoi : String → Option Int) (stod : String → Option α)
    (leap_sec dut1_file : Option String) (dut1_0 : α) (utc_tai_0 : Int)
    (jst : Timespec) (lat lng ht : α) (c : Calc α)
    (h : Calc.construct M P localtime_r stoi stod leap_sec dut1_file dut1_0 utc_tai_0
      jst lat lng ht = some c) :
    c.jst = jst ∧ c.lat_o = lat ∧ c.lng_o = lng ∧ c.ht_o = ht := by
  unfold Calc.construct at h
  simp only [] at h
  split at h
  · exact absurd h (by simp)
  · split at h
    · exact absurd h (by simp)
    · split at h
      · exact absurd h (by simp)
      · split_ifs at h
        simp only [Option.some.injEq] at h
        subst h
        exact ⟨rfl, rfl, rfl, rfl⟩

/-- An instance that the constructor returns has a height that is not negative and
the dip `kDipCoef * sqrt(ht)`. -/
theorem calc_construct_dip {α : Type} [LinearOrderedField α] [FloorRing α]
    (M : Libm α) (P : DeltaT α) (localtime_r : Int → Tm)
    (stoi : String → Option Int) (stod : String → Option α)
    (leap_sec dut1_file : Option String) (dut1_0 : α) (utc_tai_0 : Int)
    (jst : Timespec) (lat lng ht : α) (c : Calc α)
    (h : Calc.construct M P localtime_r stoi stod leap_sec dut1_file dut1_0 utc_tai_0
      jst lat lng ht = some c) :
    0 ≤ ht ∧ c.ht_o = ht ∧ c.dip = kDipCoef * M.sqrt ht := by
  unfold Calc.construct at h
  simp only [] at h
  split at h
  · exact absurd h (by simp)
  · split at h
    · exact absurd h (by simp)
    · split at h
      · exact absurd h (by simp)
      · split_ifs at h with hn
        simp only [Option.some.injEq] at h
        subst h
        exact ⟨not_lt.mp hn, rfl, rfl⟩

/-- With two empty table files the constructor succeeds for every height that is not
negative. -/
theorem calc_construct_empty {α : Type} [LinearOrderedField α] [FloorRing α]
    (M : Libm α) (P : DeltaT α) (localtime_r : Int → Tm)
    (stoi : String → Option Int) (stod : String → Option α) (dut1_0 : α) (utc_tai_0 : Int)
    (jst : Timespec) (lat lng ht : α) (h : 0 ≤ ht) :
    ∃ c, Calc.construct M P localtime_r stoi stod (some "") (some "") dut1_0 utc_tai_0
      jst lat lng ht = some c := by
  have e1 : get_leap_sec_list (some "") [] = (true, []) := by
    simp [get_leap_sec_list, getlines, read_loop]
  have e2 : get_dut1_list (some "") [] = (true, []) := by
    simp [get_dut1_list, getlines, read_loop]
  simp only [Calc.construct, Time.construct, e1, e2, get_utc_tai, get_dut1, table_loop,
    List.length_nil, Option.map_some', if_neg (not_lt.mpr h)]
  exact ⟨_, rfl⟩

/-! ## The parts named for the statements -/

theorem calc_height_eq [FloorRing α] (M : Libm α) (c : Calc α) (cd_k : Coord α) (dd jy : α) :
    calc_height M c cd_k dd jy =
      match ko2se M jy cd_k with
      | none => none
      | some cd_s =>
        if height_sin M c cd_s (tm_sidereal c jy dd - cd_s.lng) < -1
            ∨ 1 < height_sin M c cd_s (tm_sidereal c jy dd - cd_s.lng) then none
        else if M.cos (kPi180 M * (90.0
            - M.asin (height_sin M c cd_s (tm_sidereal c jy dd - cd_s.lng)) / kPi180 M)) = 0
          then none
        else some (M.asin (height_sin M c cd_s (tm_sidereal c jy dd - cd_s.lng)) / kPi180 M
          + refraction M
            (M.asin (height_sin M c cd_s (tm_sidereal c jy dd - cd_s.lng)) / kPi180 M)) := by
  rfl

theorem sun_rev_eq [FloorRing α] (M : Libm α) (c : Calc α) (kbn : Nat) (tm : α) :
    sun_rev M c kbn tm =
      match ko2se M ((c.day_p + tm + c.dlt_t_d) / 365.25)
          ⟨0.0, calc_lmd_sun M ((c.day_p + tm + c.dlt_t_d) / 365.25)⟩ with
      | none => none
      | some cd_s =>
        if calc_dist_sun M ((c.day_p + tm + c.dlt_t_d) / 365.25) = 0 then none
        else
          match hour_ang_diff M c cd_s
              (tm_sidereal c ((c.day_p + tm + c.dlt_t_d) / 365.25) tm)
              (sun_ht M c ((c.day_p + tm + c.dlt_t_d) / 365.25)) kbn with
          | none => none
          | some hang_diff => some (hang_diff / 360.0) := by
  rfl

theorem moon_rev_eq [FloorRing α] (M : Libm α) (c : Calc α) (kbn : Nat) (tm : α) :
    moon_rev M c kbn tm =
      match ko2se M ((c.day_p + tm + c.dlt_t_d) / 365.25)
          ⟨calc_bet_moon M ((c.day_p + tm + c.dlt_t_d) / 365.25),
            calc_lmd_moon M ((c.day_p + tm + c.dlt_t_d) / 365.25)⟩ with
      | none => none
      | some cd_s =>
        match hour_ang_diff M c cd_s
            (tm_sidereal c ((c.day_p + tm + c.dlt_t_d) / 365.25) tm)
            (if kbn ≠ 2 then
              calc_diff_moon M ((c.day_p + tm + c.dlt_t_d) / 365.25) - c.dip - kAstrRef
              else 0.0) kbn with
        | none => none
        | some hang_diff => some (hang_diff / 347.8) := by
  rfl

theorem hour_ang_diff_two [FloorRing α] (M : Libm α) (c : Calc α) (cd_s : Coord α)
    (tm_sd ht : α) :
    hour_ang_diff M c cd_s tm_sd ht 2 = some (hour_ang_adjust 0 cd_s tm_sd) := by
  simp only [hour_ang_diff, hour_ang_tk, if_true, Option.map_some']
  norm_num

theorem moon_rev_two [FloorRing α] (M : Libm α) (c : Calc α) (tm : α) :
    moon_rev M c 2 tm =
      match ko2se M ((c.day_p + tm + c.dlt_t_d) / 365.25)
          ⟨calc_bet_moon M ((c.day_p + tm + c.dlt_t_d) / 365.25),
            calc_lmd_moon M ((c.day_p + tm + c.dlt_t_d) / 365.25)⟩ with
      | none => none
      | some cd_s =>
        some (hour_ang_adjust 0 cd_s
          (tm_sidereal c ((c.day_p + tm + c.dlt_t_d) / 365.25) tm) / 347.8) := by
  rw [moon_rev_eq]
  cases ko2se M ((c.day_p + tm + c.dlt_t_d) / 365.25)
      ⟨calc_bet_moon M ((c.day_p + tm + c.dlt_t_d) / 365.25),
        calc_lmd_moon M ((c.day_p + tm + c.dlt_t_d) / 365.25)⟩ with
  | none => rfl
  | some cd_s => simp only [hour_ang_diff_two]

/-! ## The solver loop -/

theorem hour_ang_diff_bounds [FloorRing α] (M : Libm α) (c : Calc α) (cd_s : Coord α)
    (tm_sd ht : α) (kbn : Nat) (v : α) (h : hour_ang_diff M c cd_s tm_sd ht kbn = some v) :
    -180 ≤ v ∧ v ≤ 180 := by
  unfold hour_ang_diff at h
  rw [Option.map_eq_some'] at h
  obtain ⟨tk, _, hv⟩ := h
  obtain ⟨a, b, _⟩ := hour_ang_adjust_spec tk cd_s tm_sd
  rw [hv] at a b
  exact ⟨a, b⟩

/-- A correction of the Sun solver is the hour-angle difference at the current time
divided by 360. -/
theorem sun_rev_step [FloorRing α] (M : Libm α) (c : Calc α) (kbn : Nat) (tm rev : α)
    (h : sun_rev M c kbn tm = some rev) :
    ∃ (cd_s : Coord α) (dt : α),
      ko2se M ((c.day_p + tm + c.dlt_t_d) / 365.25)
        ⟨0.0, calc_lmd_sun M ((c.day_p + tm + c.dlt_t_d) / 365.25)⟩ = some cd_s ∧
      hour_ang_diff M c cd_s (tm_sidereal c ((c.day_p + tm + c.dlt_t_d) / 365.25) tm)
        (sun_ht M c ((c.day_p + tm + c.dlt_t_d) / 365.25)) kbn = some dt ∧
      rev = dt / 360 := by
  rw [sun_rev_eq] at h
  cases hk : ko2se M ((c.day_p + tm + c.dlt_t_d) / 365.25)
      ⟨0.0, calc_lmd_sun M ((c.day_p + tm + c.dlt_t_d) / 365.25)⟩ with
  | none => rw [hk] at h; exact absurd h (by simp)
  | some cd_s =>
    rw [hk] at h
    simp only [] at h
    split_ifs at h
    cases hd : hour_ang_diff M c cd_s (tm_sidereal c ((c.day_p + tm + c.dlt_t_d) / 365.25) tm)
        (sun_ht M c ((c.day_p + tm + c.dlt_t_d) / 365.25)) kbn with
    | none => rw [hd] at h; exact absurd h (by simp)
    | some dt =>
      rw [hd] at h
      simp only [Option.some.injEq] at h
      refine ⟨cd_s, dt, rfl, hd, ?_⟩
      rw [← h]; norm_num

/-- A correction of the Moon solver is the hour-angle difference at the current time
divided by 347.8. -/
theorem moon_rev_step [FloorRing α] (M : Libm α) (c : Calc α) (kbn : Nat) (tm rev : α)
    (h : moon_rev M c kbn tm = some rev) :
    ∃ (cd_s : Coord α) (dt : α),
      ko2se M ((c.day_p + tm + c.dlt_t_d) / 365.25)
        ⟨calc_bet_moon M ((c.day_p + tm + c.dlt_t_d) / 365.25),
          calc_lmd_moon M ((c.day_p + tm + c.dlt_t_d) / 365.25)⟩ = some cd_s ∧
      hour_ang_diff M c cd_s (tm_sidereal c ((c.day_p + tm + c.dlt_t_d) / 365.25) tm)
        (if kbn ≠ 2 then
          calc_diff_moon M ((c.day_p + tm + c.dlt_t_d) / 365.25) - c.dip - kAstrRef
          else 0.0) kbn = some dt ∧
      rev = dt / 347.8 := by
  rw [moon_rev_eq] at h
  cases hk : ko2se M ((c.day_p + tm + c.dlt_t_d) / 365.25)
      ⟨calc_bet_moon M ((c.day_p + tm + c.dlt_t_d) / 365.25),
        calc_lmd_moon M ((c.day_p + tm + c.dlt_t_d) / 365.25)⟩ with
  | none => rw [hk] at h; exact absurd h (by simp)
  | some cd_s =>
    rw [hk] at h
    simp only [] at h
    cases hd : hour_ang_diff M c cd_s (tm_sidereal c ((c.day_p + tm + c.dlt_t_d) / 365.25) tm)
        (if kbn ≠ 2 then
          calc_diff_moon M ((c.day_p + tm + c.dlt_t_d) / 365.25) - c.dip - kAstrRef
          else 0.0) kbn with
    | none => rw [hd] at h; exact absurd h (by simp)
    | some dt =>
      rw [hd] at h
      simp only [Option.some.injEq] at h
      exact ⟨cd_s, dt, rfl, hd, h.symm⟩

/-! ## More on the real functions -/

theorem real_libm_pow (x y : ℝ) :
    real_libm.pow x y = if x ^ y < 1 / 2 ^ 1075 then 0 else x ^ y := rfl
theorem real_libm_sqrt (x : ℝ) : real_libm.sqrt x = Real.sqrt x := rfl
theorem real_libm_tan (x : ℝ) : real_libm.tan x = Real.tan x := rfl

/-- `calc_dist_sun` is the power of 10 with the exponent `dist_sun_exp`. -/
theorem calc_dist_sun_eq {α : Type} [LinearOrderedField α] [FloorRing α] (M : Libm α) (jy : α) :
    calc_dist_sun M jy = M.pow 10.0 (dist_sun_exp M jy) := by
  rfl

theorem sin_norm_ang_90 : Real.sin (kPi180 real_libm * norm_ang (90.0 : ℝ)) = 1 := by
  have e : norm_ang (90.0 : ℝ) = 90 := by
    have : (90.0 : ℝ) = 90 := by norm_num
    rw [this]
    exact norm_ang_of_abs_lt (by norm_num) (by norm_num)
  rw [e, kPi180_real]
  have : Real.pi / 180 * 90 = Real.pi / 2 := by ring
  rw [this, Real.sin_pi_div_two]

/-- The exponent of 10 in `calc_dist_sun` is at most `0.007404 + 0.0000002 |jy|` in
absolute value. -/
theorem dist_sun_exp_abs_le (jy : ℝ) :
    |dist_sun_exp real_libm jy| ≤ 0.007404 + 0.0000002 * |jy| := by
  have hb : ∀ t : ℝ, -1 ≤ Real.sin t ∧ Real.sin t ≤ 1 :=
    fun t => ⟨Real.neg_one_le_sin t, Real.sin_le_one t⟩
  simp only [dist_sun_exp, real_libm_sin, sin_norm_ang_90]
  have b1 := hb (kPi180 real_libm * norm_ang (156.0 + 329.6 * jy))
  have b2 := hb (kPi180 real_libm * norm_ang (254.0 + 450.4 * jy))
  have b3 := hb (kPi180 real_libm * norm_ang (27.8 + 4452.67 * jy))
  have b5 := hb (kPi180 real_libm * norm_ang (265.1 + 719.98 * jy))
  have b6 := hb (kPi180 real_libm * norm_ang (267.54 + 359.991 * jy))
  generalize Real.sin (kPi180 real_libm * norm_ang (156.0 + 329.6 * jy)) = t1 at b1 ⊢
  generalize Real.sin (kPi180 real_libm * norm_ang (254.0 + 450.4 * jy)) = t2 at b2 ⊢
  generalize Real.sin (kPi180 real_libm * norm_ang (27.8 + 4452.67 * jy)) = t3 at b3 ⊢
  generalize Real.sin (kPi180 real_libm * norm_ang (265.1 + 719.98 * jy)) = t5 at b5 ⊢
  generalize Real.sin (kPi180 real_libm * norm_ang (267.54 + 359.991 * jy)) = t6 at b6 ⊢
  have h6 : |(0.007256 - 0.0000002 * jy) * t6| ≤ 0.007256 + 0.0000002 * |jy| := by
    rw [abs_mul]
    have a1 : |t6| ≤ 1 := abs_le.mpr b6
    have a2 : |(0.007256 : ℝ) - 0.0000002 * jy| ≤ 0.007256 + 0.0000002 * |jy| := by
      have h := abs_sub (0.007256 : ℝ) (0.0000002 * jy)
      rw [abs_mul, abs_of_pos (by norm_num : (0 : ℝ) < 0.007256),
        abs_of_pos (by norm_num : (0 : ℝ) < 0.0000002)] at h
      exact h
    calc |(0.007256 : ℝ) - 0.0000002 * jy| * |t6|
        ≤ |(0.007256 : ℝ) - 0.0000002 * jy| * 1 :=
          mul_le_mul_of_nonneg_left a1 (abs_nonneg _)
      _ ≤ 0.007256 + 0.0000002 * |jy| := by rw [mul_one]; exact a2
  obtain ⟨c1, c2⟩ := abs_le.mp h6
  rw [abs_le]
  constructor <;> norm_num at c1 c2 ⊢ <;> linarith

/-- The threshold `2 ^ 1075` of the underflow lies between `10 ^ 323` and `10 ^ 324`. -/
theorem two_pow_1075_bounds : (10 : ℝ) ^ 323 ≤ 2 ^ 1075 ∧ (2 : ℝ) ^ 1075 < 10 ^ 324 := by
  constructor <;> norm_num

/-- A power of 10 with exponent at least `-323` does not underflow. -/
theorem real_libm_pow_ten (y : ℝ) (h : -323 ≤ y) : real_libm.pow 10.0 y = (10 : ℝ) ^ y := by
  have e10 : (10.0 : ℝ) = 10 := by norm_num
  have h1 : (10 : ℝ) ^ (-323 : ℝ) ≤ (10 : ℝ) ^ y :=
    Real.rpow_le_rpow_of_exponent_le (by norm_num) h
  have h2 : (10 : ℝ) ^ (-323 : ℝ) = 1 / 10 ^ 323 := by
    rw [show (-323 : ℝ) = -((323 : Nat) : ℝ) by norm_num, Real.rpow_neg (by norm_num),
      Real.rpow_natCast, one_div]
  have h3 : (1 : ℝ) / 2 ^ 1075 ≤ 1 / 10 ^ 323 :=
    one_div_le_one_div_of_le (by positivity) two_pow_1075_bounds.1
  rw [real_libm_pow, e10, if_neg]
  rw [h2] at h1
  exact not_lt.mpr (le_trans h3 h1)

/-- A power of 10 with exponent at most `-324` underflows to 0. -/
theorem real_libm_pow_ten_underflow (y : ℝ) (h : y ≤ -324) : real_libm.pow 10.0 y = 0 := by
  have e10 : (10.0 : ℝ) = 10 := by norm_num
  have h1 : (10 : ℝ) ^ y ≤ (10 : ℝ) ^ (-324 : ℝ) :=
    Real.rpow_le_rpow_of_exponent_le (by norm_num) h
  have h2 : (10 : ℝ) ^ (-324 : ℝ) = 1 / 10 ^ 324 := by
    rw [show (-324 : ℝ) = -((324 : Nat) : ℝ) by norm_num, Real.rpow_neg (by norm_num),
      Real.rpow_natCast, one_div]
  have h3 : (1 : ℝ) / 10 ^ 324 < 1 / 2 ^ 1075 :=
    one_div_lt_one_div_of_lt (by positivity) two_pow_1075_bounds.2
  rw [real_libm_pow, e10, if_pos]
  rw [h2] at h1
  exact lt_of_le_of_lt h1 h3


/-- For `|jy| <= 10^7` the power in `calc_dist_sun` does not underflow and the
distance is the exact power, between `1/1000` and `1000`. -/
theorem calc_dist_sun_of_abs_le (jy : ℝ) (hj : |jy| ≤ 10000000) :
    calc_dist_sun real_libm jy = (10 : ℝ) ^ dist_sun_exp real_libm jy ∧
      1 / 1000 < calc_dist_sun real_libm jy ∧ calc_dist_sun real_libm jy < 1000 := by
  obtain ⟨a, b⟩ := abs_le.mp (dist_sun_exp_abs_le jy)
  have h1 : -3 < dist_sun_exp real_libm jy := by norm_num at a; linarith
  have h2 : dist_sun_exp real_libm jy < 3 := by norm_num at b; linarith
  have e : calc_dist_sun real_libm jy = (10 : ℝ) ^ dist_sun_exp real_libm jy := by
    rw [calc_dist_sun_eq, real_libm_pow_ten _ (by linarith)]
  have l1 : (10 : ℝ) ^ (-3 : ℝ) < (10 : ℝ) ^ dist_sun_exp real_libm jy :=
    Real.rpow_lt_rpow_of_exponent_lt (by norm_num) h1
  have l2 : (10 : ℝ) ^ dist_sun_exp real_libm jy < (10 : ℝ) ^ (3 : ℝ) :=
    Real.rpow_lt_rpow_of_exponent_lt (by norm_num) h2
  have e1 : (10 : ℝ) ^ (-3 : ℝ) = 1 / 1000 := by
    rw [show (-3 : ℝ) = -((3 : Nat) : ℝ) by norm_num, Real.rpow_neg (by norm_num),
      Real.rpow_natCast]
    norm_num
  have e2 : (10 : ℝ) ^ (3 : ℝ) = 1000 := by
    rw [show (3 : ℝ) = ((3 : Nat) : ℝ) by norm_num, Real.rpow_natCast]
    norm_num
  rw [e]
  rw [e1] at l1
  rw [e2] at l2
  exact ⟨rfl, l1, l2⟩

/-- At `jy = (360 * 2100000000 - 177.54) / 359.991` the last angle of the series is
`90 + 360 * 2100000000`, its sine is 1, and the exponent of 10 is below `-324`. -/
theorem dist_sun_exp_far :
    dist_sun_exp real_libm ((360 * 2100000000 - 177.54) / 359.991) ≤ -324 := by
  have hb : ∀ t : ℝ, -1 ≤ Real.sin t ∧ Real.sin t ≤ 1 :=
    fun t => ⟨Real.neg_one_le_sin t, Real.sin_le_one t⟩
  have ea : (267.54 : ℝ) + 359.991 * ((360 * 2100000000 - 177.54) / 359.991)
      = 756000000090 := by norm_num
  have en : norm_ang (756000000090 : ℝ) = 90 := by
    have hq : cast_int ((756000000090 : ℝ) / 360) = 2100000000 := by
      rw [cast_int_of_lt (by norm_num) (by norm_num)]
      simp only [truncate]
      rw [if_pos (by norm_num), Int.floor_eq_iff]
      norm_num
    rw [norm_ang_eq, hq]
    norm_num
  have e6 : Real.sin (kPi180 real_libm
      * norm_ang (267.54 + 359.991 * ((360 * 2100000000 - 177.54) / 359.991))) = 1 := by
    rw [ea, en, kPi180_real]
    have : Real.pi / 180 * 90 = Real.pi / 2 := by ring
    rw [this, Real.sin_pi_div_two]
  simp only [dist_sun_exp, real_libm_sin, sin_norm_ang_90, e6]
  have b1 := hb (kPi180 real_libm
    * norm_ang (156.0 + 329.6 * ((360 * 2100000000 - 177.54) / 359.991)))
  have b2 := hb (kPi180 real_libm
    * norm_ang (254.0 + 450.4 * ((360 * 2100000000 - 177.54) / 359.991)))
  have b3 := hb (kPi180 real_libm
    * norm_ang (27.8 + 4452.67 * ((360 * 2100000000 - 177.54) / 359.991)))
  have b5 := hb (kPi180 real_libm
    * norm_ang (265.1 + 719.98 * ((360 * 2100000000 - 177.54) / 359.991)))
  generalize Real.sin (kPi180 real_libm
    * norm_ang (156.0 + 329.6 * ((360 * 2100000000 - 177.54) / 359.991))) = t1 at b1 ⊢
  generalize Real.sin (kPi180 real_libm
    * norm_ang (254.0 + 450.4 * ((360 * 2100000000 - 177.54) / 359.991))) = t2 at b2 ⊢
  generalize Real.sin (kPi180 real_libm
    * norm_ang (27.8 + 4452.67 * ((360 * 2100000000 - 177.54) / 359.991))) = t3 at b3 ⊢
  generalize Real.sin (kPi180 real_libm
    * norm_ang (265.1 + 719.98 * ((360 * 2100000000 - 177.54) / 359.991))) = t5 at b5 ⊢
  norm_num
  linarith [b1.2, b2.2, b3.2, b5.2]

theorem altitude_sin_sq_le (sd cd sl cl sH cH : ℝ) (s1 : sd ^ 2 + cd ^ 2 = 1)
    (s2 : sl ^ 2 + cl ^ 2 = 1) (s3 : sH ^ 2 + cH ^ 2 = 1) :
    (sd * sl + cd * cl * cH) ^ 2 ≤ 1 := by
  have key : 1 - (sd * sl + cd * cl * cH) ^ 2
      = (sd * cl * cH - cd * sl) ^ 2 + (cl * sH) ^ 2 := by
    linear_combination (-1) * s2 - cl ^ 2 * s3 - (sl ^ 2 + cl ^ 2 * cH ^ 2) * s1
  nlinarith [sq_nonneg (sd * cl * cH - cd * sl), sq_nonneg (cl * sH)]

theorem height_sin_real (c : Calc ℝ) (cd_s : Coord ℝ) (hang : ℝ) :
    height_sin real_libm c cd_s hang
      = Real.sin (Real.pi / 180 * cd_s.lat) * Real.sin (Real.pi / 180 * c.lat_o)
        + Real.cos (Real.pi / 180 * cd_s.lat) * Real.cos (Real.pi / 180 * c.lat_o)
          * Real.cos (Real.pi / 180 * hang) := by
  simp only [height_sin, real_libm_sin, real_libm_cos, kPi180_real]

/-- The argument of `asin` in `calc_height` is in `[-1, 1]` for the real functions. -/
theorem height_sin_bounds (c : Calc ℝ) (cd_s : Coord ℝ) (hang : ℝ) :
    -1 ≤ height_sin real_libm c cd_s hang ∧ height_sin real_libm c cd_s hang ≤ 1 := by
  have hsq : height_sin real_libm c cd_s hang ^ 2 ≤ 1 := by
    rw [height_sin_real]
    exact altitude_sin_sq_le _ _ _ _ _ _ (Real.sin_sq_add_cos_sq _) (Real.sin_sq_add_cos_sq _)
      (Real.sin_sq_add_cos_sq _)
  exact abs_le.mp ((sq_le_one_iff_abs_le_one _).mp hsq)

/-- For the real functions `calc_height` is the geometric altitude plus the
correction, undefined only where `ko2se` is or where the tangent is infinite. -/
theorem calc_height_real (c : Calc ℝ) (cd_k cd_s : Coord ℝ) (dd jy : ℝ)
    (hk : ko2se real_libm jy cd_k = some cd_s) :
    calc_height real_libm c cd_k dd jy =
      if Real.cos (Real.pi / 180 * (90
          - real_libm.asin (height_sin real_libm c cd_s (tm_sidereal c jy dd - cd_s.lng))
            / kPi180 real_libm)) = 0 then none
      else some (real_libm.asin (height_sin real_libm c cd_s (tm_sidereal c jy dd - cd_s.lng))
          / kPi180 real_libm
        + refraction real_libm
          (real_libm.asin (height_sin real_libm c cd_s (tm_sidereal c jy dd - cd_s.lng))
            / kPi180 real_libm)) := by
  have hb := height_sin_bounds c cd_s (tm_sidereal c jy dd - cd_s.lng)
  have c2 : ¬ (height_sin real_libm c cd_s (tm_sidereal c jy dd - cd_s.lng) < -1
      ∨ 1 < height_sin real_libm c cd_s (tm_sidereal c jy dd - cd_s.lng)) := by
    rintro (h | h) <;> linarith [hb.1, hb.2]
  have e90 : (90.0 : ℝ) = 90 := by norm_num
  rw [calc_height_eq, hk]
  simp only []
  rw [if_neg c2, real_libm_cos, e90]
  simp only [kPi180_real]

theorem refraction_real (ht : ℝ) :
    refraction real_libm ht
      = (58.76 - (0.406 - 0.0192 * Real.tan (Real.pi / 180 * (90 - ht)))
          * Real.tan (Real.pi / 180 * (90 - ht)))
        * Real.tan (Real.pi / 180 * (90 - ht)) / 3600 := by
  simp only [refraction, real_libm_tan, kPi180_real]
  norm_num

/-! ## Digit strings -/

theorem char_lt_iff (a b : Char) : a < b ↔ a.toNat < b.toNat := Iff.rfl

theorem isDigit_bounds (ch : Char) (h : ch.isDigit = true) : 48 ≤ ch.toNat ∧ ch.toNat ≤ 57 := by
  simp only [Char.isDigit, Bool.and_eq_true, decide_eq_true_eq] at h
  exact ⟨h.1, h.2⟩

theorem digits_value_lt (l : List Char) (h : l.all Char.isDigit = true) :
    digits_value l < 10 ^ l.length := by
  induction l with
  | nil => simp [digits_value]
  | cons ch cs ih =>
    simp only [List.all_cons, Bool.and_eq_true] at h
    have hb := isDigit_bounds ch h.1
    have h2 := ih h.2
    simp only [digits_value, List.length_cons, pow_succ]
    have h3 : (ch.toNat - 48) * 10 ^ cs.length ≤ 9 * 10 ^ cs.length :=
      Nat.mul_le_mul_right _ (by omega)
    omega

theorem list_cons_lt_cons (a b : Char) (as bs : List Char) :
    a :: as < b :: bs ↔ a < b ∨ (a = b ∧ as < bs) := by
  constructor
  · intro h
    cases h with
    | cons h1 => exact Or.inr ⟨rfl, h1⟩
    | rel h1 => exact Or.inl h1
  · rintro (h | ⟨h1, h2⟩)
    · exact List.Lex.rel h
    · subst h1
      exact List.Lex.cons h2

theorem digits_lt_iff (l1 : List Char) : ∀ l2 : List Char, l1.length = l2.length →
    l1.all Char.isDigit = true → l2.all Char.isDigit = true →
    (l1 < l2 ↔ digits_value l1 < digits_value l2) := by
  induction l1 with
  | nil =>
    intro l2 hl _ _
    cases l2 with
    | nil =>
      simp only [digits_value, lt_irrefl]
    | cons b bs => simp at hl
  | cons a as ih =>
    intro l2 hl h1 h2
    cases l2 with
    | nil => simp at hl
    | cons b bs =>
      simp only [List.length_cons, Nat.add_right_cancel_iff] at hl
      simp only [List.all_cons, Bool.and_eq_true] at h1 h2
      have ha := isDigit_bounds a h1.1
      have hb := isDigit_bounds b h2.1
      have va := digits_value_lt as h1.2
      have vb := digits_value_lt bs h2.2
      rw [hl] at va
      rw [list_cons_lt_cons, ih bs hl h1.2 h2.2]
      simp only [digits_value, hl]
      rw [char_lt_iff]
      have hP : 0 < 10 ^ bs.length := by positivity
      constructor
      · rintro (h | ⟨h3, h4⟩)
        · have : (a.toNat - 48 + 1) * 10 ^ bs.length ≤ (b.toNat - 48) * 10 ^ bs.length :=
            Nat.mul_le_mul_right _ (by omega)
          rw [Nat.add_mul] at this
          omega
        · rw [h3]; omega
      · intro h
        rcases Nat.lt_trichotomy a.toNat b.toNat with g | g | g
        · exact Or.inl g
        · right
          have e : a = b := Char.ext (UInt32.ext g)
          refine ⟨e, ?_⟩
          rw [e] at h; omega
        · exfalso
          have : (b.toNat - 48 + 1) * 10 ^ bs.length ≤ (a.toNat - 48) * 10 ^ bs.length :=
            Nat.mul_le_mul_right _ (by omega)
          rw [Nat.add_mul] at this
          omega

/-! ## More on the flat sample -/

theorem sun_rev_flat : sun_rev libm_flat calc_flat 2 0.5 = some 0 := by
  have ejy : (calc_flat.day_p + 0.5 + calc_flat.dlt_t_d) / 365.25 = (0 : ℚ) := by
    simp only [calc_flat]; norm_num
  have hd : calc_dist_sun libm_flat (0 : ℚ) ≠ 0 := by
    simp [calc_dist_sun, libm_flat]
  simp only [sun_rev, ejy, ko2se_flat, tm_sidereal_flat, if_neg hd]
  norm_num [hour_ang_diff, hour_ang_tk, hour_ang_adjust]

/-! ## The conversion to a `timespec` -/

/-- The two branches of `event_time` with the subtraction of `1.0e9` done on integers. -/
theorem event_time_eq [FloorRing α] (jst : Timespec) (dd : α) :
    event_time jst dd =
      if (1000000000 : α) ≤ (cast_long ((jst.tv_nsec : α)
          + (dd * 86400 - (cast_int (dd * 86400) : α)) * 1000000000) : α) then
        ⟨jst.tv_sec + cast_int (dd * 86400) + 1,
          cast_long ((jst.tv_nsec : α)
            + (dd * 86400 - (cast_int (dd * 86400) : α)) * 1000000000) - 1000000000⟩
      else
        ⟨jst.tv_sec + cast_int (dd * 86400),
          cast_long ((jst.tv_nsec : α)
            + (dd * 86400 - (cast_int (dd * 86400) : α)) * 1000000000)⟩ := by
  have ek : ((kSecDay : Nat) : α) = 86400 := by norm_num [kSecDay]
  have e9 : (1.0e9 : α) = 1000000000 := by norm_num
  have hr := cast_long_range ((jst.tv_nsec : α)
    + (dd * 86400 - (cast_int (dd * 86400) : α)) * 1000000000)
  simp only [event_time, ek, e9, ge_iff_le]
  generalize cast_long ((jst.tv_nsec : α)
    + (dd * 86400 - (cast_int (dd * 86400) : α)) * 1000000000) = m at hr ⊢
  split_ifs with hc
  · have hm : (1000000000 : Int) ≤ m := by exact_mod_cast hc
    have e : (m : α) - 1000000000 = ((m - 1000000000 : Int) : α) := by push_cast; ring
    rw [e, cast_long_intCast _ (by omega) (by omega)]
  · rfl

/-- The fraction of a second `dd_s - int(dd_s)` is strictly between `-1` and `1` when
`dd_s` is in the range of `int`. -/
theorem frac_bounds [FloorRing α] (x : α) (h1 : -2147483649 < x) (h2 : x < 2147483648) :
    (0 ≤ x → 0 ≤ x - (cast_int x : α) ∧ x - (cast_int x : α) < 1) ∧
    (x < 0 → -1 < x - (cast_int x : α) ∧ x - (cast_int x : α) ≤ 0) := by
  constructor
  · intro h
    obtain ⟨a, b⟩ := (cast_int_bounds x h1 h2).1 h
    constructor <;> linarith
  · intro h
    obtain ⟨a, b⟩ := (cast_int_bounds x h1 h2).2 h
    constructor <;> linarith

/-- The instant of the result of `event_time`, in nanoseconds, is within one
nanosecond of `jst + dd * 86400` seconds, for a normalised `jst` and every `dd`
whose seconds are in the range of `int`, negative or not. -/
theorem event_time_instant [FloorRing α] (jst : Timespec) (dd : α)
    (hn1 : 0 ≤ jst.tv_nsec) (hn2 : jst.tv_nsec < 1000000000)
    (h1 : -2147483649 < dd * 86400) (h2 : dd * 86400 < 2147483648) :
    |((event_time jst dd).tv_sec : α) * 1000000000 + ((event_time jst dd).tv_nsec : α)
      - ((jst.tv_sec : α) * 1000000000 + (jst.tv_nsec : α) + dd * 86400 * 1000000000)|
      < 1 := by
  have hq1 : (0 : α) ≤ (jst.tv_nsec : α) := by exact_mod_cast hn1
  have hq2 : (jst.tv_nsec : α) < 1000000000 := by exact_mod_cast hn2
  have hf : -1 < dd * 86400 - (cast_int (dd * 86400) : α)
      ∧ dd * 86400 - (cast_int (dd * 86400) : α) < 1 := by
    rcases le_or_lt 0 (dd * 86400) with h | h
    · obtain ⟨a, b⟩ := (frac_bounds (dd * 86400) h1 h2).1 h
      exact ⟨by linarith, b⟩
    · obtain ⟨a, b⟩ := (frac_bounds (dd * 86400) h1 h2).2 h
      exact ⟨a, by linarith⟩
  have hx1 : -9223372036854775809 < (jst.tv_nsec : α)
      + (dd * 86400 - (cast_int (dd * 86400) : α)) * 1000000000 := by nlinarith [hf.1]
  have hx2 : (jst.tv_nsec : α)
      + (dd * 86400 - (cast_int (dd * 86400) : α)) * 1000000000 < 9223372036854775808 := by
    nlinarith [hf.2]
  have h := truncate_abs_sub_lt ((jst.tv_nsec : α)
    + (dd * 86400 - (cast_int (dd * 86400) : α)) * 1000000000)
  rw [← cast_long_of_lt hx1 hx2] at h
  rw [event_time_eq]
  generalize cast_long ((jst.tv_nsec : α)
    + (dd * 86400 - (cast_int (dd * 86400) : α)) * 1000000000) = m at h ⊢
  generalize cast_int (dd * 86400) = k at h ⊢
  split_ifs
  · simp only []
    push_cast
    have e : ((jst.tv_sec : α) + (k : α) + 1) * 1000000000 + ((m : α) - 1000000000)
        - ((jst.tv_sec : α) * 1000000000 + (jst.tv_nsec : α) + dd * 86400 * 1000000000)
        = (m : α) - ((jst.tv_nsec : α) + (dd * 86400 - (k : α)) * 1000000000) := by ring
    rw [e]; exact h
  · simp only []
    push_cast
    have e : ((jst.tv_sec : α) + (k : α)) * 1000000000 + (m : α)
        - ((jst.tv_sec : α) * 1000000000 + (jst.tv_nsec : α) + dd * 86400 * 1000000000)
        = (m : α) - ((jst.tv_nsec : α) + (dd * 86400 - (k : α)) * 1000000000) := by ring
    rw [e]; exact h

/-- For `dd >= 0` with seconds in the range of `int` and a normalised `jst` the
result of `event_time` is normalised. -/
theorem event_time_normalised [FloorRing α] (jst : Timespec) (dd : α) (h0 : 0 ≤ dd)
    (h3 : dd * 86400 < 2147483648)
    (h1 : 0 ≤ jst.tv_nsec) (h2 : jst.tv_nsec < 1000000000) :
    0 ≤ (event_time jst dd).tv_nsec ∧ (event_time jst dd).tv_nsec < 1000000000 := by
  have hs : (0 : α) ≤ dd * 86400 := by positivity
  obtain ⟨a, b⟩ := (frac_bounds (dd * 86400) (by linarith) h3).1 hs
  have hn1 : (0 : α) ≤ (jst.tv_nsec : α) := by exact_mod_cast h1
  have hn2 : (jst.tv_nsec : α) ≤ 999999999 := by
    have : jst.tv_nsec ≤ 999999999 := by omega
    exact_mod_cast this
  have hx0 : (0 : α) ≤ (jst.tv_nsec : α)
      + (dd * 86400 - (cast_int (dd * 86400) : α)) * 1000000000 := by
    have : (0 : α) ≤ (dd * 86400 - (cast_int (dd * 86400) : α)) * 1000000000 :=
      mul_nonneg a (by norm_num)
    linarith
  have hx1 : (jst.tv_nsec : α)
      + (dd * 86400 - (cast_int (dd * 86400) : α)) * 1000000000 < 1999999999 := by
    have : (dd * 86400 - (cast_int (dd * 86400) : α)) * 1000000000 < 1000000000 := by
      nlinarith
    linarith
  obtain ⟨c, d⟩ := (truncate_bounds ((jst.tv_nsec : α)
    + (dd * 86400 - (cast_int (dd * 86400) : α)) * 1000000000)).1 hx0
  rw [← cast_long_of_lt (by linarith) (by linarith)] at c d
  rw [event_time_eq]
  generalize cast_long ((jst.tv_nsec : α)
    + (dd * 86400 - (cast_int (dd * 86400) : α)) * 1000000000) = m at c d ⊢
  have hm0 : (0 : Int) ≤ m := by
    have : (-1 : α) < (m : α) := by linarith
    have : (-1 : Int) < m := by exact_mod_cast this
    omega
  have hm1 : m < 1999999999 := by
    have : (m : α) < 1999999999 := by linarith
    exact_mod_cast this
  split_ifs with hc
  · simp only []
    have : (1000000000 : Int) ≤ m := by exact_mod_cast hc
    omega
  · simp only []
    have : m < 1000000000 := by
      have : (m : α) < 1000000000 := not_le.mp hc
      exact_mod_cast this
    omega

/-- For `jst.tv_nsec = 0` and a negative `dd` whose seconds are in the range of `int`
and have a fraction of at least one nanosecond, the result of `event_time` has a
negative `tv_nsec`. -/
theorem event_time_nsec_neg [FloorRing α] (jst : Timespec) (dd : α)
    (h1 : jst.tv_nsec = 0) (h0 : dd < 0) (h3 : -2147483649 < dd * 86400)
    (h2 : (dd * 86400 - (cast_int (dd * 86400) : α)) * 1000000000 ≤ -1) :
    (event_time jst dd).tv_nsec < 0 := by
  have hs : dd * 86400 < 0 := by nlinarith
  obtain ⟨a, b⟩ := (frac_bounds (dd * 86400) h3 (by linarith)).2 hs
  have hx : (jst.tv_nsec : α)
      + (dd * 86400 - (cast_int (dd * 86400) : α)) * 1000000000 < 0 := by
    rw [h1]; push_cast; linarith
  have hx2 : -9223372036854775809 < (jst.tv_nsec : α)
      + (dd * 86400 - (cast_int (dd * 86400) : α)) * 1000000000 := by
    rw [h1]; push_cast; nlinarith
  obtain ⟨c, d⟩ := (truncate_bounds ((jst.tv_nsec : α)
    + (dd * 86400 - (cast_int (dd * 86400) : α)) * 1000000000)).2 hx
  rw [← cast_long_of_lt hx2 (by linarith)] at c d
  rw [event_time_eq]
  rw [h1] at c d ⊢
  generalize cast_long (((0 : Int) : α)
    + (dd * 86400 - (cast_int (dd * 86400) : α)) * 1000000000) = m at c d ⊢
  have hm : m < 0 := by
    have : (m : α) < 0 := by push_cast at d; linarith
    exact_mod_cast this
  have hc : ¬ (1000000000 : α) ≤ (m : α) := by
    have : (m : α) < 0 := by exact_mod_cast hm
    intro h; linarith
  rw [if_neg hc]
  exact hm

/-- A result of `calc_sun` carries the time that `event_time` makes of the result of
the solver, whatever that result is. -/
theorem calc_sun_time [FloorRing α] (M : Libm α) (c : Calc α) (kbn n : Nat) (r : TmAh α)
    (h : calc_sun M c kbn n = .value r) :
    ∃ dd, calc_time_sun M c kbn n = .value dd ∧ r.time = event_time c.jst dd := by
  unfold calc_sun at h
  cases hd : calc_time_sun M c kbn n with
  | running => rw [hd] at h; simp at h
  | nan => rw [hd] at h; simp at h
  | value dd =>
    rw [hd] at h
    refine ⟨dd, rfl, ?_⟩
    simp only [] at h
    split at h
    · simp at h
    · simp only [Outcome.value.injEq] at h
      rw [← h]

end lemmas

/-! ## Statements -/

/-- C1: `norm_ang(-10)` is `-10`, which is not in `[0, 360)`: `int()` truncates
`-10/360` to `0`, so a negative angle above `-360` is returned unchanged. -/
theorem norm_ang_neg_ten :
    norm_ang (-10 : ℚ) = -10 ∧ ¬ (0 ≤ norm_ang (-10 : ℚ) ∧ norm_ang (-10 : ℚ) < 360) := by
  have h : norm_ang (-10 : ℚ) = -10 := norm_ang_of_abs_lt (by norm_num) (by norm_num)
  rw [h]
  norm_num

/-- C2: `norm_ang` is not 360-periodic across zero: with `x = -10` and `k = 1`,
`norm_ang(x + 360 k) = 350` while `norm_ang(x) = -10`. -/
theorem norm_ang_shift_neg_ten :
    norm_ang ((-10 : ℚ) + 360 * ((1 : Int) : ℚ)) = 350 ∧ norm_ang (-10 : ℚ) = -10 ∧
      norm_ang ((-10 : ℚ) + 360 * ((1 : Int) : ℚ)) ≠ norm_ang (-10 : ℚ) := by
  have h1 : norm_ang ((-10 : ℚ) + 360 * ((1 : Int) : ℚ)) = 350 := by
    rw [norm_ang_of_abs_lt] <;> norm_num
  have h2 : norm_ang (-10 : ℚ) = -10 := norm_ang_of_abs_lt (by norm_num) (by norm_num)
  rw [h1, h2]
  norm_num

/-- C3: `norm_ang` is not idempotent at `x = 10^12`.  The quotient `x / 360` is above
the range of `int`, the conversion `int(x / 360)` gives `INT_MIN`, and
`norm_ang(10^12) = 1773094113280`, of which `norm_ang` is `2546188226560`: the two
differ, and the first is not below 360. -/
theorem norm_ang_twice_overflow :
    norm_ang (1000000000000 : ℚ) = 1773094113280 ∧
      norm_ang (norm_ang (1000000000000 : ℚ)) = 2546188226560 ∧
      norm_ang (norm_ang (1000000000000 : ℚ)) ≠ norm_ang (1000000000000 : ℚ) ∧
      ¬ norm_ang (1000000000000 : ℚ) < 360 := by
  have h1 : norm_ang (1000000000000 : ℚ) = 1773094113280 := by
    rw [norm_ang_of_ge (by norm_num)]; norm_num
  have h2 : norm_ang (1773094113280 : ℚ) = 2546188226560 := by
    rw [norm_ang_of_ge (by norm_num)]; norm_num
  rw [h1, h2]
  refine ⟨rfl, rfl, ?_, ?_⟩ <;> norm_num

/-- C4 (as stated): for transit (`kbn = 2`) with right ascension 0 and sidereal time
180, `hour_ang_diff` returns `-180`, which is not strictly greater than `-180`. -/
theorem hour_ang_diff_returns_m180 :
    hour_ang_diff libm_unused calc_sample ⟨0, 0⟩ 180 0 2 = some (-180) ∧
      ¬ ∀ v : ℚ, hour_ang_diff libm_unused calc_sample ⟨0, 0⟩ 180 0 2 = some v →
        -180 < v ∧ v ≤ 180 := by
  have h : hour_ang_diff libm_unused calc_sample ⟨0, 0⟩ 180 0 2 = some (-180) := by
    norm_num [hour_ang_diff, hour_ang_tk, hour_ang_adjust]
  refine ⟨h, fun hall => ?_⟩
  have := (hall (-180) h).1
  norm_num at this

/-- C4 (amended): whenever `hour_ang_diff` is defined, its value `v` lies in the closed
interval `[-180, 180]`, it is strictly greater than `-180` whenever
`tk - tm_sd + cd_s.lng` is, and it differs from `tk - tm_sd + cd_s.lng` by an integer
multiple of 360, `tk` being the hour angle of the rise/set point. -/
theorem hour_ang_diff_range {α : Type} [LinearOrderedField α] [FloorRing α]
    (M : Libm α) (c : Calc α) (cd_s : Coord α) (tm_sd ht : α) (kbn : Nat) (v : α)
    (h : hour_ang_diff M c cd_s tm_sd ht kbn = some v) :
    -180 ≤ v ∧ v ≤ 180 ∧
      ∃ tk : α, hour_ang_tk M c cd_s ht kbn = some tk ∧
        (-180 < tk - tm_sd + cd_s.lng → -180 < v) ∧
        ∃ k : Int, v = tk - tm_sd + cd_s.lng + 360 * (k : α) := by
  unfold hour_ang_diff at h
  rw [Option.map_eq_some'] at h
  obtain ⟨tk, htk, hv⟩ := h
  obtain ⟨a, b, g, k, hk⟩ := hour_ang_adjust_spec tk cd_s tm_sd
  rw [hv] at a b g hk
  exact ⟨a, b, tk, htk, g, k, hk⟩

/-- Witness of `hour_ang_diff_range`: a transit with sidereal time 200 and right
ascension 10, where `hour_ang_diff` returns `170`. -/
theorem hour_ang_diff_range_witness :
    hour_ang_diff libm_unused calc_sample ⟨0, 10⟩ 200 0 2 = some 170 ∧
      (-180 ≤ (170 : ℚ) ∧ (170 : ℚ) ≤ 180 ∧
        ∃ tk : ℚ, hour_ang_tk libm_unused calc_sample ⟨0, 10⟩ 0 2 = some tk ∧
          (-180 < tk - 200 + (⟨0, 10⟩ : Coord ℚ).lng → -180 < (170 : ℚ)) ∧
          ∃ k : Int, (170 : ℚ) = tk - 200 + (⟨0, 10⟩ : Coord ℚ).lng + 360 * (k : ℚ)) := by
  have hc : Nat.ceil ((19 : ℚ) / 36) = 1 := by
    rw [Nat.ceil_eq_iff (by norm_num)]
    norm_num
  have h : hour_ang_diff libm_unused calc_sample ⟨0, 10⟩ 200 0 2 = some 170 := by
    norm_num [hour_ang_diff, hour_ang_tk, hour_ang_adjust, loop_bound, hc, while_lt_m180]
  exact ⟨h, hour_ang_diff_range libm_unused calc_sample ⟨0, 10⟩ 200 0 2 170 h⟩

/-- C5: `get_utc_tai` returns the offset (the `stoi` of the second field) of the last
row of the table whose date is not after the target date, and `0` when every row is
dated after the target, the empty table included. -/
theorem get_utc_tai_last_row {α : Type}
    (stoi : String → Option Int) (o : Time α) (dt_t : String) :
    (∀ (pre post : List (List String)) (d f : String) (rest : List String),
        o.l_ls = pre ++ (d :: f :: rest) :: post → d ≤ dt_t →
        (∀ r ∈ post, ∃ d2 rest2, r = d2 :: rest2 ∧ ¬ d2 ≤ dt_t) →
        (get_utc_tai stoi o dt_t).map Prod.fst = stoi f) ∧
    ((∀ r ∈ o.l_ls, ∃ d2 rest2, r = d2 :: rest2 ∧ ¬ d2 ≤ dt_t) →
        (get_utc_tai stoi o dt_t).map Prod.fst = some 0) := by
  constructor
  · intro pre post d f rest hl hd hpost
    unfold get_utc_tai
    rw [hl, table_loop_hit stoi dt_t 0 pre post d f rest hd hpost]
    cases stoi f <;> rfl
  · intro h
    unfold get_utc_tai
    rw [table_loop_miss stoi dt_t 0 o.l_ls h]
    rfl

/-- Witness of `get_utc_tai_last_row`: in the sample table the target `20170615`
selects the row of `20170101`, offset `-37`. -/
theorem get_utc_tai_last_row_witness :
    "20170101" ≤ "20170615" ∧ ¬ "20250101" ≤ "20170615" ∧
      (get_utc_tai stoi_sample time_sample "20170615").map Prod.fst = some (-37) := by
  have h1 : "20170101" ≤ "20170615" := by rw [String.le_iff_toList_le]; decide
  have h2 : ¬ "20250101" ≤ "20170615" := by rw [String.le_iff_toList_le]; decide
  refine ⟨h1, h2, ?_⟩
  rw [(get_utc_tai_last_row stoi_sample time_sample "20170615").1
    [["20150701", "-36"]] [["20250101", "-38"]] "20170101" "-37" [] rfl h1
    (by intro r hr; rw [List.mem_singleton] at hr; exact ⟨"20250101", ["-38"], hr, h2⟩)]
  decide

/-- C6: `get_dut1` returns the offset (the `stod` of the second field) of the last
row of the table whose date is not after the target date, and `0.0` when every row
is dated after the target. -/
theorem get_dut1_last_row {α : Type} [LinearOrderedField α]
    (stod : String → Option α) (o : Time α) (dt_t : String) :
    (∀ (pre post : List (List String)) (d f : String) (rest : List String),
        o.l_dut = pre ++ (d :: f :: rest) :: post → d ≤ dt_t →
        (∀ r ∈ post, ∃ d2 rest2, r = d2 :: rest2 ∧ ¬ d2 ≤ dt_t) →
        (get_dut1 stod o dt_t).map Prod.fst = stod f) ∧
    ((∀ r ∈ o.l_dut, ∃ d2 rest2, r = d2 :: rest2 ∧ ¬ d2 ≤ dt_t) →
        (get_dut1 stod o dt_t).map Prod.fst = some 0.0) := by
  constructor
  · intro pre post d f rest hl hd hpost
    unfold get_dut1
    rw [hl, table_loop_hit stod dt_t 0.0 pre post d f rest hd hpost]
    cases stod f <;> rfl
  · intro h
    unfold get_dut1
    rw [table_loop_miss stod dt_t 0.0 o.l_dut h]
    rfl

/-- Witness of `get_dut1_last_row`: in the sample table the target `20170615`
selects the row of `20170330`, offset `0.3`. -/
theorem get_dut1_last_row_witness :
    "20170330" ≤ "20170615" ∧ ¬ "20250101" ≤ "20170615" ∧
      (get_dut1 stod_sample time_sample "20170615").map Prod.fst = some (3 / 10) := by
  have h1 : "20170330" ≤ "20170615" := by rw [String.le_iff_toList_le]; decide
  have h2 : ¬ "20250101" ≤ "20170615" := by rw [String.le_iff_toList_le]; decide
  refine ⟨h1, h2, ?_⟩
  rw [(get_dut1_last_row stod_sample time_sample "20170615").1
    [["20170101", "0.4"]] [["20250101", "-0.1"]] "20170330" "0.3" [] rfl h1
    (by intro r hr; rw [List.mem_singleton] at hr; exact ⟨"20250101", ["-0.1"], hr, h2⟩)]
  have e : '3'.toNat - 48 = 3 := by decide
  have g : '3'.isDigit = true := by decide
  norm_num [stod_sample, e, g]

/-- C7: on an instance as constructed (`dlt_t = 0`), a call of `calc_dlt_t` with a
leap second count `c ≠ 0` returns `32.184 - c - dut1` and leaves the instance as it
was, whatever the era functions and `localtime_r` are (none of them is consulted),
and a second call with the same arguments returns the same value the same way. -/
theorem calc_dlt_t_known {α : Type} [LinearOrderedField α]
    (P : DeltaT α) (localtime_r : Int → Tm) (o : Time α) (ts : Timespec) (c : Int)
    (dut1 : α) (hfresh : o.dlt_t = 0) (hc : c ≠ 0) :
    calc_dlt_t P localtime_r o ts c dut1 = (32.184 - (c : α) - dut1, o) ∧
      calc_dlt_t P localtime_r (calc_dlt_t P localtime_r o ts c dut1).2 ts c dut1 =
        (32.184 - (c : α) - dut1, o) ∧
      ∀ (P2 : DeltaT α) (localtime_r2 : Int → Tm),
        calc_dlt_t P2 localtime_r2 o ts c dut1 = calc_dlt_t P localtime_r o ts c dut1 ∧
        calc_dlt_t P2 localtime_r2 (calc_dlt_t P2 localtime_r2 o ts c dut1).2 ts c dut1 =
          calc_dlt_t P localtime_r (calc_dlt_t P localtime_r o ts c dut1).2 ts c dut1 := by
  have e : ∀ (P3 : DeltaT α) (l3 : Int → Tm),
      calc_dlt_t P3 l3 o ts c dut1 = (32.184 - (c : α) - dut1, o) :=
    fun P3 l3 => calc_dlt_t_early P3 l3 o ts c dut1 hfresh hc
  refine ⟨e P localtime_r, ?_, fun P2 l2 => ⟨?_, ?_⟩⟩
  · rw [e P localtime_r]; exact e P localtime_r
  · rw [e P localtime_r, e P2 l2]
  · rw [e P localtime_r, e P2 l2]; exact (e P2 l2).trans (e P localtime_r).symm

/-- Witness of `calc_dlt_t_known`: the sample instance with `c = -37`, `dut1 = 0.4`
gives `32.184 + 37 - 0.4 = 68.784`. -/
theorem calc_dlt_t_known_witness :
    time_sample.dlt_t = 0 ∧ (-37 : Int) ≠ 0 ∧
      (calc_dlt_t delta_t_sample (fun _ => ⟨117, 5, 15⟩) time_sample ⟨1497484800, 0⟩
        (-37) (0.4 : ℚ)).1 = 68.784 := by
  refine ⟨rfl, by decide, ?_⟩
  rw [(calc_dlt_t_known delta_t_sample (fun _ => ⟨117, 5, 15⟩) time_sample
    ⟨1497484800, 0⟩ (-37) (0.4 : ℚ) rfl (by decide)).1]
  norm_num

/-- C8: the early return is not cached.  On the sample instance (`dlt_t = 0`) the
call `calc_dlt_t(ts, -37, 0)` returns `69.184` and leaves `dlt_t = 0`; the next call
`calc_dlt_t(ts, -36, 0)` on that instance returns `68.184`, not `69.184`. -/
theorem calc_dlt_t_early_not_cached (P : DeltaT ℚ) (localtime_r : Int → Tm)
    (ts : Timespec) :
    (calc_dlt_t P localtime_r time_sample ts (-37) 0).1 = 69.184 ∧
      (calc_dlt_t P localtime_r time_sample ts (-37) 0).2.dlt_t = 0 ∧
      (calc_dlt_t P localtime_r (calc_dlt_t P localtime_r time_sample ts (-37) 0).2
        ts (-36) 0).1 = 68.184 := by
  rw [calc_dlt_t_early P localtime_r time_sample ts (-37) 0 rfl (by decide)]
  refine ⟨by norm_num, rfl, ?_⟩
  rw [calc_dlt_t_early P localtime_r time_sample ts (-36) 0 rfl (by decide)]
  norm_num

/-- C9: on an instance as constructed (`dlt_t = 0`) and with leap second count 0, for
the calendar year `year` and month `month` that `localtime_r` yields, exactly one
era range contains `year`, and `calc_dlt_t` returns (and stores in `dlt_t`) the
formula of that era evaluated at `year + (month - 0.5) / 12`. -/
theorem calc_dlt_t_era {α : Type} [LinearOrderedField α]
    (P : DeltaT α) (localtime_r : Int → Tm) (o : Time α) (ts : Timespec) (dut1 : α)
    (year month mday : Int) (hfresh : o.dlt_t = 0)
    (ht : localtime_r ts.tv_sec = ⟨year - 1900, month - 1, mday⟩) :
    (∃! e : Era, e.range year) ∧
      ∀ e : Era, e.range year →
        calc_dlt_t P localtime_r o ts 0 dut1 =
          (P.formula e ((year : α) + ((month : α) - 0.5) / 12),
            { o with dlt_t := P.formula e ((year : α) + ((month : α) - 0.5) / 12) }) := by
  obtain ⟨e0, hr, hv⟩ := calc_dlt_t_select P localtime_r o ts dut1 year month mday hfresh ht
  refine ⟨⟨e0, hr, fun e he => Era.range_unique e e0 year he hr⟩, fun e he => ?_⟩
  rw [Era.range_unique e e0 year he hr]
  exact hv

/-- Witness of `calc_dlt_t_era`: June 1850 falls in the era `[1800, 1860)` only, and
the sixth function of `delta_t.hpp` is evaluated, at `1850 + 5.5 / 12`. -/
theorem calc_dlt_t_era_witness :
    time_sample.dlt_t = 0 ∧
      ((fun _ => ⟨-50, 5, 15⟩ : Int → Tm) (-3771792000) = ⟨1850 - 1900, 6 - 1, 15⟩) ∧
      Era.bf_1860.range 1850 ∧
      calc_dlt_t delta_t_sample (fun _ => ⟨-50, 5, 15⟩) time_sample ⟨-3771792000, 0⟩ 0 0 =
        (delta_t_sample.calc_dlt_t_bf_1860 (1850 + (6 - 0.5) / 12),
          { time_sample with
            dlt_t := delta_t_sample.calc_dlt_t_bf_1860 (1850 + (6 - 0.5) / 12) }) := by
  have hr : Era.bf_1860.range 1850 := by simp only [Era.range]; omega
  refine ⟨rfl, rfl, hr, ?_⟩
  have h := (calc_dlt_t_era delta_t_sample (fun _ => ⟨-50, 5, 15⟩) time_sample
    ⟨-3771792000, 0⟩ 0 1850 6 15 rfl rfl).2 Era.bf_1860 hr
  simpa [DeltaT.formula] using h

/-- C10: for every date `Y-M-D` of the Gregorian calendar from 2000-03-01 through
2100-02-28 (the date that `localtime_r` yields for `jst`), `calc_day_progress` is the
number of days from 2000-01-01 to the date, less `0.5` and less `9/24`. -/
theorem calc_day_progress_days {α : Type} [LinearOrderedField α] [FloorRing α]
    (localtime_r : Int → Tm) (c : Calc α) (Y M D : Nat)
    (ht : localtime_r c.jst.tv_sec = ⟨(Y : Int) - 1900, (M : Int) - 1, (D : Int)⟩)
    (hd : is_date Y M D) (hc : in_century Y M D) :
    calc_day_progress localtime_r c = (days_from_2000_01_01 Y M D : α) - 0.5 - 9 / 24 := by
  have hN := day_count_eq Y M D hd hc
  obtain ⟨hM1, hM2, hD1, hD2⟩ := hd
  have hD3 : D ≤ 31 := by
    refine le_trans hD2 ?_
    unfold days_in_month
    split_ifs <;> omega
  unfold in_century at hc
  have ey : to_unsigned ((Y : Int) - 1900 + 1900 - 2000) = Y - 2000 := by
    have e : (Y : Int) - 1900 + 1900 - 2000 = ((Y - 2000 : Nat) : Int) := by omega
    rw [e, to_unsigned_natCast _ (by omega)]
  have em : to_unsigned ((M : Int) - 1 + 1) = M := by
    have e : (M : Int) - 1 + 1 = (M : Int) := by omega
    rw [e, to_unsigned_natCast _ (by omega)]
  have ed : to_unsigned (D : Int) = D := to_unsigned_natCast _ (by omega)
  have c5 : (5.0 : α) = ((5 : Nat) : α) := by norm_num
  have c4 : (4.0 : α) = ((4 : Nat) : α) := by norm_num
  unfold calc_day_progress
  simp only [ht, ey, em, ed, kJstUtc]
  by_cases h3 : M < 3
  · have e1 : (Y - 2000 + (2 ^ 32 - 1)) % 2 ^ 32 = Y - 2001 := by omega
    have e2 : (M + 12) % 2 ^ 32 = M + 12 := by omega
    have e3 : 3 * (M + 12 + 1) % 2 ^ 32 = 3 * (M + 12 + 1) := by omega
    rw [if_pos h3] at hN
    have k1 : cast_int (((3 * (M + 12 + 1) : Nat) : α) / ((5 : Nat) : α))
        = ((3 * (M + 12 + 1) / 5 : Nat) : Int) := cast_int_natCast_div _ _ (by omega)
    have k2 : cast_int (((Y - 2001 : Nat) : α) / ((4 : Nat) : α))
        = (((Y - 2001) / 4 : Nat) : Int) := cast_int_natCast_div _ _ (by omega)
    simp only [if_pos h3, e1, e2, e3, c5, c4, k1, k2]
    generalize 3 * (M + 12 + 1) / 5 = q1 at hN ⊢
    generalize (Y - 2001) / 4 = q2 at hN ⊢
    generalize Y - 2001 = y1 at hN ⊢
    have hN2 := congrArg (Nat.cast : Nat → α) hN
    push_cast at hN2 ⊢
    norm_num at hN2 ⊢
    linarith
  · have e3 : 3 * (M + 1) % 2 ^ 32 = 3 * (M + 1) := by omega
    rw [if_neg h3] at hN
    have k1 : cast_int (((3 * (M + 1) : Nat) : α) / ((5 : Nat) : α))
        = ((3 * (M + 1) / 5 : Nat) : Int) := cast_int_natCast_div _ _ (by omega)
    have k2 : cast_int (((Y - 2000 : Nat) : α) / ((4 : Nat) : α))
        = (((Y - 2000) / 4 : Nat) : Int) := cast_int_natCast_div _ _ (by omega)
    simp only [if_neg h3, e3, c5, c4, k1, k2]
    generalize 3 * (M + 1) / 5 = q1 at hN ⊢
    generalize (Y - 2000) / 4 = q2 at hN ⊢
    generalize Y - 2000 = y1 at hN ⊢
    have hN2 := congrArg (Nat.cast : Nat → α) hN
    push_cast at hN2 ⊢
    norm_num at hN2 ⊢
    linarith

/-- Witness of `calc_day_progress_days`: for 2000-03-01, sixty days after 2000-01-01,
the value is `59.125`. -/
theorem calc_day_progress_days_witness :
    is_date 2000 3 1 ∧ in_century 2000 3 1 ∧ days_from_2000_01_01 2000 3 1 = 60 ∧
      calc_day_progress (fun _ => ⟨100, 2, 1⟩) calc_sample = (59.125 : ℚ) := by
  have hd : is_date 2000 3 1 := by decide
  have hc : in_century 2000 3 1 := by decide
  have h60 : days_from_2000_01_01 2000 3 1 = 60 := by decide
  refine ⟨hd, hc, h60, ?_⟩
  rw [calc_day_progress_days (fun _ => ⟨100, 2, 1⟩) calc_sample 2000 3 1 rfl hd hc, h60]
  norm_num

/-- C11: for 2000-01-01 the unsigned year offset `y = 0` is decremented to
`4294967295`, and `calc_day_progress` returns `1568736804863.125`, which is neither
`-0.875` nor smaller than `59.125`. -/
theorem calc_day_progress_jan_2000 :
    calc_day_progress (fun _ => ⟨100, 0, 1⟩) calc_sample = (1568736804863.125 : ℚ) ∧
      ¬ calc_day_progress (fun _ => ⟨100, 0, 1⟩) calc_sample < (59.125 : ℚ) := by
  have e1 : to_unsigned ((100 : Int) + 1900 - 2000) = 0 := by decide
  have e2 : to_unsigned ((0 : Int) + 1) = 1 := by decide
  have e3 : to_unsigned (1 : Int) = 1 := by decide
  have c5 : (5.0 : ℚ) = ((5 : Nat) : ℚ) := by norm_num
  have c4 : (4.0 : ℚ) = ((4 : Nat) : ℚ) := by norm_num
  have h : calc_day_progress (fun _ => ⟨100, 0, 1⟩) calc_sample
      = (1568736804863.125 : ℚ) := by
    have k1 : cast_int (((3 * (13 + 1) % 2 ^ 32 : Nat) : ℚ) / ((5 : Nat) : ℚ))
        = ((3 * (13 + 1) % 2 ^ 32 / 5 : Nat) : Int) := cast_int_natCast_div _ _ (by norm_num)
    have k2 : cast_int ((((0 + (2 ^ 32 - 1)) % 2 ^ 32 : Nat) : ℚ) / ((4 : Nat) : ℚ))
        = (((0 + (2 ^ 32 - 1)) % 2 ^ 32 / 4 : Nat) : Int) :=
      cast_int_natCast_div _ _ (by norm_num)
    simp only [calc_day_progress, e1, e2, e3, c5, c4, kJstUtc]
    norm_num at k1 k2 ⊢
    rw [k1, k2]
    norm_num
  rw [h]
  norm_num

/-- C12: when the loop of `calc_time_moon` exits with the value `t`: if `t` is outside
`[0, 1)` then `calc_time_moon` returns `-1` and `calc_moon` returns the sentinel
(`time = {0, 0}`, `ah = -1`); if `t` is inside `[0, 1)` then `calc_time_moon` returns
`t` and `calc_moon` returns the time computed from `jst` and `t` with the azimuth
(altitude for `kbn = 2`) computed at `t`. -/
theorem calc_moon_sentinel {α : Type} [LinearOrderedField α] [FloorRing α]
    (M : Libm α) (c : Calc α) (kbn n : Nat) (t : α)
    (h : calc_time_moon_loop M c kbn n = .value t) :
    ((t < 0 ∨ 1 ≤ t) →
      calc_time_moon M c kbn n = .value (-1) ∧
      calc_moon M c kbn n = .value ⟨⟨0, 0⟩, -1⟩) ∧
    ((0 ≤ t ∧ t < 1) →
      calc_time_moon M c kbn n = .value t ∧
      ∀ ah : α,
        (if kbn = 2 then
            calc_height M c
              ⟨calc_bet_moon M ((c.day_p + t + c.dlt_t_d) / 365.25),
                calc_lmd_moon M ((c.day_p + t + c.dlt_t_d) / 365.25)⟩
              t ((c.day_p + t + c.dlt_t_d) / 365.25)
          else
            calc_angle M c
              ⟨calc_bet_moon M ((c.day_p + t + c.dlt_t_d) / 365.25),
                calc_lmd_moon M ((c.day_p + t + c.dlt_t_d) / 365.25)⟩
              t ((c.day_p + t + c.dlt_t_d) / 365.25)) = some ah →
        calc_moon M c kbn n = .value ⟨event_time c.jst t, ah⟩) := by
  constructor
  · intro ht
    have hc : t < (0.0 : α) ∨ t ≥ (1.0 : α) := by norm_num; exact ht
    have e : calc_time_moon M c kbn n = .value (-1) := by
      simp only [calc_time_moon, h, if_pos hc]; norm_num
    refine ⟨e, ?_⟩
    have hneg : (-1 : α) < (0.0 : α) := by norm_num
    simp only [calc_moon, e, if_pos hneg]; norm_num
  · intro ht
    have hc : ¬ (t < (0.0 : α) ∨ t ≥ (1.0 : α)) := by
      norm_num; exact ht
    have e : calc_time_moon M c kbn n = .value t := by
      simp only [calc_time_moon, h, if_neg hc]
    refine ⟨e, fun ah hah => ?_⟩
    have hneg : ¬ t < (0.0 : α) := by norm_num; exact ht.1
    simp only [calc_moon, e, if_neg hneg, hah]

/-- Witness of `calc_moon_sentinel`: with the flat sample the loop for the transit
exits after one pass with `t = 0.5`, and `calc_moon` returns `jst` plus 43200
seconds with altitude `0`. -/
theorem calc_moon_sentinel_witness :
    calc_time_moon_loop libm_flat calc_flat 2 1 = .value 0.5 ∧
      ((0 : ℚ) ≤ 0.5 ∧ (0.5 : ℚ) < 1) ∧
      calc_moon libm_flat calc_flat 2 1 = .value ⟨⟨946695600, 0⟩, 0⟩ := by
  have ht : (0 : ℚ) ≤ 0.5 ∧ (0.5 : ℚ) < 1 := by norm_num
  refine ⟨calc_time_moon_loop_flat, ht, ?_⟩
  have ejy : (calc_flat.day_p + 0.5 + calc_flat.dlt_t_d) / 365.25 = (0 : ℚ) := by
    simp only [calc_flat]; norm_num
  have h := ((calc_moon_sentinel libm_flat calc_flat 2 1 0.5 calc_time_moon_loop_flat).2 ht).2 0
    (by simp only [ejy, if_true, calc_height_flat])
  rw [h, event_time_flat]

/-- C15: for the real functions, when the equatorial coordinate `cd_s` is defined and
the denominator `a_1 = sin(dec) cos(lat) - cos(dec) sin(lat) cos(H)` is not zero,
`calc_angle` returns an azimuth in `[0, 360)`: in `[0, 90)` or `(270, 360)` when
`a_1 > 0`, in `(90, 270)` when `a_1 < 0`, and its tangent is `a_0 / a_1` with
`a_0 = -cos(dec) sin(H)`. -/
theorem calc_angle_quadrant (c : Calc ℝ) (cd_k cd_s : Coord ℝ) (dd jy a_0 a_1 : ℝ)
    (hk : ko2se real_libm jy cd_k = some cd_s)
    (h0 : a_0 = -Real.cos (Real.pi / 180 * cd_s.lat)
      * Real.sin (Real.pi / 180 * (tm_sidereal c jy dd - cd_s.lng)))
    (h1 : a_1 = Real.sin (Real.pi / 180 * cd_s.lat) * Real.cos (Real.pi / 180 * c.lat_o)
      - Real.cos (Real.pi / 180 * cd_s.lat) * Real.sin (Real.pi / 180 * c.lat_o)
        * Real.cos (Real.pi / 180 * (tm_sidereal c jy dd - cd_s.lng)))
    (hne : a_1 ≠ 0) :
    ∃ ang : ℝ, calc_angle real_libm c cd_k dd jy = some ang ∧
      0 ≤ ang ∧ ang < 360 ∧
      (0 < a_1 → ang < 90 ∨ 270 < ang) ∧
      (a_1 < 0 → 90 < ang ∧ ang < 270) ∧
      Real.tan (ang * (Real.pi / 180)) = a_0 / a_1 := by
  have hpi := Real.pi_pos
  have e0 : angle_a_0 real_libm cd_s (tm_sidereal c jy dd - cd_s.lng) = a_0 := by
    rw [h0]; simp only [angle_a_0, real_libm_sin, real_libm_cos, kPi180_real]
  have e1 : angle_a_1 real_libm c cd_s (tm_sidereal c jy dd - cd_s.lng) = a_1 := by
    rw [h1]; simp only [angle_a_1, real_libm_sin, real_libm_cos, kPi180_real]
  have e2 : ∀ x : ℝ, x / (Real.pi / 180) = x * 180 / Real.pi := by
    intro x; field_simp
  have hlo := Real.neg_pi_div_two_lt_arctan (a_0 / a_1)
  have hhi := Real.arctan_lt_pi_div_two (a_0 / a_1)
  have hlo2 : -90 < Real.arctan (a_0 / a_1) * 180 / Real.pi := by
    rw [lt_div_iff₀ hpi]; linarith
  have hhi2 : Real.arctan (a_0 / a_1) * 180 / Real.pi < 90 := by
    rw [div_lt_iff₀ hpi]; linarith
  have ht : ∀ d : ℝ, (Real.arctan (a_0 / a_1) * 180 / Real.pi + d) * (Real.pi / 180)
      = Real.arctan (a_0 / a_1) + d * (Real.pi / 180) := by
    intro d; field_simp
  simp only [calc_angle, hk, e0, e1]
  rw [if_neg hne]
  simp only [real_libm_atan, kPi180_real, e2]
  rcases lt_or_gt_of_ne hne with hn | hp
  · have c1 : ¬ (a_1 > (0.0 : ℝ) ∧ Real.arctan (a_0 / a_1) * 180 / Real.pi < 0.0) := by
      norm_num; intro h; linarith
    have c2 : a_1 < (0.0 : ℝ) := by norm_num; exact hn
    rw [if_neg c1, if_pos c2]
    refine ⟨_, rfl, ?_, ?_, ?_, ?_, ?_⟩
    · norm_num; linarith
    · norm_num; linarith
    · intro h; linarith
    · intro _; constructor <;> norm_num <;> linarith
    · have e : (180.0 : ℝ) = 180 := by norm_num
      rw [e, ht 180]
      have : (180 : ℝ) * (Real.pi / 180) = Real.pi := by field_simp
      rw [this, Real.tan_add_pi, Real.tan_arctan]
  · have c2 : ¬ a_1 < (0.0 : ℝ) := by norm_num; exact le_of_lt hp
    by_cases hneg : Real.arctan (a_0 / a_1) * 180 / Real.pi < 0
    · have c1 : (a_1 > (0.0 : ℝ) ∧ Real.arctan (a_0 / a_1) * 180 / Real.pi < 0.0) := by
        norm_num; exact ⟨hp, hneg⟩
      rw [if_pos c1, if_neg c2]
      refine ⟨_, rfl, ?_, ?_, ?_, ?_, ?_⟩
      · norm_num; linarith
      · norm_num; linarith
      · intro _; right; norm_num; linarith
      · intro h; linarith
      · have e : (360.0 : ℝ) = 360 := by norm_num
        rw [e, ht 360]
        have : (360 : ℝ) * (Real.pi / 180) = ((2 : Int) : ℝ) * Real.pi := by
          push_cast; field_simp; ring
        rw [this, Real.tan_add_int_mul_pi, Real.tan_arctan]
    · have c1 : ¬ (a_1 > (0.0 : ℝ) ∧ Real.arctan (a_0 / a_1) * 180 / Real.pi < 0.0) := by
        norm_num; intro _; exact not_lt.mp hneg
      rw [if_neg c1, if_neg c2]
      refine ⟨_, rfl, not_lt.mp hneg, by linarith, ?_, ?_, ?_⟩
      · intro _; left; exact hhi2
      · intro h; linarith
      · have := ht 0
        simp only [zero_mul, add_zero] at this
        rw [this, Real.tan_arctan]

/-- Witness of `calc_angle_quadrant`: at latitude 90 with sidereal time 0 and the
coordinate `(0, 0)`, `a_0 = 0` and `a_1 = -1`, and the azimuth is in `(90, 270)`. -/
theorem calc_angle_quadrant_witness :
    ko2se real_libm 0 ⟨0, 0⟩ = some ⟨0, 0⟩ ∧ (-1 : ℝ) ≠ 0 ∧
      ∃ ang : ℝ, calc_angle real_libm calc_north ⟨0, 0⟩ 0 0 = some ang ∧
        90 < ang ∧ ang < 270 := by
  have h0 : (0 : ℝ) = -Real.cos (Real.pi / 180 * (⟨0, 0⟩ : Coord ℝ).lat)
      * Real.sin (Real.pi / 180 * (tm_sidereal calc_north 0 0 - (⟨0, 0⟩ : Coord ℝ).lng)) := by
    rw [tm_sidereal_north]; simp
  have h1 : (-1 : ℝ) = Real.sin (Real.pi / 180 * (⟨0, 0⟩ : Coord ℝ).lat)
        * Real.cos (Real.pi / 180 * calc_north.lat_o)
      - Real.cos (Real.pi / 180 * (⟨0, 0⟩ : Coord ℝ).lat)
        * Real.sin (Real.pi / 180 * calc_north.lat_o)
        * Real.cos (Real.pi / 180 * (tm_sidereal calc_north 0 0 - (⟨0, 0⟩ : Coord ℝ).lng)) := by
    have e : Real.pi / 180 * calc_north.lat_o = Real.pi / 2 := by
      simp only [calc_north]; ring
    rw [tm_sidereal_north, e]; simp
  have hne : (-1 : ℝ) ≠ 0 := by norm_num
  obtain ⟨ang, ha, _, _, _, hq, _⟩ :=
    calc_angle_quadrant calc_north ⟨0, 0⟩ ⟨0, 0⟩ 0 0 0 (-1) ko2se_origin h0 h1 hne
  exact ⟨ko2se_origin, hne, ang, ha, hq (by norm_num)⟩

/-- C16: for the real functions, with `(a, b, c)` the direction vector of the
coordinate rotated by the obliquity `23.439291 - 0.000130042 jy` and `a ≠ 0`, `ko2se`
is defined, its right ascension is `atan(b / a)` in degrees plus 180 when `a < 0`,
which is `atan2(b, a)` in degrees up to a multiple of 360 and lies in `(-90, 270)`,
and its declination is `asin(c)` in degrees. -/
theorem ko2se_atan2 (jy : ℝ) (cd_k : Coord ℝ) (a b c : ℝ)
    (habc : ko2se_abc real_libm jy cd_k = (a, b, c)) (ha : a ≠ 0) :
    (a = Real.cos (cd_k.lat * (Real.pi / 180)) * Real.cos (cd_k.lng * (Real.pi / 180)) ∧
      b = -Real.sin (cd_k.lat * (Real.pi / 180))
            * Real.sin ((23.439291 - 0.000130042 * jy) * (Real.pi / 180))
          + Real.cos (cd_k.lat * (Real.pi / 180)) * Real.sin (cd_k.lng * (Real.pi / 180))
            * Real.cos ((23.439291 - 0.000130042 * jy) * (Real.pi / 180)) ∧
      c = Real.sin (cd_k.lat * (Real.pi / 180))
            * Real.cos ((23.439291 - 0.000130042 * jy) * (Real.pi / 180))
          + Real.cos (cd_k.lat * (Real.pi / 180)) * Real.sin (cd_k.lng * (Real.pi / 180))
            * Real.sin ((23.439291 - 0.000130042 * jy) * (Real.pi / 180))) ∧
    ∃ cd_s : Coord ℝ, ko2se real_libm jy cd_k = some cd_s ∧
      cd_s.lng = Real.arctan (b / a) * 180 / Real.pi + (if a < 0 then 180 else 0) ∧
      (∃ k : Int, cd_s.lng = atan2_deg b a + 360 * (k : ℝ)) ∧
      -90 < cd_s.lng ∧ cd_s.lng < 270 ∧
      cd_s.lat = Real.arcsin c * 180 / Real.pi := by
  have hpi := Real.pi_pos
  have hk := kPi180_real
  have hk0 : kPi180 real_libm ≠ 0 := ne_of_gt kPi180_real_pos
  have hc := ko2se_abc_c_range jy cd_k
  rw [habc] at hc
  simp only at hc
  constructor
  · have h := habc
    simp only [ko2se_abc, real_libm_sin, real_libm_cos, hk, Prod.mk.injEq] at h
    exact ⟨h.1.symm, h.2.1.symm, h.2.2.symm⟩
  · have h1 : ¬ (a = 0 ∨ kPi180 real_libm = 0) := by
      rintro (h | h)
      · exact ha h
      · exact hk0 h
    have h2 : ¬ (c < -1 ∨ 1 < c) := by
      rintro (h | h) <;> linarith [hc.1, hc.2]
    have e1 : ∀ x : ℝ, x / (Real.pi / 180) = x * 180 / Real.pi := by
      intro x; field_simp
    have hlo := Real.neg_pi_div_two_lt_arctan (b / a)
    have hhi := Real.arctan_lt_pi_div_two (b / a)
    have hlo2 : -90 < Real.arctan (b / a) * 180 / Real.pi := by
      rw [lt_div_iff₀ hpi]; linarith
    have hhi2 : Real.arctan (b / a) * 180 / Real.pi < 90 := by
      rw [div_lt_iff₀ hpi]; linarith
    simp only [ko2se, habc]
    rw [if_neg h1, if_neg h2]
    simp only [real_libm_atan, real_libm_asin, hk, e1]
    refine ⟨_, rfl, ?_, ?_, ?_, ?_, rfl⟩
    · by_cases hn : a < 0
      · have hn2 : a < (0.0 : ℝ) := by norm_num; exact hn
        simp only [if_pos hn, if_pos hn2]; norm_num
      · have hn2 : ¬ a < (0.0 : ℝ) := by norm_num; exact not_lt.mp hn
        simp only [if_neg hn, if_neg hn2]; norm_num
    · by_cases hn : a < 0
      · have hn2 : a < (0.0 : ℝ) := by norm_num; exact hn
        obtain ⟨k, hk2⟩ := arctan_add_pi_eq_arg_of_neg a b hn
        refine ⟨k, ?_⟩
        simp only [if_pos hn2, atan2_deg]
        have : Real.arctan (b / a) = Complex.arg ⟨a, b⟩ + 2 * Real.pi * (k : ℝ) - Real.pi := by
          linarith
        rw [this]; field_simp; ring
      · have hn2 : ¬ a < (0.0 : ℝ) := by norm_num; exact not_lt.mp hn
        have hp : 0 < a := lt_of_le_of_ne (not_lt.mp hn) (Ne.symm ha)
        refine ⟨0, ?_⟩
        simp only [if_neg hn2, atan2_deg, arctan_eq_arg_of_pos a b hp]
        simp
    · by_cases hn : a < 0
      · have hn2 : a < (0.0 : ℝ) := by norm_num; exact hn
        simp only [if_pos hn2]; norm_num; linarith
      · have hn2 : ¬ a < (0.0 : ℝ) := by norm_num; exact not_lt.mp hn
        simp only [if_neg hn2]; exact hlo2
    · by_cases hn : a < 0
      · have hn2 : a < (0.0 : ℝ) := by norm_num; exact hn
        simp only [if_pos hn2]; norm_num; linarith
      · have hn2 : ¬ a < (0.0 : ℝ) := by norm_num; exact not_lt.mp hn
        simp only [if_neg hn2]; linarith

/-- Witness of `ko2se_atan2`: the coordinate `(0, 0)` at `jy = 0` has the direction
vector `(1, 0, 0)`. -/
theorem ko2se_atan2_witness :
    ko2se_abc real_libm 0 ⟨0, 0⟩ = (1, 0, 0) ∧ (1 : ℝ) ≠ 0 ∧
      ∃ cd_s : Coord ℝ, ko2se real_libm 0 ⟨0, 0⟩ = some cd_s ∧
        (∃ k : Int, cd_s.lng = atan2_deg 0 1 + 360 * (k : ℝ)) ∧
        -90 < cd_s.lng ∧ cd_s.lng < 270 := by
  have hne : (1 : ℝ) ≠ 0 := by norm_num
  obtain ⟨_, cd_s, h1, _, h3, h4, h5, _⟩ :=
    ko2se_atan2 0 ⟨0, 0⟩ 1 0 0 ko2se_abc_origin hne
  exact ⟨ko2se_abc_origin, hne, cd_s, h1, h3, h4, h5⟩

/-- C17: a call of `calc_sun` or `calc_moon` leaves the instance as it was, so after
any sequence of calls the instance is unchanged, every call of the sequence returns
what it returns on the original instance, and a call repeated right after itself
returns the same result. -/
theorem calc_calls_frame {α : Type} [LinearOrderedField α] [FloorRing α]
    (M : Libm α) (n : Nat) (c : Calc α) (ks : List Call) :
    (Calc.calls M n c ks).2 = c ∧
      (Calc.calls M n c ks).1 = ks.map (fun k => (Calc.call M n c k).1) ∧
      (∀ k : Call, (Calc.call M n c k).2 = c) ∧
      (∀ kbn : Nat, (Calc.call M n (Calc.call M n c (.sun kbn)).2 (.sun kbn)).1
        = (Calc.call M n c (.sun kbn)).1) ∧
      (∀ kbn : Nat, (Calc.call M n (Calc.call M n c (.moon kbn)).2 (.moon kbn)).1
        = (Calc.call M n c (.moon kbn)).1) := by
  have hk : ∀ (c2 : Calc α) (k : Call), (Calc.call M n c2 k).2 = c2 := by
    intro c2 k; cases k <;> rfl
  refine ⟨?_, ?_, hk c, fun kbn => by rw [hk], fun kbn => by rw [hk]⟩
  · induction ks with
    | nil => rfl
    | cons k ks ih => simp only [Calc.calls, hk, ih]
  · induction ks with
    | nil => rfl
    | cons k ks ih => simp only [Calc.calls, hk, ih, List.map_cons]

/-- C18: for the arguments `20210409 -0.5 0.3 0.0` (latitude 0.5 south), `main` hands
the latitude `0.5`, not `-0.5`, to the constructor, and the instance constructed
has `lat_o = 0.5`. -/
theorem main_passes_abs_latitude (mktime_of : String → Int) :
    stod_sample "-0.5" = some (-(1 / 2)) ∧
      main_calc_args stod_sample mktime_of ["sun_moon", "20210409", "-0.5", "0.3", "0.0"]
        = some (⟨mktime_of "20210409", 0⟩, 1 / 2, 3 / 10, 0) ∧
      ∀ (M : Libm ℚ) (P : DeltaT ℚ) (localtime_r : Int → Tm) (stoi : String → Option Int)
        (leap_sec dut1_file : Option String) (dut1_0 : ℚ) (utc_tai_0 : Int) (c : Calc ℚ),
        Calc.construct M P localtime_r stoi stod_sample leap_sec dut1_file dut1_0 utc_tai_0
          ⟨mktime_of "20210409", 0⟩ (1 / 2) (3 / 10) 0 = some c → c.lat_o = 1 / 2 := by
  have e1 : stod_sample "-0.5" = some (-(1 / 2)) := by
    have e : '5'.toNat - 48 = 5 := by decide
    have g : '5'.isDigit = true := by decide
    norm_num [stod_sample, e, g]
  have e2 : stod_sample "0.3" = some (3 / 10) := by
    have e : '3'.toNat - 48 = 3 := by decide
    have g : '3'.isDigit = true := by decide
    norm_num [stod_sample, e, g]
  have e3 : stod_sample "0.0" = some 0 := by
    have e : '0'.toNat - 48 = 0 := by decide
    have g : '0'.isDigit = true := by decide
    norm_num [stod_sample, e, g]
  have hl : ¬ "20210409".length > 8 := by decide
  refine ⟨e1, ?_, fun M P localtime_r stoi leap_sec dut1_file dut1_0 utc_tai_0 c h =>
    (calc_construct_fields M P localtime_r stoi stod_sample leap_sec dut1_file dut1_0
      utc_tai_0 _ _ _ _ c h).2.1⟩
  simp only [main_calc_args, List.length_cons, List.length_nil]
  norm_num [e1, e2, e3, hl]

/-- C19: for an observer at latitude 90 and the moonrise (`kbn = 0`), the divisor
`cos(dec) cos(lat)` of the inverse-cosine argument is zero at the first pass of the
loop, `calc_time_moon` yields NaN and `calc_moon` yields NaN, not the sentinel,
however many iterations are allowed. -/
theorem calc_moon_pole_nan (n : Nat) :
    calc_time_moon real_libm calc_pole 0 (n + 1) = Outcome.nan ∧
      calc_moon real_libm calc_pole 0 (n + 1) = Outcome.nan ∧
      calc_moon real_libm calc_pole 0 (n + 1) ≠ Outcome.value ⟨⟨0, 0⟩, -1⟩ := by
  obtain ⟨e, e2⟩ := calc_moon_nan_of_first real_libm calc_pole 0 n
    (moon_rev_pole 0 (by decide) 0.5)
  refine ⟨e, e2, ?_⟩
  rw [e2]
  exact fun h => Outcome.noConfusion h

/-- C20: `Time::Time` fails if and only if `get_leap_sec_list` or `get_dut1_list`
returns `false`, which they do exactly when the file cannot be opened; when it
succeeds, `dlt_t` is `0` and `l_ls`, `l_dut` hold the records of the two files: the
lines that are not blank, split at white space, in file order. -/
theorem time_construct_fails_iff {α : Type} [LinearOrderedField α]
    (leap_sec dut1_file : Option String) (dut1_0 : α)
    (utc_tai_0 : Int) :
    (Time.construct leap_sec dut1_file dut1_0 utc_tai_0 = none ↔
      (get_leap_sec_list leap_sec []).1 = false ∨ (get_dut1_list dut1_file []).1 = false) ∧
    ((get_leap_sec_list leap_sec []).1 = false ↔ leap_sec = none) ∧
    ((get_dut1_list dut1_file []).1 = false ↔ dut1_file = none) ∧
    ∀ o : Time α, Time.construct leap_sec dut1_file dut1_0 utc_tai_0 = some o →
      o.dlt_t = 0 ∧
      ∃ text_1 text_2 : String, leap_sec = some text_1 ∧ dut1_file = some text_2 ∧
        o.l_ls = records text_1 ∧ o.l_dut = records text_2 := by
  cases leap_sec with
  | none =>
    refine ⟨?_, ?_, ?_, ?_⟩
    · simp [Time.construct, get_leap_sec_list]
    · simp [get_leap_sec_list]
    · cases dut1_file <;> simp [get_dut1_list]
    · intro o h; simp [Time.construct, get_leap_sec_list] at h
  | some t1 =>
    cases dut1_file with
    | none =>
      refine ⟨?_, ?_, ?_, ?_⟩
      · simp [Time.construct, get_leap_sec_list, get_dut1_list]
      · simp [get_leap_sec_list]
      · simp [get_dut1_list]
      · intro o h; simp [Time.construct, get_leap_sec_list, get_dut1_list] at h
    | some t2 =>
      refine ⟨?_, ?_, ?_, ?_⟩
      · simp [Time.construct, get_leap_sec_list, get_dut1_list]
      · simp [get_leap_sec_list]
      · simp [get_dut1_list]
      · intro o h
        simp only [Time.construct, get_leap_sec_list_nil, get_dut1_list_nil, Option.some.injEq] at h
        subst h
        refine ⟨by norm_num, t1, t2, rfl, rfl, rfl, rfl⟩

/-- Witness of `time_construct_fails_iff`: two small files, one with a blank line and a
tab, are loaded into two records and one record. -/
theorem time_construct_fails_iff_witness :
    ∃ o : Time ℚ,
      Time.construct (some "20150701 -36\n\n20170101\t-37\n") (some "20170101 0.4") 0 0
        = some o ∧
      o.dlt_t = 0 ∧ o.l_ls = [["20150701", "-36"], ["20170101", "-37"]] ∧
      o.l_dut = [["20170101", "0.4"]] := by
  have h1 : get_leap_sec_list (some "20150701 -36\n\n20170101\t-37\n") []
      = (true, [["20150701", "-36"], ["20170101", "-37"]]) := by decide
  have h2 : get_dut1_list (some "20170101 0.4") [] = (true, [["20170101", "0.4"]]) := by
    decide
  have h : Time.construct (some "20150701 -36\n\n20170101\t-37\n") (some "20170101 0.4")
      (0 : ℚ) 0 = some ⟨[["20150701", "-36"], ["20170101", "-37"]], [["20170101", "0.4"]],
        0, 0, 0.0⟩ := by
    simp only [Time.construct, h1, h2]
  refine ⟨_, h, ?_, rfl, rfl⟩
  exact ((time_construct_fails_iff _ _ (0 : ℚ) 0).2.2.2 _ h).1

/-- C21: for two strings of exactly eight decimal digits, the string comparison
`s <= t` of the table look-ups holds if and only if the number written by `s` is at
most the number written by `t`, which for numbers `YYYYMMDD` is the order of the
dates by year, then month, then day. -/
theorem date_string_le_iff (s t : String) (hs : is_date_string s) (ht : is_date_string t) :
    (s ≤ t ↔ date_number s ≤ date_number t) ∧
      ∀ Y1 M1 D1 Y2 M2 D2 : Nat, M1 < 100 → D1 < 100 → M2 < 100 → D2 < 100 →
        date_number s = Y1 * 10000 + M1 * 100 + D1 →
        date_number t = Y2 * 10000 + M2 * 100 + D2 →
        (s ≤ t ↔ Y1 < Y2 ∨ (Y1 = Y2 ∧ (M1 < M2 ∨ (M1 = M2 ∧ D1 ≤ D2)))) := by
  have main : s ≤ t ↔ date_number s ≤ date_number t := by
    rw [String.le_iff_toList_le]
    have h := digits_lt_iff t.toList s.toList (by rw [ht.1, hs.1]) ht.2 hs.2
    unfold date_number
    constructor
    · intro h1
      by_contra h2
      exact absurd (h.mpr (not_le.mp h2)) (not_lt.mpr h1)
    · intro h1
      exact not_lt.mp (fun h2 => absurd (h.mp h2) (not_lt.mpr h1))
  refine ⟨main, ?_⟩
  intro Y1 M1 D1 Y2 M2 D2 h1 h2 h3 h4 e1 e2
  rw [main, e1, e2]
  omega

/-- Witness of `date_string_le_iff`: `20170101` and `20170615`. -/
theorem date_string_le_iff_witness :
    is_date_string "20170101" ∧ is_date_string "20170615" ∧
      date_number "20170101" = 20170101 ∧ date_number "20170615" = 20170615 ∧
      "20170101" ≤ "20170615" := by
  have h1 : is_date_string "20170101" := by decide
  have h2 : is_date_string "20170615" := by decide
  have e1 : date_number "20170101" = 20170101 := by decide
  have e2 : date_number "20170615" = 20170615 := by decide
  refine ⟨h1, h2, e1, e2, ?_⟩
  rw [(date_string_le_iff "20170101" "20170615" h1 h2).1, e1, e2]
  decide

/-- C22: for the transit (`kbn = 2`) `hour_ang_diff` is the adjustment of
`0 - tm_sd + cd_s.lng`, whatever the altitude `ht`, the instance (its latitude) and
the `<cmath>` functions are, so no inverse cosine enters it; and `calc_time_moon(2)`
is the same for two instances that agree on `day_p`, `dlt_t_d` and `lng_o` (they may
differ in `dip`, `ht_o` and `lat_o`) and for two sets of functions that agree on
`sin`, `cos`, `atan` and `asin` (they may differ in `acos`). -/
theorem transit_ignores_altitude {α : Type} [LinearOrderedField α] [FloorRing α]
    (M M2 : Libm α) (c c2 : Calc α)
    (cd_s : Coord α) (tm_sd ht ht2 : α) (n : Nat)
    (hs : M2.sin = M.sin) (hc : M2.cos = M.cos) (ha : M2.atan = M.atan)
    (hi : M2.asin = M.asin)
    (hp : c2.day_p = c.day_p) (hd : c2.dlt_t_d = c.dlt_t_d) (hl : c2.lng_o = c.lng_o) :
    hour_ang_diff M c cd_s tm_sd ht 2 = some (hour_ang_adjust 0 cd_s tm_sd) ∧
      hour_ang_diff M2 c2 cd_s tm_sd ht2 2 = hour_ang_diff M c cd_s tm_sd ht 2 ∧
      calc_time_moon M2 c2 2 n = calc_time_moon M c 2 n := by
  refine ⟨hour_ang_diff_two M c cd_s tm_sd ht, ?_, ?_⟩
  · rw [hour_ang_diff_two, hour_ang_diff_two]
  · have hk : kPi180 M2 = kPi180 M := by simp only [kPi180, kPi, ha]
    have hlm : ∀ jy, calc_lmd_moon M2 jy = calc_lmd_moon M jy := by
      intro jy; simp only [calc_lmd_moon, hs, hk]
    have hbm : ∀ jy, calc_bet_moon M2 jy = calc_bet_moon M jy := by
      intro jy; simp only [calc_bet_moon, hs, hk]
    have hko : ∀ jy cd_k, ko2se M2 jy cd_k = ko2se M jy cd_k := by
      intro jy cd_k; simp only [ko2se, ko2se_abc, hs, hc, ha, hi, hk]
    have hsd : ∀ jy tm, tm_sidereal c2 jy tm = tm_sidereal c jy tm := by
      intro jy tm; simp only [tm_sidereal, hl]
    have hrev : moon_rev M2 c2 2 = moon_rev M c 2 := by
      funext tm
      rw [moon_rev_two, moon_rev_two, hp, hd, hlm, hbm, hko, hsd]
    simp only [calc_time_moon, calc_time_moon_loop, hrev]

/-- Witness of `transit_ignores_altitude`: the flat sample and the same observer at
height 20000 with `dip = 5` on the equator. -/
theorem transit_ignores_altitude_witness :
    ({ calc_flat with dip := 5, ht_o := 20000, lat_o := 0 } : Calc ℚ).day_p = calc_flat.day_p ∧
      calc_time_moon libm_flat { calc_flat with dip := 5, ht_o := 20000, lat_o := 0 } 2 1
        = calc_time_moon libm_flat calc_flat 2 1 ∧
      hour_ang_diff libm_flat calc_flat ⟨0, 45⟩ 45 7 2 = some 0 := by
  have h := transit_ignores_altitude libm_flat libm_flat calc_flat
    { calc_flat with dip := 5, ht_o := 20000, lat_o := 0 } ⟨0, 45⟩ 45 7 0 1 rfl rfl rfl rfl
    rfl rfl rfl
  refine ⟨rfl, h.2.2, ?_⟩
  rw [h.1]
  norm_num [hour_ang_adjust]

/-- C23: for the real functions, when the divisor `cos(dec) cos(lat)` is not zero
and the quotient `x = (sin h - sin(dec) sin(lat)) / (cos(dec) cos(lat))` is in
`[-1, 1]`, the hour angle `tk` of `hour_ang_diff` is `-acos(x)` in degrees for the
rise (`kbn = 0`) and `acos(x)` in degrees for the set (`kbn = 1`), the latter in
`[0, 180]`; the rise value is the negative of the set value. -/
theorem hour_ang_tk_rise_set (c : Calc ℝ) (cd_s : Coord ℝ) (ht x : ℝ)
    (hden : Real.cos (Real.pi / 180 * cd_s.lat) * Real.cos (Real.pi / 180 * c.lat_o) ≠ 0)
    (hx : x = (Real.sin (Real.pi / 180 * ht)
        - Real.sin (Real.pi / 180 * cd_s.lat) * Real.sin (Real.pi / 180 * c.lat_o))
      / (Real.cos (Real.pi / 180 * cd_s.lat) * Real.cos (Real.pi / 180 * c.lat_o)))
    (h1 : -1 ≤ x) (h2 : x ≤ 1) :
    acos_arg real_libm c cd_s ht = x ∧
      hour_ang_tk real_libm c cd_s ht 0 = some (-(Real.arccos x * 180 / Real.pi)) ∧
      hour_ang_tk real_libm c cd_s ht 1 = some (Real.arccos x * 180 / Real.pi) ∧
      0 ≤ Real.arccos x * 180 / Real.pi ∧ Real.arccos x * 180 / Real.pi ≤ 180 := by
  have hpi := Real.pi_pos
  have hk := kPi180_real
  have hk0 : kPi180 real_libm ≠ 0 := ne_of_gt kPi180_real_pos
  have hden2 : real_libm.cos (kPi180 real_libm * cd_s.lat)
      * real_libm.cos (kPi180 real_libm * c.lat_o) ≠ 0 := by
    rw [hk, real_libm_cos, real_libm_cos]; exact hden
  have hq : (real_libm.sin (kPi180 real_libm * ht)
        - real_libm.sin (kPi180 real_libm * cd_s.lat) * real_libm.sin (kPi180 real_libm * c.lat_o))
      / (real_libm.cos (kPi180 real_libm * cd_s.lat)
        * real_libm.cos (kPi180 real_libm * c.lat_o)) = x := by
    rw [hx, hk]; rfl
  have e2 : ∀ y : ℝ, y / (Real.pi / 180) = y * 180 / Real.pi := by
    intro y; field_simp
  have hlo : 0 ≤ Real.arccos x * 180 / Real.pi :=
    div_nonneg (mul_nonneg (Real.arccos_nonneg x) (by norm_num)) (le_of_lt hpi)
  have hhi : Real.arccos x * 180 / Real.pi ≤ 180 := by
    rw [div_le_iff₀ hpi]; nlinarith [Real.arccos_le_pi x]
  have c1 : ¬ (real_libm.cos (kPi180 real_libm * cd_s.lat)
      * real_libm.cos (kPi180 real_libm * c.lat_o) = 0 ∨ kPi180 real_libm = 0) := by
    rintro (h | h)
    · exact hden2 h
    · exact hk0 h
  have c2 : ¬ (x < -1 ∨ 1 < x) := by
    rintro (h | h) <;> linarith
  have hacos : real_libm.acos x / kPi180 real_libm = Real.arccos x * 180 / Real.pi := by
    rw [hk, ← e2]; rfl
  refine ⟨hq, ?_, ?_, hlo, hhi⟩
  · have k0 : ¬ (0 : Nat) = 2 := by decide
    simp only [hour_ang_tk, if_neg k0]
    rw [if_neg c1, hq, if_neg c2, hacos]
    by_cases hz : Real.arccos x * 180 / Real.pi > 0
    · have hz1 : (0 : ℝ) < Real.arccos x * 180 / Real.pi := hz
      norm_num [hz1, abs_of_pos hz1]
    · have hz0 : Real.arccos x * 180 / Real.pi = 0 := le_antisymm (not_lt.mp hz) hlo
      rw [hz0]
      norm_num
  · have k1 : ¬ (1 : Nat) = 2 := by decide
    simp only [hour_ang_tk, if_neg k1]
    rw [if_neg c1, hq, if_neg c2, hacos]
    have hz3 : ¬ Real.arccos x * 180 / Real.pi < 0 := not_lt.mpr hlo
    norm_num [hz3]

/-- Witness of `hour_ang_tk_rise_set`: on the equator with declination 0 and altitude
0 the quotient is 0 and the hour angles are `-90` and `90`. -/
theorem hour_ang_tk_rise_set_witness :
    Real.cos (Real.pi / 180 * (⟨0, 0⟩ : Coord ℝ).lat)
        * Real.cos (Real.pi / 180 * calc_equator.lat_o) ≠ 0 ∧
      hour_ang_tk real_libm calc_equator ⟨0, 0⟩ 0 0 = some (-90) ∧
      hour_ang_tk real_libm calc_equator ⟨0, 0⟩ 0 1 = some 90 := by
  have hden : Real.cos (Real.pi / 180 * (⟨0, 0⟩ : Coord ℝ).lat)
      * Real.cos (Real.pi / 180 * calc_equator.lat_o) ≠ 0 := by
    simp [calc_equator]
  have hx : (0 : ℝ) = (Real.sin (Real.pi / 180 * 0)
        - Real.sin (Real.pi / 180 * (⟨0, 0⟩ : Coord ℝ).lat)
          * Real.sin (Real.pi / 180 * calc_equator.lat_o))
      / (Real.cos (Real.pi / 180 * (⟨0, 0⟩ : Coord ℝ).lat)
        * Real.cos (Real.pi / 180 * calc_equator.lat_o)) := by
    simp [calc_equator]
  have h := hour_ang_tk_rise_set calc_equator ⟨0, 0⟩ 0 0 hden hx (by norm_num) (by norm_num)
  have e : Real.arccos 0 * 180 / Real.pi = 90 := by
    rw [Real.arccos_zero]; field_simp; ring
  rw [e] at h
  exact ⟨hden, h.2.1, h.2.2.1⟩

/-- C25: a correction that a pass of the loop applies is at most `0.5 = 180 / 360` day
in absolute value in `calc_time_sun` and at most `180 / 347.8 < 0.5176` day in
`calc_time_moon`. -/
theorem solver_step_bound {α : Type} [LinearOrderedField α] [FloorRing α]
    (M : Libm α) (c : Calc α) (kbn : Nat) (tm : α) :
    (∀ rev : α, sun_rev M c kbn tm = some rev → |rev| ≤ 0.5 ∧ (0.5 : α) = 180 / 360) ∧
    (∀ rev : α, moon_rev M c kbn tm = some rev →
      |rev| ≤ 180 / 347.8 ∧ (180 / 347.8 : α) < 0.5176) := by
  constructor
  · intro rev h
    obtain ⟨cd_s, dt, _, h2, h3⟩ := sun_rev_step M c kbn tm rev h
    obtain ⟨a, b⟩ := hour_ang_diff_bounds M c cd_s _ _ kbn dt h2
    refine ⟨?_, by norm_num⟩
    rw [h3, abs_le]
    constructor
    · rw [le_div_iff₀ (by norm_num)]; norm_num; linarith
    · rw [div_le_iff₀ (by norm_num)]; norm_num; linarith
  · intro rev h
    obtain ⟨cd_s, dt, _, h2, h3⟩ := moon_rev_step M c kbn tm rev h
    obtain ⟨a, b⟩ := hour_ang_diff_bounds M c cd_s _ _ kbn dt h2
    refine ⟨?_, by norm_num⟩
    rw [h3, abs_le]
    constructor
    · rw [le_div_iff₀ (by norm_num)]; norm_num; linarith
    · rw [div_le_iff₀ (by norm_num)]; norm_num; linarith

/-- Witness of `solver_step_bound`: the corrections of the flat sample at `tm = 0.5`. -/
theorem solver_step_bound_witness :
    sun_rev libm_flat calc_flat 2 0.5 = some 0 ∧ moon_rev libm_flat calc_flat 2 0.5 = some 0 ∧
      |(0 : ℚ)| ≤ 0.5 ∧ |(0 : ℚ)| ≤ 180 / 347.8 :=
  ⟨sun_rev_flat, moon_rev_flat,
    ((solver_step_bound libm_flat calc_flat 2 0.5).1 0 sun_rev_flat).1,
    ((solver_step_bound libm_flat calc_flat 2 0.5).2 0 moon_rev_flat).1⟩

/-- C26 (as stated): at `jy = (360 * 2100000000 - 177.54) / 359.991`, about
`2.1e9`, the exponent of 10 in `calc_dist_sun` is below `-324`, the power underflows
and `calc_dist_sun` is `0`, not strictly positive. -/
theorem calc_dist_sun_underflow :
    calc_dist_sun real_libm ((360 * 2100000000 - 177.54) / 359.991) = 0 ∧
      ¬ 0 < calc_dist_sun real_libm ((360 * 2100000000 - 177.54) / 359.991) := by
  have h : calc_dist_sun real_libm ((360 * 2100000000 - 177.54) / 359.991) = 0 := by
    rw [calc_dist_sun_eq, real_libm_pow_ten_underflow _ dist_sun_exp_far]
  rw [h]
  exact ⟨rfl, lt_irrefl 0⟩

/-- C26 (amended): for the real functions and every `jy` with `|jy| <= 10^7`,
`calc_dist_sun(jy)` is positive, between `1/1000` and `1000`; and for an instance
that the constructor built for the height `ht`, which is then not negative and has
`dip = kDipCoef * sqrt(ht)`, the altitude `ht = -r - 0.585556 - dip + diff` of
`calc_time_sun` is below `-0.585556`, and it is not larger for an instance built
for a larger height. -/
theorem sun_ht_below (P : DeltaT ℝ) (localtime_r : Int → Tm)
    (stoi : String → Option Int) (stod : String → Option ℝ)
    (leap_sec dut1_file : Option String) (dut1_0 : ℝ) (utc_tai_0 : Int)
    (jst : Timespec) (lat lng ht ht2 jy : ℝ) (c c2 : Calc ℝ)
    (hc : Calc.construct real_libm P localtime_r stoi stod leap_sec dut1_file dut1_0
      utc_tai_0 jst lat lng ht = some c)
    (hc2 : Calc.construct real_libm P localtime_r stoi stod leap_sec dut1_file dut1_0
      utc_tai_0 jst lat lng ht2 = some c2)
    (hh : ht ≤ ht2) (hj : |jy| ≤ 10000000) :
    0 < calc_dist_sun real_libm jy ∧
      1 / 1000 < calc_dist_sun real_libm jy ∧ calc_dist_sun real_libm jy < 1000 ∧
      0 ≤ ht ∧ c.dip = kDipCoef * Real.sqrt ht ∧
      sun_ht real_libm c jy
        = -(0.266994 / calc_dist_sun real_libm jy) - 0.585556 - c.dip
          + 0.0024428 / calc_dist_sun real_libm jy ∧
      sun_ht real_libm c jy < -0.585556 ∧
      sun_ht real_libm c2 jy ≤ sun_ht real_libm c jy := by
  obtain ⟨_, l1, l2⟩ := calc_dist_sun_of_abs_le jy hj
  have hp : 0 < calc_dist_sun real_libm jy := lt_trans (by norm_num) l1
  obtain ⟨h0, _, hd⟩ := calc_construct_dip real_libm P localtime_r stoi stod leap_sec
    dut1_file dut1_0 utc_tai_0 jst lat lng ht c hc
  obtain ⟨_, _, hd2⟩ := calc_construct_dip real_libm P localtime_r stoi stod leap_sec
    dut1_file dut1_0 utc_tai_0 jst lat lng ht2 c2 hc2
  rw [real_libm_sqrt] at hd hd2
  have hk : (0 : ℝ) ≤ kDipCoef := by norm_num [kDipCoef]
  have hdip : 0 ≤ c.dip := by
    rw [hd]; exact mul_nonneg hk (Real.sqrt_nonneg _)
  have hmono : c.dip ≤ c2.dip := by
    rw [hd, hd2]
    exact mul_le_mul_of_nonneg_left (Real.sqrt_le_sqrt hh) hk
  have hq : 0.0024428 / calc_dist_sun real_libm jy < 0.266994 / calc_dist_sun real_libm jy :=
    div_lt_div_of_pos_right (by norm_num) hp
  have e : ∀ c3 : Calc ℝ, sun_ht real_libm c3 jy
      = -(0.266994 / calc_dist_sun real_libm jy) - 0.585556 - c3.dip
        + 0.0024428 / calc_dist_sun real_libm jy := by
    intro c3; simp only [sun_ht, kAstrRef]
  refine ⟨hp, l1, l2, h0, hd, e c, ?_, ?_⟩
  · rw [e c]; linarith
  · rw [e c, e c2]; linarith

/-- Witness of `sun_ht_below`: with two empty tables, the observer at 35 N 135 E on
2021-04-09 at the heights 0 and 100, and `jy = 21`. -/
theorem sun_ht_below_witness :
    ∃ c c2 : Calc ℝ,
      Calc.construct real_libm ⟨id, id, id, id, id, id, id, id, id, id, id, id, id, id, id⟩
        (fun _ => ⟨121, 3, 9⟩) (fun _ => none) (fun _ => none) (some "") (some "") 0 0
        ⟨1617894000, 0⟩ 35 135 0 = some c ∧
      Calc.construct real_libm ⟨id, id, id, id, id, id, id, id, id, id, id, id, id, id, id⟩
        (fun _ => ⟨121, 3, 9⟩) (fun _ => none) (fun _ => none) (some "") (some "") 0 0
        ⟨1617894000, 0⟩ 35 135 100 = some c2 ∧
      (0 : ℝ) ≤ 100 ∧ |(21 : ℝ)| ≤ 10000000 ∧
      sun_ht real_libm c 21 < -0.585556 ∧ sun_ht real_libm c2 21 ≤ sun_ht real_libm c 21 := by
  obtain ⟨c, hc⟩ := calc_construct_empty real_libm
    ⟨id, id, id, id, id, id, id, id, id, id, id, id, id, id, id⟩
    (fun _ => ⟨121, 3, 9⟩) (fun _ => none) (fun _ => none) 0 0 ⟨1617894000, 0⟩ 35 135 0
    (le_refl 0)
  obtain ⟨c2, hc2⟩ := calc_construct_empty real_libm
    ⟨id, id, id, id, id, id, id, id, id, id, id, id, id, id, id⟩
    (fun _ => ⟨121, 3, 9⟩) (fun _ => none) (fun _ => none) 0 0 ⟨1617894000, 0⟩ 35 135 100
    (by norm_num)
  have hj : |(21 : ℝ)| ≤ 10000000 := by norm_num
  have h := sun_ht_below _ _ _ _ _ _ _ _ _ _ _ _ _ 21 c c2 hc hc2 (by norm_num) hj
  exact ⟨c, c2, hc, hc2, by norm_num, hj, h.2.2.2.2.2.2.1, h.2.2.2.2.2.2.2⟩

/-- C27: for the real functions the vector `(a, b, c)` of `ko2se` has length 1, so `c`
is in `[-1, 1]`, `asin(c)` in degrees is in `[-90, 90]`, `ko2se` is defined whenever
`a` is not zero, and the declination it returns is that value. -/
theorem ko2se_declination_range (jy : ℝ) (cd_k : Coord ℝ) :
    (ko2se_abc real_libm jy cd_k).1 ^ 2 + (ko2se_abc real_libm jy cd_k).2.1 ^ 2
        + (ko2se_abc real_libm jy cd_k).2.2 ^ 2 = 1 ∧
      -1 ≤ (ko2se_abc real_libm jy cd_k).2.2 ∧ (ko2se_abc real_libm jy cd_k).2.2 ≤ 1 ∧
      -90 ≤ Real.arcsin (ko2se_abc real_libm jy cd_k).2.2 * 180 / Real.pi ∧
      Real.arcsin (ko2se_abc real_libm jy cd_k).2.2 * 180 / Real.pi ≤ 90 ∧
      ((ko2se_abc real_libm jy cd_k).1 ≠ 0 → ∃ cd_s, ko2se real_libm jy cd_k = some cd_s) ∧
      ∀ cd_s : Coord ℝ, ko2se real_libm jy cd_k = some cd_s →
        cd_s.lat = Real.arcsin (ko2se_abc real_libm jy cd_k).2.2 * 180 / Real.pi ∧
        -90 ≤ cd_s.lat ∧ cd_s.lat ≤ 90 := by
  have hpi := Real.pi_pos
  have hc := ko2se_abc_c_range jy cd_k
  have hk0 : kPi180 real_libm ≠ 0 := ne_of_gt kPi180_real_pos
  have h1 := Real.neg_pi_div_two_le_arcsin (ko2se_abc real_libm jy cd_k).2.2
  have h2 := Real.arcsin_le_pi_div_two (ko2se_abc real_libm jy cd_k).2.2
  have hlo : -90 ≤ Real.arcsin (ko2se_abc real_libm jy cd_k).2.2 * 180 / Real.pi := by
    rw [le_div_iff₀ hpi]; linarith
  have hhi : Real.arcsin (ko2se_abc real_libm jy cd_k).2.2 * 180 / Real.pi ≤ 90 := by
    rw [div_le_iff₀ hpi]; linarith
  have c2 : ¬ ((ko2se_abc real_libm jy cd_k).2.2 < -1 ∨ 1 < (ko2se_abc real_libm jy cd_k).2.2) := by
    rintro (h | h) <;> linarith [hc.1, hc.2]
  have e2 : ∀ y : ℝ, y / (Real.pi / 180) = y * 180 / Real.pi := by
    intro y; field_simp
  refine ⟨ko2se_abc_unit jy cd_k, hc.1, hc.2, hlo, hhi, ?_, ?_⟩
  · intro ha
    have c1 : ¬ ((ko2se_abc real_libm jy cd_k).1 = 0 ∨ kPi180 real_libm = 0) := by
      rintro (h | h)
      · exact ha h
      · exact hk0 h
    simp only [ko2se]
    rw [if_neg c1, if_neg c2]
    exact ⟨_, rfl⟩
  · intro cd_s h
    have hl : cd_s.lat = Real.arcsin (ko2se_abc real_libm jy cd_k).2.2 * 180 / Real.pi := by
      simp only [ko2se] at h
      split_ifs at h with c1 <;>
        (simp only [Option.some.injEq] at h
         rw [← h]; simp only [real_libm_asin, kPi180_real, e2])
    rw [hl]
    exact ⟨rfl, hlo, hhi⟩

/-- C28: for the real functions the argument
`sin(dec) sin(lat) + cos(dec) cos(lat) cos(H)` of `asin` in `calc_height` is in
`[-1, 1]` for every declination, latitude and hour angle, so the geometric altitude
`asin(...)` in degrees is defined and in `[-90, 90]`, and `calc_height` is that
altitude plus the correction wherever the tangent of the correction is finite. -/
theorem height_sin_range (c : Calc ℝ) (cd_s : Coord ℝ) (hang : ℝ) :
    height_sin real_libm c cd_s hang
        = Real.sin (Real.pi / 180 * cd_s.lat) * Real.sin (Real.pi / 180 * c.lat_o)
          + Real.cos (Real.pi / 180 * cd_s.lat) * Real.cos (Real.pi / 180 * c.lat_o)
            * Real.cos (Real.pi / 180 * hang) ∧
      -1 ≤ height_sin real_libm c cd_s hang ∧ height_sin real_libm c cd_s hang ≤ 1 ∧
      -90 ≤ real_libm.asin (height_sin real_libm c cd_s hang) / kPi180 real_libm ∧
      real_libm.asin (height_sin real_libm c cd_s hang) / kPi180 real_libm ≤ 90 ∧
      ∀ (cd_k : Coord ℝ) (dd jy : ℝ), ko2se real_libm jy cd_k = some cd_s →
        hang = tm_sidereal c jy dd - cd_s.lng →
        calc_height real_libm c cd_k dd jy =
          if Real.cos (Real.pi / 180 * (90
              - real_libm.asin (height_sin real_libm c cd_s hang) / kPi180 real_libm)) = 0
            then none
          else some (real_libm.asin (height_sin real_libm c cd_s hang) / kPi180 real_libm
            + refraction real_libm
              (real_libm.asin (height_sin real_libm c cd_s hang) / kPi180 real_libm)) := by
  have hpi := Real.pi_pos
  have hr := height_sin_bounds c cd_s hang
  have h1 := Real.neg_pi_div_two_le_arcsin (height_sin real_libm c cd_s hang)
  have h2 := Real.arcsin_le_pi_div_two (height_sin real_libm c cd_s hang)
  refine ⟨height_sin_real c cd_s hang, hr.1, hr.2, ?_, ?_, ?_⟩
  · rw [kPi180_real, real_libm_asin, le_div_iff₀ (by positivity)]; linarith
  · rw [kPi180_real, real_libm_asin, div_le_iff₀ (by positivity)]; linarith
  · intro cd_k dd jy hk hh
    rw [hh]
    exact calc_height_real c cd_k cd_s dd jy hk

/-- C29: for the real functions and a geometric altitude `ht` in `(0, 90]`, the
correction `(58.76 - (0.406 - 0.0192 tanZ) tanZ) tanZ / 3600` with
`tanZ = tan(90 - ht)` is not negative, it is `0` at `ht = 90`, and `calc_height`
returns `ht` plus the correction, which is not below `ht`. -/
theorem refraction_nonneg (ht : ℝ) (h0 : 0 < ht) (h90 : ht ≤ 90) :
    refraction real_libm ht
        = (58.76 - (0.406 - 0.0192 * Real.tan (Real.pi / 180 * (90 - ht)))
            * Real.tan (Real.pi / 180 * (90 - ht)))
          * Real.tan (Real.pi / 180 * (90 - ht)) / 3600 ∧
      0 ≤ refraction real_libm ht ∧ refraction real_libm 90 = 0 ∧
      ht ≤ ht + refraction real_libm ht ∧
      ∀ (c : Calc ℝ) (cd_k cd_s : Coord ℝ) (dd jy : ℝ),
        ko2se real_libm jy cd_k = some cd_s →
        real_libm.asin (height_sin real_libm c cd_s (tm_sidereal c jy dd - cd_s.lng))
          / kPi180 real_libm = ht →
        calc_height real_libm c cd_k dd jy = some (ht + refraction real_libm ht) := by
  have hpi := Real.pi_pos
  have ha0 : 0 ≤ Real.pi / 180 * (90 - ht) := by
    apply mul_nonneg (by positivity); linarith
  have ha1 : Real.pi / 180 * (90 - ht) < Real.pi / 2 := by
    have : Real.pi / 180 * (90 - ht) = Real.pi / 2 - Real.pi / 180 * ht := by ring
    rw [this]
    have : 0 < Real.pi / 180 * ht := by positivity
    linarith
  have ht0 : 0 ≤ Real.tan (Real.pi / 180 * (90 - ht)) :=
    Real.tan_nonneg_of_nonneg_of_le_pi_div_two ha0 (le_of_lt ha1)
  have hpos : 0 ≤ refraction real_libm ht := by
    rw [refraction_real]
    apply div_nonneg _ (by norm_num)
    apply mul_nonneg _ ht0
    nlinarith [sq_nonneg (Real.tan (Real.pi / 180 * (90 - ht)) - 10.5)]
  refine ⟨refraction_real ht, hpos, ?_, by linarith, ?_⟩
  · rw [refraction_real]
    norm_num
  · intro c cd_k cd_s dd jy hk hg
    have hcos : Real.cos (Real.pi / 180 * (90 - ht)) ≠ 0 :=
      ne_of_gt (Real.cos_pos_of_mem_Ioo ⟨by linarith, ha1⟩)
    rw [calc_height_real c cd_k cd_s dd jy hk, hg, if_neg hcos]

/-- Witness of `refraction_nonneg`: at the altitude 90 the correction is 0. -/
theorem refraction_nonneg_witness :
    (0 : ℝ) < 90 ∧ (90 : ℝ) ≤ 90 ∧ 0 ≤ refraction real_libm 90 ∧
      refraction real_libm 90 = 0 :=
  ⟨by norm_num, le_refl _, (refraction_nonneg 90 (by norm_num) (le_refl _)).2.1,
    (refraction_nonneg 90 (by norm_num) (le_refl _)).2.2.1⟩

/-- C30: for the real functions `calc_diff_moon(jy)` is between `0.9507 - 0.0740` and
`0.9507 + 0.0740`, the constant term less and plus the sum of the other eight
amplitudes, and so is positive. -/
theorem calc_diff_moon_bounds (jy : ℝ) :
    0.8767 ≤ calc_diff_moon real_libm jy ∧ calc_diff_moon real_libm jy ≤ 1.0247 ∧
      0 < calc_diff_moon real_libm jy := by
  have h90 : Real.sin (kPi180 real_libm * norm_ang (90.0 : ℝ)) = 1 := by
    have e : norm_ang (90.0 : ℝ) = 90 := by
      have : (90.0 : ℝ) = 90 := by norm_num
      rw [this]
      exact norm_ang_of_abs_lt (by norm_num) (by norm_num)
    rw [e, kPi180_real]
    have : Real.pi / 180 * 90 = Real.pi / 2 := by ring
    rw [this, Real.sin_pi_div_two]
  have hb : ∀ x : ℝ, -1 ≤ Real.sin x ∧ Real.sin x ≤ 1 :=
    fun x => ⟨Real.neg_one_le_sin x, Real.sin_le_one x⟩
  simp only [calc_diff_moon, real_libm_sin, h90]
  have b1 := hb (kPi180 real_libm * norm_ang (227.0 + 4412.0 * jy))
  have b2 := hb (kPi180 real_libm * norm_ang (194.0 + 3773.4 * jy))
  have b3 := hb (kPi180 real_libm * norm_ang (329.0 + 8545.4 * jy))
  have b4 := hb (kPi180 real_libm * norm_ang (100.0 + 13677.3 * jy))
  have b5 := hb (kPi180 real_libm * norm_ang (0.0 + 9543.98 * jy))
  have b6 := hb (kPi180 real_libm * norm_ang (325.7 + 8905.34 * jy))
  have b7 := hb (kPi180 real_libm * norm_ang (190.7 + 4133.35 * jy))
  have b8 := hb (kPi180 real_libm * norm_ang (224.98 + 4771.989 * jy))
  generalize Real.sin (kPi180 real_libm * norm_ang (227.0 + 4412.0 * jy)) = t1 at b1 ⊢
  generalize Real.sin (kPi180 real_libm * norm_ang (194.0 + 3773.4 * jy)) = t2 at b2 ⊢
  generalize Real.sin (kPi180 real_libm * norm_ang (329.0 + 8545.4 * jy)) = t3 at b3 ⊢
  generalize Real.sin (kPi180 real_libm * norm_ang (100.0 + 13677.3 * jy)) = t4 at b4 ⊢
  generalize Real.sin (kPi180 real_libm * norm_ang (0.0 + 9543.98 * jy)) = t5 at b5 ⊢
  generalize Real.sin (kPi180 real_libm * norm_ang (325.7 + 8905.34 * jy)) = t6 at b6 ⊢
  generalize Real.sin (kPi180 real_libm * norm_ang (190.7 + 4133.35 * jy)) = t7 at b7 ⊢
  generalize Real.sin (kPi180 real_libm * norm_ang (224.98 + 4771.989 * jy)) = t8 at b8 ⊢
  refine ⟨?_, ?_, ?_⟩ <;> norm_num <;> linarith [b1.1, b1.2, b2.1, b2.2, b3.1, b3.2, b4.1, b4.2,
    b5.1, b5.2, b6.1, b6.2, b7.1, b7.2, b8.1, b8.2]

/-- C31: `calc_sun` hands the result `dd` of `calc_time_sun` to the conversion with no
test on `dd`, and for `jst = 2021-01-04 00:00:00 JST` (`tv_sec = 1609686000`,
`tv_nsec = 0`) and `dd = -0.0004908248` day, 42.4 seconds before the start of the
day, the conversion gives `tv_sec = 1609685958` and `tv_nsec = -407262720`: the
seconds are truncated toward zero and `tv_nsec` is negative, so the `timespec` is
not normalised although `jst` is. -/
theorem calc_sun_negative_nsec :
    (∀ (α : Type) [LinearOrderedField α] [FloorRing α] (M : Libm α) (c : Calc α)
        (kbn n : Nat),
      calc_sun M c kbn n =
        match calc_time_sun M c kbn n with
        | .running => .running
        | .nan => .nan
        | .value dd =>
          match (if kbn = 2
            then calc_height M c ⟨0.0, calc_lmd_sun M ((c.day_p + dd + c.dlt_t_d) / 365.25)⟩
              dd ((c.day_p + dd + c.dlt_t_d) / 365.25)
            else calc_angle M c ⟨0.0, calc_lmd_sun M ((c.day_p + dd + c.dlt_t_d) / 365.25)⟩
              dd ((c.day_p + dd + c.dlt_t_d) / 365.25)) with
          | none => .nan
          | some ah => .value ⟨event_time c.jst dd, ah⟩) ∧
      event_time ⟨1609686000, 0⟩ (-0.0004908248 : ℚ) = ⟨1609685958, -407262720⟩ ∧
      (event_time ⟨1609686000, 0⟩ (-0.0004908248 : ℚ)).tv_nsec < 0 ∧
      (0 : Int) ≤ (⟨1609686000, 0⟩ : Timespec).tv_nsec ∧
      (⟨1609686000, 0⟩ : Timespec).tv_nsec < 1000000000 := by
  have e : (-0.0004908248 : ℚ) * 86400 = -42.40726272 := by norm_num
  have f : cast_int (-42.40726272 : ℚ) = -42 := by
    rw [cast_int_of_lt (by norm_num) (by norm_num)]
    simp only [truncate]; norm_num [Int.ceil_eq_iff]
  have g : cast_long (((0 : Int) : ℚ) + ((-42.40726272 : ℚ) - ((-42 : Int) : ℚ)) * 1000000000)
      = -407262720 := by
    have : ((0 : Int) : ℚ) + ((-42.40726272 : ℚ) - ((-42 : Int) : ℚ)) * 1000000000
        = ((-407262720 : Int) : ℚ) := by norm_num
    rw [this, cast_long_intCast _ (by norm_num) (by norm_num)]
  have h : event_time ⟨1609686000, 0⟩ (-0.0004908248 : ℚ) = ⟨1609685958, -407262720⟩ := by
    rw [event_time_eq]
    simp only [e, f, g]
    norm_num
  refine ⟨fun α _ _ M c kbn n => by rfl, h, ?_, by norm_num, by norm_num⟩
  rw [h]
  norm_num

end sun_moon
